import Mathlib

/-!
# kubeRadar: collection engine and report synthesis

A shallow embedding of the Go sources of kubeRadar
(`pkg/models/assessment.go`, `pkg/collector/*.go`, `pkg/excel/report.go`)
together with theorems about the embedded functions.

Conventions of the embedding

* Go `string` is `String`; Go `int`, `int32`, `int64` values that are only
  copied or counted are `Int` (counters that start at 0 and are only
  incremented are `Nat`).
* A Go pointer field (`*int64`, `*bool`, `*SecurityContext`) is an `Option`;
  `nil` is `none`.
* A Go slice is a `List`; `nil` and the empty slice are both `[]`.
* A Go `map[string]string` is the list of its entries in the order in which a
  `range` statement enumerates them; `nil` and the empty map are both `[]`.
* A call of the cluster API returns `Except APIError (List α)`.
* A Go function that returns `(value, error)` and may stop with a nil pointer
  dereference returns an `Outcome`.
* The workbook is written through calls of the spreadsheet library; a
  generator function is embedded as the list of the calls it performs, in
  program order.
-/

namespace KubeRadar

/-! ## pkg/models/assessment.go -/

/-- Go `map[string]string`, as the list of its entries in enumeration order. -/
abbrev Labels := List (String × String)

structure NodeInfo where
  Name : String
  Version : String
  Architecture : String
  OS : String
  ContainerRuntime : String
  CPU : String
  Memory : String
  Ready : Bool
  Labels : Labels
  deriving DecidableEq, Repr

structure NamespaceInfo where
  Name : String
  Status : String
  CreatedAt : String
  Labels : Labels
  deriving DecidableEq, Repr

structure ClusterInfo where
  Version : String
  NodeCount : Int
  APIServer : String
  Platform : String
  Nodes : List NodeInfo
  Namespaces : List NamespaceInfo
  deriving DecidableEq, Repr

structure PolicyRule where
  APIGroups : List String
  Resources : List String
  ResourceNames : List String
  Verbs : List String
  deriving DecidableEq, Repr

structure RoleInfo where
  Name : String
  Namespace : String
  ClusterRole : Bool
  Rules : List PolicyRule
  CreatedAt : String
  deriving DecidableEq, Repr

structure Subject where
  Kind : String
  Name : String
  Namespace : String
  deriving DecidableEq, Repr

structure BindingInfo where
  Name : String
  Namespace : String
  RoleRef : String
  Subjects : List Subject
  CreatedAt : String
  deriving DecidableEq, Repr

structure ServiceAccountInfo where
  Name : String
  Namespace : String
  Labels : Labels
  CreatedAt : String
  Secrets : List String
  ImagePullSecrets : List String
  deriving DecidableEq, Repr

structure RBACAssessment where
  ClusterRoles : List RoleInfo
  ClusterRoleBindings : List BindingInfo
  Roles : List RoleInfo
  RoleBindings : List BindingInfo
  ServiceAccounts : List ServiceAccountInfo
  deriving DecidableEq, Repr

structure DeploymentInfo where
  Name : String
  Namespace : String
  Replicas : Int
  UpdateStrategy : String
  Labels : Labels
  CreatedAt : String
  deriving DecidableEq, Repr

structure StatefulSetInfo where
  Name : String
  Namespace : String
  Replicas : Int
  UpdateStrategy : String
  Labels : Labels
  CreatedAt : String
  deriving DecidableEq, Repr

structure DaemonSetInfo where
  Name : String
  Namespace : String
  UpdateStrategy : String
  Labels : Labels
  CreatedAt : String
  deriving DecidableEq, Repr

structure PodSecurityInfo where
  RunAsUser : Option Int
  RunAsGroup : Option Int
  FSGroup : Option Int
  HostNetwork : Bool
  HostPID : Bool
  HostIPC : Bool
  deriving DecidableEq, Repr

structure ContainerSecurityInfo where
  Capabilities : List String
  RunAsUser : Option Int
  RunAsNonRoot : Option Bool
  ReadOnlyRoot : Bool
  Privileged : Bool
  AllowPrivilegeEscalation : Option Bool
  deriving DecidableEq, Repr

structure ResourceList where
  CPU : String
  Memory : String
  deriving DecidableEq, Repr

structure ResourceRequirements where
  Limits : ResourceList
  Requests : ResourceList
  deriving DecidableEq, Repr

structure ContainerInfo where
  Name : String
  Image : String
  SecurityContext : ContainerSecurityInfo
  Resources : ResourceRequirements
  EnvVars : List String
  deriving DecidableEq, Repr

structure PodInfo where
  Name : String
  Namespace : String
  NodeName : String
  ServiceAccount : String
  Labels : Labels
  CreatedAt : String
  SecurityContext : PodSecurityInfo
  Containers : List ContainerInfo
  AutomountServiceAccountToken : Option Bool
  deriving DecidableEq, Repr

structure WorkloadAssessment where
  Pods : List PodInfo
  Deployments : List DeploymentInfo
  StatefulSets : List StatefulSetInfo
  DaemonSets : List DaemonSetInfo
  deriving DecidableEq, Repr

structure ServicePort where
  Port : Int
  TargetPort : Int
  Protocol : String
  deriving DecidableEq, Repr

structure ServiceInfo where
  Name : String
  Namespace : String
  Labels : Labels
  CreatedAt : String
  Type_ : String
  ClusterIP : String
  ExternalIPs : List String
  Ports : List ServicePort
  Size : Int
  deriving DecidableEq, Repr

structure NetworkPolicyInfo where
  Name : String
  Namespace : String
  Labels : Labels
  CreatedAt : String
  PodSelector : String
  PolicyTypes : List String
  deriving DecidableEq, Repr

structure IngressPath where
  Path : String
  ServiceName : String
  ServicePort : Int
  deriving DecidableEq, Repr

structure IngressRule where
  Host : String
  Paths : List IngressPath
  deriving DecidableEq, Repr

structure IngressInfo where
  Name : String
  Namespace : String
  Labels : Labels
  CreatedAt : String
  Rules : List IngressRule
  TLS : List String
  deriving DecidableEq, Repr

structure NetworkAssessment where
  Services : List ServiceInfo
  NetworkPolicies : List NetworkPolicyInfo
  Ingresses : List IngressInfo
  deriving DecidableEq, Repr

/-- SecretInfo of the Go model; the embedded `CommonInfo` is flattened.
The Go field `Type` is `Type_` here, as in `ServiceInfo`. -/
structure SecretInfo where
  Name : String
  Namespace : String
  Labels : Labels
  CreatedAt : String
  Type_ : String
  deriving DecidableEq, Repr

structure SecretAssessment where
  Secrets : List SecretInfo
  deriving DecidableEq, Repr

structure AssessmentData where
  ClusterInfo : ClusterInfo
  RBAC : RBACAssessment
  Workloads : WorkloadAssessment
  Network : NetworkAssessment
  Secrets : SecretAssessment
  deriving DecidableEq, Repr

/-! ## The cluster API, as far as the collectors read it

The records below carry exactly the fields of the Kubernetes API objects that
the collectors read.  Values that the collectors obtain through a library
method that renders them (`Quantity.String()`, `Time.String()`,
`LabelSelector.String()`, `version.Info.String()`) are carried in rendered
form, as strings. -/

structure APIError where
  msg : String
  deriving DecidableEq, Repr

structure RawNodeCondition where
  Type_ : String
  Status : String
  deriving DecidableEq, Repr

structure RawNode where
  Name : String
  KubeletVersion : String
  Architecture : String
  OperatingSystem : String
  ContainerRuntimeVersion : String
  CapacityCPU : String
  CapacityMemory : String
  Conditions : List RawNodeCondition
  Labels : Labels
  deriving DecidableEq, Repr

structure RawNamespace where
  Name : String
  Phase : String
  CreationTimestamp : String
  Labels : Labels
  deriving DecidableEq, Repr

structure RawPolicyRule where
  APIGroups : List String
  Resources : List String
  ResourceNames : List String
  Verbs : List String
  deriving DecidableEq, Repr

structure RawSubject where
  Kind : String
  Name : String
  Namespace : String
  deriving DecidableEq, Repr

structure RawClusterRole where
  Name : String
  Rules : List RawPolicyRule
  CreationTimestamp : String
  deriving DecidableEq, Repr

structure RawRole where
  Name : String
  Namespace : String
  Rules : List RawPolicyRule
  CreationTimestamp : String
  deriving DecidableEq, Repr

structure RawClusterRoleBinding where
  Name : String
  RoleRefName : String
  Subjects : List RawSubject
  CreationTimestamp : String
  deriving DecidableEq, Repr

structure RawRoleBinding where
  Name : String
  Namespace : String
  RoleRefName : String
  Subjects : List RawSubject
  CreationTimestamp : String
  deriving DecidableEq, Repr

structure RawServiceAccount where
  Name : String
  Namespace : String
  Labels : Labels
  CreationTimestamp : String
  Secrets : List String
  ImagePullSecrets : List String
  deriving DecidableEq, Repr

structure RawCapabilities where
  Add : List String
  Drop : List String
  deriving DecidableEq, Repr

structure RawSecurityContext where
  Capabilities : Option RawCapabilities
  RunAsUser : Option Int
  RunAsNonRoot : Option Bool
  ReadOnlyRootFilesystem : Option Bool
  Privileged : Option Bool
  AllowPrivilegeEscalation : Option Bool
  deriving DecidableEq, Repr

structure RawEnvVar where
  Name : String
  Value : String
  ValueFrom : Option String
  deriving DecidableEq, Repr

structure RawContainer where
  Name : String
  Image : String
  SecurityContext : Option RawSecurityContext
  Env : List RawEnvVar
  LimitsCPU : String
  LimitsMemory : String
  RequestsCPU : String
  RequestsMemory : String
  deriving DecidableEq, Repr

structure RawPodSecurityContext where
  RunAsUser : Option Int
  RunAsGroup : Option Int
  FSGroup : Option Int
  deriving DecidableEq, Repr

structure RawPod where
  Name : String
  Namespace : String
  ServiceAccountName : String
  NodeName : String
  CreationTimestamp : String
  Labels : Labels
  SecurityContext : Option RawPodSecurityContext
  HostNetwork : Bool
  HostPID : Bool
  HostIPC : Bool
  Containers : List RawContainer
  AutomountServiceAccountToken : Option Bool
  deriving DecidableEq, Repr

structure RawDeployment where
  Name : String
  Namespace : String
  Replicas : Option Int
  StrategyType : String
  Labels : Labels
  CreationTimestamp : String
  deriving DecidableEq, Repr

structure RawStatefulSet where
  Name : String
  Namespace : String
  Replicas : Option Int
  UpdateStrategyType : String
  Labels : Labels
  CreationTimestamp : String
  deriving DecidableEq, Repr

structure RawDaemonSet where
  Name : String
  Namespace : String
  UpdateStrategyType : String
  Labels : Labels
  CreationTimestamp : String
  deriving DecidableEq, Repr

structure RawServicePort where
  Port : Int
  Protocol : String
  TargetPortIntVal : Int
  deriving DecidableEq, Repr

structure RawService where
  Name : String
  Namespace : String
  Labels : Labels
  CreationTimestamp : String
  Type_ : String
  ClusterIP : String
  ExternalIPs : List String
  Ports : List RawServicePort
  deriving DecidableEq, Repr

structure RawNetworkPolicy where
  Name : String
  Namespace : String
  Labels : Labels
  CreationTimestamp : String
  PodSelector : String
  PolicyTypes : List String
  deriving DecidableEq, Repr

structure RawIngressServiceBackend where
  Name : String
  PortNumber : Int
  deriving DecidableEq, Repr

/-- One entry of `rule.HTTP.Paths`; `BackendService` is the pointer
`path.Backend.Service`, which is nil for a resource backend. -/
structure RawHTTPIngressPath where
  Path : String
  BackendService : Option RawIngressServiceBackend
  deriving DecidableEq, Repr

/-- One entry of `ing.Spec.Rules`; `HTTP` is the pointer `rule.HTTP`, carried
as its path list. -/
structure RawIngressRule where
  Host : String
  HTTP : Option (List RawHTTPIngressPath)
  deriving DecidableEq, Repr

structure RawIngressTLS where
  Hosts : List String
  deriving DecidableEq, Repr

structure RawIngress where
  Name : String
  Namespace : String
  Labels : Labels
  CreationTimestamp : String
  Rules : List RawIngressRule
  TLS : List RawIngressTLS
  deriving DecidableEq, Repr

structure RawSecret where
  Name : String
  Namespace : String
  Labels : Labels
  CreationTimestamp : String
  Type_ : String
  Data : List (String × String)
  StringData : List (String × String)
  deriving DecidableEq, Repr

/-- The read-only query surface of the cluster, as the collectors use it: the
result of every list call the collectors can issue.  The namespace list is
requested once by each of the five sub-collectors, so it has five results, one
per call site; a namespaced list call is keyed by the namespace name passed to
it. -/
structure Client where
  Host : String
  ServerVersion : Except APIError String
  Nodes : Except APIError (List RawNode)
  NamespacesForClusterInfo : Except APIError (List RawNamespace)
  ClusterRoles : Except APIError (List RawClusterRole)
  ClusterRoleBindings : Except APIError (List RawClusterRoleBinding)
  NamespacesForRBAC : Except APIError (List RawNamespace)
  Roles : String → Except APIError (List RawRole)
  RoleBindings : String → Except APIError (List RawRoleBinding)
  ServiceAccounts : String → Except APIError (List RawServiceAccount)
  NamespacesForWorkloads : Except APIError (List RawNamespace)
  Pods : String → Except APIError (List RawPod)
  Deployments : String → Except APIError (List RawDeployment)
  StatefulSets : String → Except APIError (List RawStatefulSet)
  DaemonSets : String → Except APIError (List RawDaemonSet)
  NamespacesForNetwork : Except APIError (List RawNamespace)
  Services : String → Except APIError (List RawService)
  NetworkPolicies : String → Except APIError (List RawNetworkPolicy)
  Ingresses : String → Except APIError (List RawIngress)
  NamespacesForSecrets : Except APIError (List RawNamespace)
  Secrets : String → Except APIError (List RawSecret)

/-- How a call of a Go function of the collector ends: it returns a value and a
nil error, it returns a non-nil error (the value returned beside it is dropped
by the only caller, `CollectAll`), or the run stops with a nil pointer
dereference. -/
inductive Outcome (α : Type) where
  | ok (value : α)
  | error (err : APIError)
  | nilDereference
  deriving DecidableEq, Repr

/-- Sequencing of two steps: the second runs only when the first returned a
value. -/
def Outcome.bind {α β : Type} (x : Outcome α) (f : α → Outcome β) : Outcome β :=
  match x with
  | .ok a => f a
  | .error e => .error e
  | .nilDereference => .nilDereference

/-- A loop `for _, x := range xs` whose body appends one converted entry per
element and dereferences a pointer of the element: `f x = none` when the
pointer is nil, and then the whole loop stops. -/
def convertAll {α β : Type} (f : α → Option β) : List α → Option (List β)
  | [] => some []
  | x :: xs =>
    match f x with
    | none => none
    | some y =>
      match convertAll f xs with
      | none => none
      | some ys => some (y :: ys)

/-- A loop `for _, ns := range namespaces.Items` over a body that transforms
the model under construction (a `continue` in the body is a body that returns
the model it has so far). -/
def forEachNamespace {σ : Type} (body : σ → RawNamespace → Outcome σ) :
    List RawNamespace → σ → Outcome σ
  | [], s => .ok s
  | ns :: rest, s =>
    match body s ns with
    | .ok s1 => forEachNamespace body rest s1
    | .error e => .error e
    | .nilDereference => .nilDereference

/-! ## pkg/collector/collector.go: cluster information -/

/-- The scan of `node.Status.Conditions` in `collectClusterInfo`: `Ready`
starts false, the first condition of type "Ready" sets it and ends the scan
(`break`). -/
def nodeReady : List RawNodeCondition → Bool
  | [] => false
  | condition :: rest =>
    if condition.Type_ = "Ready" then decide (condition.Status = "True")
    else nodeReady rest

/-- The `models.NodeInfo` built for one node by `collectClusterInfo`. -/
def nodeInfo (node : RawNode) : NodeInfo :=
  { Name := node.Name
    Version := node.KubeletVersion
    Architecture := node.Architecture
    OS := node.OperatingSystem
    ContainerRuntime := node.ContainerRuntimeVersion
    CPU := node.CapacityCPU
    Memory := node.CapacityMemory
    Ready := nodeReady node.Conditions
    Labels := node.Labels }

/-- The `models.NamespaceInfo` built for one namespace by
`collectClusterInfo`. -/
def namespaceInfo (ns : RawNamespace) : NamespaceInfo :=
  { Name := ns.Name
    Status := ns.Phase
    CreatedAt := ns.CreationTimestamp
    Labels := ns.Labels }

/-- Embedding of `(*Collector).collectClusterInfo`. -/
def collectClusterInfo (c : Client) : Outcome ClusterInfo :=
  match c.ServerVersion with
  | .error err => .error err
  | .ok version =>
    match c.Nodes with
    | .error err => .error err
    | .ok nodes =>
      match c.NamespacesForClusterInfo with
      | .error err => .error err
      | .ok namespaces =>
        .ok
          { Version := version
            NodeCount := (nodes.length : Int)
            Platform :=
              (match nodes with
               | first :: _ => first.OperatingSystem
               | [] => "")
            Nodes := nodes.map nodeInfo
            Namespaces := namespaces.map namespaceInfo
            APIServer := c.Host }

/-! ## pkg/collector/rbac.go -/

def policyRule (rule : RawPolicyRule) : PolicyRule :=
  { APIGroups := rule.APIGroups
    Resources := rule.Resources
    ResourceNames := rule.ResourceNames
    Verbs := rule.Verbs }

def subjectOf (subject : RawSubject) : Subject :=
  { Kind := subject.Kind, Name := subject.Name, Namespace := subject.Namespace }

def clusterRoleInfo (cr : RawClusterRole) : RoleInfo :=
  { Name := cr.Name
    Namespace := ""
    ClusterRole := true
    Rules := cr.Rules.map policyRule
    CreatedAt := cr.CreationTimestamp }

def clusterRoleBindingInfo (crb : RawClusterRoleBinding) : BindingInfo :=
  { Name := crb.Name
    Namespace := ""
    RoleRef := crb.RoleRefName
    Subjects := crb.Subjects.map subjectOf
    CreatedAt := crb.CreationTimestamp }

def roleInfo (role : RawRole) : RoleInfo :=
  { Name := role.Name
    Namespace := role.Namespace
    ClusterRole := false
    Rules := role.Rules.map policyRule
    CreatedAt := role.CreationTimestamp }

def roleBindingInfo (rb : RawRoleBinding) : BindingInfo :=
  { Name := rb.Name
    Namespace := rb.Namespace
    RoleRef := rb.RoleRefName
    Subjects := rb.Subjects.map subjectOf
    CreatedAt := rb.CreationTimestamp }

def serviceAccountInfo (sa : RawServiceAccount) : ServiceAccountInfo :=
  { Name := sa.Name
    Namespace := sa.Namespace
    Labels := sa.Labels
    CreatedAt := sa.CreationTimestamp
    Secrets := sa.Secrets
    ImagePullSecrets := sa.ImagePullSecrets }

/-- Body of the namespace loop of `collectRBACInfo`; each failed list call
ends the iteration for this namespace (`continue`). -/
def rbacNamespaceBody (c : Client) (rbac : RBACAssessment) (ns : RawNamespace) :
    Outcome RBACAssessment :=
  match c.Roles ns.Name with
  | .error _ => .ok rbac
  | .ok roles =>
    let rbac1 := { rbac with Roles := rbac.Roles ++ roles.map roleInfo }
    match c.RoleBindings ns.Name with
    | .error _ => .ok rbac1
    | .ok roleBindings =>
      let rbac2 :=
        { rbac1 with RoleBindings := rbac1.RoleBindings ++ roleBindings.map roleBindingInfo }
      match c.ServiceAccounts ns.Name with
      | .error _ => .ok rbac2
      | .ok serviceAccounts =>
        .ok { rbac2 with
              ServiceAccounts := rbac2.ServiceAccounts ++ serviceAccounts.map serviceAccountInfo }

/-- Embedding of `(*Collector).collectRBACInfo`. -/
def collectRBACInfo (c : Client) : Outcome RBACAssessment :=
  match c.ClusterRoles with
  | .error err => .error err
  | .ok clusterRoles =>
    match c.ClusterRoleBindings with
    | .error err => .error err
    | .ok clusterRoleBindings =>
      match c.NamespacesForRBAC with
      | .error err => .error err
      | .ok namespaces =>
        forEachNamespace (rbacNamespaceBody c) namespaces
          { ClusterRoles := clusterRoles.map clusterRoleInfo
            ClusterRoleBindings := clusterRoleBindings.map clusterRoleBindingInfo
            Roles := []
            RoleBindings := []
            ServiceAccounts := [] }

/-! ## pkg/collector/workload.go -/

/-- Embedding of `getCapabilities`. -/
def getCapabilities (capabilities : Option RawCapabilities) : List String :=
  match capabilities with
  | none => []
  | some caps => caps.Add.map (fun cap => "+" ++ cap) ++ caps.Drop.map (fun cap => "-" ++ cap)

/-- The `models.ContainerSecurityInfo` of a container: the zero value when the
container has no security context. -/
def containerSecurityInfo (securityContext : Option RawSecurityContext) :
    ContainerSecurityInfo :=
  match securityContext with
  | none =>
    { Capabilities := []
      RunAsUser := none
      RunAsNonRoot := none
      ReadOnlyRoot := false
      Privileged := false
      AllowPrivilegeEscalation := none }
  | some sc =>
    { Capabilities := getCapabilities sc.Capabilities
      RunAsUser := sc.RunAsUser
      RunAsNonRoot := sc.RunAsNonRoot
      ReadOnlyRoot := sc.ReadOnlyRootFilesystem.getD false
      Privileged := sc.Privileged.getD false
      AllowPrivilegeEscalation := sc.AllowPrivilegeEscalation }

def containerInfo (container : RawContainer) : ContainerInfo :=
  { Name := container.Name
    Image := container.Image
    SecurityContext := containerSecurityInfo container.SecurityContext
    Resources :=
      { Limits := { CPU := container.LimitsCPU, Memory := container.LimitsMemory }
        Requests := { CPU := container.RequestsCPU, Memory := container.RequestsMemory } }
    EnvVars := container.Env.map (fun env => env.Name) }

/-- The `models.PodSecurityInfo` of a pod: the zero value when the pod spec has
no pod-level security context. -/
def podSecurityInfo (pod : RawPod) : PodSecurityInfo :=
  match pod.SecurityContext with
  | none =>
    { RunAsUser := none
      RunAsGroup := none
      FSGroup := none
      HostNetwork := false
      HostPID := false
      HostIPC := false }
  | some podSecurity =>
    { RunAsUser := podSecurity.RunAsUser
      RunAsGroup := podSecurity.RunAsGroup
      FSGroup := podSecurity.FSGroup
      HostNetwork := pod.HostNetwork
      HostPID := pod.HostPID
      HostIPC := pod.HostIPC }

def podInfo (pod : RawPod) : PodInfo :=
  { Name := pod.Name
    Namespace := pod.Namespace
    ServiceAccount := pod.ServiceAccountName
    SecurityContext := podSecurityInfo pod
    Containers := pod.Containers.map containerInfo
    NodeName := pod.NodeName
    CreatedAt := pod.CreationTimestamp
    Labels := pod.Labels
    AutomountServiceAccountToken := pod.AutomountServiceAccountToken }

/-- The `models.DeploymentInfo` of a deployment; `*deploy.Spec.Replicas`
dereferences a pointer, so there is no result when it is nil. -/
def deploymentInfo (deploy : RawDeployment) : Option DeploymentInfo :=
  match deploy.Replicas with
  | none => none
  | some replicas =>
    some
      { Name := deploy.Name
        Namespace := deploy.Namespace
        Replicas := replicas
        UpdateStrategy := deploy.StrategyType
        Labels := deploy.Labels
        CreatedAt := deploy.CreationTimestamp }

/-- The `models.StatefulSetInfo` of a stateful set; `*sts.Spec.Replicas`
dereferences a pointer, so there is no result when it is nil. -/
def statefulSetInfo (sts : RawStatefulSet) : Option StatefulSetInfo :=
  match sts.Replicas with
  | none => none
  | some replicas =>
    some
      { Name := sts.Name
        Namespace := sts.Namespace
        Replicas := replicas
        UpdateStrategy := sts.UpdateStrategyType
        Labels := sts.Labels
        CreatedAt := sts.CreationTimestamp }

def daemonSetInfo (ds : RawDaemonSet) : DaemonSetInfo :=
  { Name := ds.Name
    Namespace := ds.Namespace
    UpdateStrategy := ds.UpdateStrategyType
    Labels := ds.Labels
    CreatedAt := ds.CreationTimestamp }

/-- The "Collect Deployments" block of the namespace loop (`if err == nil`). -/
def collectDeployments (c : Client) (ns : RawNamespace) (w : WorkloadAssessment) :
    Outcome WorkloadAssessment :=
  match c.Deployments ns.Name with
  | .error _ => .ok w
  | .ok deployments =>
    match convertAll deploymentInfo deployments with
    | none => .nilDereference
    | some infos => .ok { w with Deployments := w.Deployments ++ infos }

/-- The "Collect StatefulSets" block of the namespace loop (`if err == nil`). -/
def collectStatefulSets (c : Client) (ns : RawNamespace) (w : WorkloadAssessment) :
    Outcome WorkloadAssessment :=
  match c.StatefulSets ns.Name with
  | .error _ => .ok w
  | .ok statefulSets =>
    match convertAll statefulSetInfo statefulSets with
    | none => .nilDereference
    | some infos => .ok { w with StatefulSets := w.StatefulSets ++ infos }

/-- The "Collect DaemonSets" block of the namespace loop (`if err == nil`). -/
def collectDaemonSets (c : Client) (ns : RawNamespace) (w : WorkloadAssessment) :
    WorkloadAssessment :=
  match c.DaemonSets ns.Name with
  | .error _ => w
  | .ok daemonSets => { w with DaemonSets := w.DaemonSets ++ daemonSets.map daemonSetInfo }

/-- Body of the namespace loop of `collectWorkloadInfo`: a failed pods list
ends the iteration for this namespace (`continue`); the three later blocks
are guarded by `if err == nil`. -/
def workloadNamespaceBody (c : Client) (w : WorkloadAssessment) (ns : RawNamespace) :
    Outcome WorkloadAssessment :=
  match c.Pods ns.Name with
  | .error _ => .ok w
  | .ok pods =>
    (collectDeployments c ns { w with Pods := w.Pods ++ pods.map podInfo }).bind fun w1 =>
      (collectStatefulSets c ns w1).bind fun w2 =>
        .ok (collectDaemonSets c ns w2)

/-- Embedding of `(*Collector).collectWorkloadInfo`. -/
def collectWorkloadInfo (c : Client) : Outcome WorkloadAssessment :=
  match c.NamespacesForWorkloads with
  | .error err => .error err
  | .ok namespaces =>
    forEachNamespace (workloadNamespaceBody c) namespaces
      { Pods := [], Deployments := [], StatefulSets := [], DaemonSets := [] }

/-! ## pkg/collector/network.go -/

def servicePort (port : RawServicePort) : ServicePort :=
  { Port := port.Port, Protocol := port.Protocol, TargetPort := port.TargetPortIntVal }

def serviceInfo (svc : RawService) : ServiceInfo :=
  { Name := svc.Name
    Namespace := svc.Namespace
    Labels := svc.Labels
    CreatedAt := svc.CreationTimestamp
    Type_ := svc.Type_
    ClusterIP := svc.ClusterIP
    ExternalIPs := svc.ExternalIPs
    Ports := svc.Ports.map servicePort
    Size := 0 }

def networkPolicyInfo (netpol : RawNetworkPolicy) : NetworkPolicyInfo :=
  { Name := netpol.Name
    Namespace := netpol.Namespace
    Labels := netpol.Labels
    CreatedAt := netpol.CreationTimestamp
    PodSelector := netpol.PodSelector
    PolicyTypes := netpol.PolicyTypes }

/-- The `models.IngressPath` of one HTTP path; `path.Backend.Service.Name`
dereferences the pointer `path.Backend.Service`, so there is no result when it
is nil. -/
def ingressPath (path : RawHTTPIngressPath) : Option IngressPath :=
  match path.BackendService with
  | none => none
  | some service =>
    some { Path := path.Path, ServiceName := service.Name, ServicePort := service.PortNumber }

/-- The loop over `ing.Spec.Rules`: a rule with an empty host is skipped, the
paths of a kept rule are those of its HTTP section when it has one. -/
def ingressRules : List RawIngressRule → Option (List IngressRule)
  | [] => some []
  | rule :: rest =>
    if rule.Host ≠ "" then
      match (match rule.HTTP with
             | none => some []
             | some httpPaths => convertAll ingressPath httpPaths) with
      | none => none
      | some paths =>
        match ingressRules rest with
        | none => none
        | some rules => some ({ Host := rule.Host, Paths := paths } :: rules)
    else ingressRules rest

def ingressInfo (ing : RawIngress) : Option IngressInfo :=
  match ingressRules ing.Rules with
  | none => none
  | some rules =>
    some
      { Name := ing.Name
        Namespace := ing.Namespace
        Labels := ing.Labels
        CreatedAt := ing.CreationTimestamp
        Rules := rules
        TLS := (ing.TLS.map (fun tls => tls.Hosts)).flatten }

/-- Body of the namespace loop of `collectNetworkInfo`; each failed list call
ends the iteration for this namespace (`continue`). -/
def networkNamespaceBody (c : Client) (network : NetworkAssessment) (ns : RawNamespace) :
    Outcome NetworkAssessment :=
  match c.Services ns.Name with
  | .error _ => .ok network
  | .ok services =>
    let network1 := { network with Services := network.Services ++ services.map serviceInfo }
    match c.NetworkPolicies ns.Name with
    | .error _ => .ok network1
    | .ok netpols =>
      let network2 :=
        { network1 with
          NetworkPolicies := network1.NetworkPolicies ++ netpols.map networkPolicyInfo }
      match c.Ingresses ns.Name with
      | .error _ => .ok network2
      | .ok ingresses =>
        match convertAll ingressInfo ingresses with
        | none => .nilDereference
        | some infos => .ok { network2 with Ingresses := network2.Ingresses ++ infos }

/-- Embedding of `(*Collector).collectNetworkInfo`. -/
def collectNetworkInfo (c : Client) : Outcome NetworkAssessment :=
  match c.NamespacesForNetwork with
  | .error err => .error err
  | .ok namespaces =>
    forEachNamespace (networkNamespaceBody c) namespaces
      { Services := [], NetworkPolicies := [], Ingresses := [] }

/-! ## pkg/collector/secrets.go -/

def secretInfo (secret : RawSecret) : SecretInfo :=
  { Name := secret.Name
    Namespace := secret.Namespace
    Labels := secret.Labels
    CreatedAt := secret.CreationTimestamp
    Type_ := secret.Type_ }

/-- Body of the namespace loop of `collectSecretInfo`. -/
def secretNamespaceBody (c : Client) (sa : SecretAssessment) (ns : RawNamespace) :
    Outcome SecretAssessment :=
  match c.Secrets ns.Name with
  | .error _ => .ok sa
  | .ok secrets => .ok { sa with Secrets := sa.Secrets ++ secrets.map secretInfo }

/-- Embedding of `(*Collector).collectSecretInfo`. -/
def collectSecretInfo (c : Client) : Outcome SecretAssessment :=
  match c.NamespacesForSecrets with
  | .error err => .error err
  | .ok namespaces => forEachNamespace (secretNamespaceBody c) namespaces { Secrets := [] }

/-! ## pkg/collector/collector.go: the orchestrator -/

/-- Embedding of `(*Collector).CollectAll`.  `Outcome.error err` is the Go
result `(nil, err)`; `Outcome.ok data` is `(&data, nil)`. -/
def CollectAll (c : Client) : Outcome AssessmentData :=
  match collectClusterInfo c with
  | .nilDereference => .nilDereference
  | .error err => .error err
  | .ok clusterInfo =>
    match collectRBACInfo c with
    | .nilDereference => .nilDereference
    | .error err => .error err
    | .ok rbac =>
      match collectWorkloadInfo c with
      | .nilDereference => .nilDereference
      | .error err => .error err
      | .ok workloads =>
        match collectNetworkInfo c with
        | .nilDereference => .nilDereference
        | .error err => .error err
        | .ok network =>
          match collectSecretInfo c with
          | .nilDereference => .nilDereference
          | .error err => .error err
          | .ok secrets =>
            .ok
              { ClusterInfo := clusterInfo
                RBAC := rbac
                Workloads := workloads
                Network := network
                Secrets := secrets }

/-! ## pkg/excel/report.go: the workbook interface -/

/-- A value passed to `SetCellValue`. -/
inductive CellValue where
  | str (s : String)
  | int (n : Int)
  | bool (b : Bool)
  deriving DecidableEq, Repr

structure ChartSeries where
  Name : String
  Categories : String
  Values : String
  deriving DecidableEq, Repr

/-- The fields of `excelize.Chart` that the report sets. -/
structure Chart where
  Type_ : String
  Series : List ChartSeries
  Title : String
  LegendPosition : String
  deriving DecidableEq, Repr

/-- One call made on the workbook.  `autoFitColumns` records a call of the
report's own method of that name, whose effect depends on the cells present in
the sheet when it runs. -/
inductive WorkbookOp where
  | setSheetName (source target : String)
  | newSheet (sheet : String)
  | setCellValue (sheet cell : String) (value : CellValue)
  | mergeCell (sheet topLeft bottomRight : String)
  | setCellStyle (sheet topLeft bottomRight : String) (style : Int)
  | setCellHyperLink (sheet cell link linkType : String)
  | autoFilter (sheet range : String)
  | addPicture (sheet cell path : String)
  | addChart (sheet cell : String) (chart : Chart)
  | setColWidth (sheet startCol endCol : String) (width : Int)
  | autoFitColumns (sheet : String)
  | saveAs (path : String)
  deriving DecidableEq, Repr

/-- The style identifiers held by a `Report`. -/
structure Report where
  filePath : String
  headerStyle : Int
  contentStyle : Int
  sectionStyle : Int
  altRowStyle : Int
  wrapTextStyle : Int
  titleStyle : Int
  criticalStyle : Int
  warningStyle : Int
  moderateStyle : Int
  goodStyle : Int
  deriving DecidableEq, Repr

/-- A loop `for i, x := range xs` whose body performs workbook calls: the calls
of all iterations in order, `i` counting from the given start. -/
def forEachIndexed {α : Type} (body : Nat → α → List WorkbookOp) :
    Nat → List α → List WorkbookOp
  | _, [] => []
  | i, x :: xs => body i x ++ forEachIndexed body (i + 1) xs

/-- The text `fmt.Sprintf("<col>%d", row)`. -/
def cellName (col : String) (row : Nat) : String := col ++ toString row

/-! ## pkg/excel/report.go: formatLabels -/

/-- Lexicographic comparison of two sequences of code points. -/
def codePointsLe : List Nat → List Nat → Bool
  | [], _ => true
  | _ :: _, [] => false
  | a :: as, b :: bs =>
    if a < b then true
    else if b < a then false
    else codePointsLe as bs

/-- Go's `a <= b` on strings.  Go compares the bytes; for UTF-8 text the byte
order is the lexicographic order of the code points. -/
def stringLe (a b : String) : Bool :=
  codePointsLe (a.toList.map Char.toNat) (b.toList.map Char.toNat)

/-- The relation `stringLe` as a proposition. -/
def StringLE (a b : String) : Prop := stringLe a b = true

instance StringLE.decidableRel : DecidableRel StringLE :=
  fun a b => inferInstanceAs (Decidable (stringLe a b = true))

/-- Go's `sort.Strings`, a library routine that puts the slice in ascending
order: modelled by insertion sort.  The order is total and antisymmetric, so
the ascending arrangement of a given slice is unique
(`sortStrings_eq_of_perm_sorted`). -/
def sortStrings (xs : List String) : List String :=
  xs.insertionSort StringLE

/-- Embedding of `(*Report).formatLabels`; the argument lists the entries of
the map in the order in which `range` enumerates them. -/
def formatLabels (labels : Labels) : String :=
  if labels.length = 0 then ""
  else String.intercalate "\n" (sortStrings (labels.map fun kv => kv.1 ++ ": " ++ kv.2))

/-! ## pkg/excel/report.go: generateDashboard -/

/-- The five pod counters and the pod total of `generateDashboard`. -/
structure PodSecurityTotals where
  podTotal : Nat
  podPrivileged : Nat
  podHostNetwork : Nat
  podHostPID : Nat
  podHostIPC : Nat
  podRunAsRoot : Nat
  deriving DecidableEq, Repr

/-- The inner loop `for _, c := range pod.Containers` of `generateDashboard`:
at the first container that is privileged or has run-as-user 0 one counter is
incremented and the loop ends (`break`). -/
def scanContainers : List ContainerInfo → PodSecurityTotals → PodSecurityTotals
  | [], t => t
  | c :: rest, t =>
    if c.SecurityContext.Privileged then { t with podPrivileged := t.podPrivileged + 1 }
    else if c.SecurityContext.RunAsUser = some 0 then
      { t with podRunAsRoot := t.podRunAsRoot + 1 }
    else scanContainers rest t

/-- Body of the loop `for _, pod := range data.Workloads.Pods`. -/
def countPod (t : PodSecurityTotals) (pod : PodInfo) : PodSecurityTotals :=
  let t1 := scanContainers pod.Containers t
  let t2 := if pod.SecurityContext.HostNetwork then
    { t1 with podHostNetwork := t1.podHostNetwork + 1 } else t1
  let t3 := if pod.SecurityContext.HostPID then
    { t2 with podHostPID := t2.podHostPID + 1 } else t2
  if pod.SecurityContext.HostIPC then { t3 with podHostIPC := t3.podHostIPC + 1 } else t3

/-- The counters of `generateDashboard` after the loop over the pods. -/
def podSecurityTotals (pods : List PodInfo) : PodSecurityTotals :=
  pods.foldl countPod
    { podTotal := pods.length
      podPrivileged := 0
      podHostNetwork := 0
      podHostPID := 0
      podHostIPC := 0
      podRunAsRoot := 0 }

/-- The slice `metrics` of `generateDashboard`. -/
def dashboardMetrics (data : AssessmentData) : List (String × CellValue) :=
  [ ("Kubernetes Version", .str data.ClusterInfo.Version),
    ("Total Nodes", .int data.ClusterInfo.NodeCount),
    ("Total Namespaces", .int data.ClusterInfo.Namespaces.length),
    ("Total Pods", .int data.Workloads.Pods.length),
    ("Total Deployments", .int data.Workloads.Deployments.length),
    ("Total StatefulSets", .int data.Workloads.StatefulSets.length),
    ("Total DaemonSets", .int data.Workloads.DaemonSets.length),
    ("Total Services", .int data.Network.Services.length),
    ("Total Network Policies", .int data.Network.NetworkPolicies.length),
    ("Total Ingresses", .int data.Network.Ingresses.length),
    ("Total Secrets", .int data.Secrets.Secrets.length),
    ("Total Roles", .int data.RBAC.Roles.length),
    ("Total ClusterRoles", .int data.RBAC.ClusterRoles.length),
    ("Total RoleBindings", .int data.RBAC.RoleBindings.length),
    ("Total ClusterRoleBindings", .int data.RBAC.ClusterRoleBindings.length),
    ("Total ServiceAccounts", .int data.RBAC.ServiceAccounts.length) ]

/-- The style of the `i`-th row of a dashboard table. -/
def rowStyle (r : Report) (i : Nat) : Int :=
  if i % 2 = 1 then r.altRowStyle else r.contentStyle

/-- The loop `for i, metric := range metrics`. -/
def metricRows (r : Report) (sheet : String) (metrics : List (String × CellValue)) :
    List WorkbookOp :=
  forEachIndexed
    (fun i metric =>
      let row := i + 4
      [ .setCellValue sheet (cellName "A" row) (.str metric.1),
        .setCellValue sheet (cellName "B" row) metric.2,
        .setCellStyle sheet (cellName "A" row) (cellName "B" row) (rowStyle r i) ])
    0 metrics

/-- The loop that writes a summary table in columns E and F:
`for i, label := range labels` with `row := firstRow + i`, writing `label` and
`counts[i]` (both slices are literals of the same length in the source). -/
def summaryTableRows (r : Report) (sheet : String) (firstRow : Nat) (labels : List String)
    (counts : List Int) : List WorkbookOp :=
  forEachIndexed
    (fun i label =>
      let row := firstRow + i
      [ .setCellValue sheet (cellName "E" row) (.str label),
        .setCellValue sheet (cellName "F" row) (.int (counts.getD i 0)),
        .setCellStyle sheet (cellName "E" row) (cellName "F" row) (rowStyle r i) ])
    0 labels

def rbacTableStart : Nat := 4

def rbacLabels : List String :=
  ["Roles", "ClusterRoles", "RoleBindings", "ClusterRoleBindings", "ServiceAccounts"]

def rbacCounts (data : AssessmentData) : List Int :=
  [ data.RBAC.Roles.length,
    data.RBAC.ClusterRoles.length,
    data.RBAC.RoleBindings.length,
    data.RBAC.ClusterRoleBindings.length,
    data.RBAC.ServiceAccounts.length ]

/-- The loop `for i, label := range rbacLabels`, `row := rbacTableStart + 1 + i`. -/
def rbacTableRows (r : Report) (sheet : String) (data : AssessmentData) : List WorkbookOp :=
  summaryTableRows r sheet (rbacTableStart + 1) rbacLabels (rbacCounts data)

def rbacChart (sheet : String) : Chart :=
  { Type_ := "col"
    Series :=
      [ { Name := "RBAC Objects"
          Categories := sheet ++ "!$E$5:$E$9"
          Values := sheet ++ "!$F$5:$F$9" } ]
    Title := "RBAC Objects Distribution"
    LegendPosition := "top" }

def podTableStart : Nat := 12

def podLabels : List String :=
  ["Total Pods", "Privileged", "Host Network", "Host PID", "Host IPC", "RunAsRoot"]

def podCounts (data : AssessmentData) : List Int :=
  let t := podSecurityTotals data.Workloads.Pods
  [ t.podTotal, t.podPrivileged, t.podHostNetwork, t.podHostPID, t.podHostIPC, t.podRunAsRoot ]

/-- The loop `for i, label := range podLabels`, `row := podTableStart + 2 + i`. -/
def podTableRows (r : Report) (sheet : String) (data : AssessmentData) : List WorkbookOp :=
  summaryTableRows r sheet (podTableStart + 2) podLabels (podCounts data)

def podChart (sheet : String) : Chart :=
  { Type_ := "col"
    Series :=
      [ { Name := "Pod Security"
          Categories := sheet ++ "!$E$15:$E$20"
          Values := sheet ++ "!$F$15:$F$20" } ]
    Title := "Pod Configurations"
    LegendPosition := "top" }

/-- Embedding of `(*Report).generateDashboard`: the workbook calls it makes, in
program order. -/
def generateDashboard (r : Report) (data : AssessmentData) : List WorkbookOp :=
  let sheet := "Dashboard"
  [ .setCellValue sheet "A1" (.str "Kubernetes Cluster Configuration Overview"),
    .mergeCell sheet "A1" "C1",
    .setCellStyle sheet "A1" "C1" r.titleStyle,
    .setCellValue sheet "A3" (.str "Cluster Overview"),
    .mergeCell sheet "A3" "C3",
    .setCellStyle sheet "A3" "C3" r.sectionStyle ]
  ++ metricRows r sheet (dashboardMetrics data)
  ++ [ .setCellValue sheet "E3" (.str "RBAC Summary"),
       .mergeCell sheet "E3" "F3",
       .setCellStyle sheet "E3" "F3" r.sectionStyle,
       .setCellValue sheet "E4" (.str "Type"),
       .setCellValue sheet "F4" (.str "Count"),
       .setCellStyle sheet "E4" "E4" r.headerStyle,
       .setCellStyle sheet "F4" "F4" r.headerStyle ]
  ++ rbacTableRows r sheet data
  ++ [ .addChart sheet "H4" (rbacChart sheet) ]
  ++ [ .setCellValue sheet "E12" (.str "Pod Security Summary"),
       .mergeCell sheet "E12" "F12",
       .setCellStyle sheet "E12" "F12" r.sectionStyle,
       .setCellValue sheet "E13" (.str "Type"),
       .setCellValue sheet "F13" (.str "Count"),
       .setCellStyle sheet "E13" "E13" r.headerStyle,
       .setCellStyle sheet "F13" "F13" r.headerStyle ]
  ++ podTableRows r sheet data
  ++ [ .addChart sheet "E21" (podChart sheet),
       .autoFitColumns sheet ]

/-! ## The spreadsheet library: cell names -/

/-- The letters of column `num` (1 is A, 26 is Z, 27 is AA), computed as the
library does: the last letter is that of `(num - 1) % 26`, the letters before
it are those of `(num - 1) / 26`.  The first argument bounds the number of
letters. -/
def columnLetters : Nat → Nat → String
  | 0, _ => ""
  | fuel + 1, num =>
    if num = 0 then ""
    else
      columnLetters fuel ((num - 1) / 26) ++
        String.singleton (Char.ofNat ((num - 1) % 26 + 65))

/-- The largest column number of a worksheet. -/
def MaxColumns : Nat := 16384

/-- The library function `excelize.ColumnNumberToName`, modelled from its
documentation: the column letters for a number from 1 to 16384, an error
(`none`) otherwise. -/
def columnNumberToName (num : Nat) : Option String :=
  if num < 1 ∨ num > MaxColumns then none else some (columnLetters num num)

/-- The library function `excelize.CoordinatesToCellName` as the report calls
it, `cell, _ := excelize.CoordinatesToCellName(col, row)`: the column letters
followed by the decimal row.  The report passes columns 1 to 19 and rows from
1 on; where the library reports an error the model gives the empty name. -/
def coordinatesToCellName (col row : Nat) : String :=
  if row < 1 then ""
  else
    match columnNumberToName col with
    | none => ""
    | some colName => colName ++ toString row

/-! ## pkg/excel/report.go: formatters -/

/-- The loop `for _, x := range xs { out = append(out, f(x)) }` on a slice
`out` that starts empty. -/
def appendEach {α β : Type} (f : α → β) (xs : List α) : List β :=
  xs.foldl (fun out x => out ++ [f x]) []

/-- Body of the loop of `formatPorts`: the string `portStr` of one port. -/
def portString (port : ServicePort) : String :=
  let portStr := toString port.Port
  let portStr :=
    if port.TargetPort ≠ 0 then portStr ++ ("→" ++ toString port.TargetPort) else portStr
  if port.Protocol ≠ "" then portStr ++ ("/" ++ port.Protocol) else portStr

/-- Embedding of `(*Report).formatPorts`. -/
def formatPorts (ports : List ServicePort) : String :=
  String.intercalate "\n" (appendEach portString ports)

/-- Body of the loop of `FormatRules`: the string `ruleStr` of one rule. -/
def ruleString (rule : PolicyRule) : String :=
  let ruleStr :=
    "API Groups: [" ++ String.intercalate ", " rule.APIGroups ++ "]\nResources: [" ++
      String.intercalate ", " rule.Resources ++ "]\nVerbs: [" ++
      String.intercalate ", " rule.Verbs ++ "]"
  if rule.ResourceNames.length > 0 then
    ruleStr ++ ("\nResource Names: [" ++ String.intercalate ", " rule.ResourceNames ++ "]")
  else ruleStr

/-- Embedding of `FormatRules`. -/
def FormatRules (rules : List PolicyRule) : String :=
  String.intercalate "\n---\n" (appendEach ruleString rules)

/-- The string `fmt.Sprintf("%s:%d%s", path.ServiceName, path.ServicePort,
path.Path)` of `formatIngressRules`. -/
def ingressPathString (path : IngressPath) : String :=
  path.ServiceName ++ ":" ++ toString path.ServicePort ++ path.Path

/-- Body of the outer loop of `formatIngressRules`: the string `ruleStr` of
one rule. -/
def ingressRuleString (rule : IngressRule) : String :=
  let ruleStr := rule.Host ++ " → "
  ruleStr ++ String.intercalate ", " (appendEach ingressPathString rule.Paths)

/-- Embedding of `(*Report).formatIngressRules`. -/
def formatIngressRules (rules : List IngressRule) : String :=
  String.intercalate "\n" (appendEach ingressRuleString rules)

/-! ## pkg/excel/report.go: the resource sheets -/

/-- The header loop of a sheet generator:
`for i, header := range headers`, cell `CoordinatesToCellName(i+1, 1)`. -/
def headerRow (r : Report) (sheet : String) (headers : List String) : List WorkbookOp :=
  forEachIndexed
    (fun i header =>
      let cell := coordinatesToCellName (i + 1) 1
      [ .setCellValue sheet cell (.str header),
        .setCellStyle sheet cell cell r.headerStyle ])
    0 headers

/-- The call `r.excel.AutoFilter(sheet, fmt.Sprintf("A1:%s1", endCol), nil)`
with `endCol, _ := excelize.ColumnNumberToName(len(headers))`. -/
def headerAutoFilter (sheet : String) (headers : List String) : WorkbookOp :=
  .autoFilter sheet ("A1:" ++ (columnNumberToName headers.length).getD "" ++ "1")

/-- The inner loop of a sheet generator: `for j, value := range values`, cell
`CoordinatesToCellName(j+1, row)`, the alternate style on even rows. -/
def valueRow (r : Report) (sheet : String) (row : Nat) (values : List CellValue) :
    List WorkbookOp :=
  forEachIndexed
    (fun j value =>
      let cell := coordinatesToCellName (j + 1) row
      [ .setCellValue sheet cell value,
        .setCellStyle sheet cell cell (if row % 2 = 0 then r.altRowStyle else r.contentStyle) ])
    0 values

/-- The outer loop of a sheet generator over the entities, one row each from
row 2 on (`row := i + 2`, or `row := 2` before the loop and `row++` at the end
of its body). -/
def entityRows {α : Type} (r : Report) (sheet : String) (values : α → List CellValue)
    (entities : List α) : List WorkbookOp :=
  forEachIndexed (fun i entity => valueRow r sheet (i + 2) (values entity)) 0 entities

/-- Embedding of `(*Report).generateRoles`. -/
def generateRoles (r : Report) (rbac : RBACAssessment) : List WorkbookOp :=
  let sheet := "Roles"
  let headers := ["Name", "Namespace", "Created At", "Rules"]
  headerRow r sheet headers ++ [headerAutoFilter sheet headers] ++
    entityRows r sheet
      (fun role =>
        [.str role.Name, .str role.Namespace, .str role.CreatedAt,
          .str (FormatRules role.Rules)])
      rbac.Roles ++
    [.autoFitColumns sheet]

/-- The slice `values` of `generateRoleBindings` for one binding, with the
loop over its subjects. -/
def roleBindingValues (binding : BindingInfo) : List CellValue :=
  let subjects :=
    binding.Subjects.foldl
      (fun subjects subject =>
        subjects ++ [subject.Namespace ++ "/" ++ subject.Name ++ " (" ++ subject.Kind ++ ")"])
      []
  [ .str binding.Name, .str binding.Namespace, .str binding.RoleRef,
    .str (String.intercalate ", " subjects), .str binding.CreatedAt ]

/-- Embedding of `(*Report).generateRoleBindings`. -/
def generateRoleBindings (r : Report) (rbac : RBACAssessment) : List WorkbookOp :=
  let sheet := "Role Bindings"
  let headers := ["Name", "Namespace", "Role Ref", "Subjects", "Created At"]
  headerRow r sheet headers ++ [headerAutoFilter sheet headers] ++
    entityRows r sheet roleBindingValues rbac.RoleBindings ++
    [.autoFitColumns sheet]

/-- Embedding of `(*Report).generateClusterRoles`. -/
def generateClusterRoles (r : Report) (rbac : RBACAssessment) : List WorkbookOp :=
  let sheet := "Cluster Roles"
  let headers := ["Name", "Created At", "Rules"]
  headerRow r sheet headers ++ [headerAutoFilter sheet headers] ++
    entityRows r sheet
      (fun role => [.str role.Name, .str role.CreatedAt, .str (FormatRules role.Rules)])
      rbac.ClusterRoles ++
    [.autoFitColumns sheet]

/-- The slice `values` of `generateClusterRoleBindings` for one binding, with
the loop over its subjects. -/
def clusterRoleBindingValues (binding : BindingInfo) : List CellValue :=
  let subjects :=
    binding.Subjects.foldl
      (fun subjects subject =>
        subjects ++ [subject.Namespace ++ "/" ++ subject.Name ++ " (" ++ subject.Kind ++ ")"])
      []
  [ .str binding.Name, .str binding.RoleRef, .str (String.intercalate ", " subjects),
    .str binding.CreatedAt ]

/-- Embedding of `(*Report).generateClusterRoleBindings`. -/
def generateClusterRoleBindings (r : Report) (rbac : RBACAssessment) : List WorkbookOp :=
  let sheet := "Cluster Role Bindings"
  let headers := ["Name", "Role Ref", "Subjects", "Created At"]
  headerRow r sheet headers ++ [headerAutoFilter sheet headers] ++
    entityRows r sheet clusterRoleBindingValues rbac.ClusterRoleBindings ++
    [.autoFitColumns sheet]

/-- Embedding of `(*Report).generateDeployments`. -/
def generateDeployments (r : Report) (deployments : List DeploymentInfo) : List WorkbookOp :=
  let sheet := "Deployments"
  let headers := ["Name", "Namespace", "Replicas", "Update Strategy", "Labels", "Created At"]
  headerRow r sheet headers ++
    entityRows r sheet
      (fun deploy =>
        [.str deploy.Name, .str deploy.Namespace, .int deploy.Replicas,
          .str deploy.UpdateStrategy, .str (formatLabels deploy.Labels), .str deploy.CreatedAt])
      deployments ++
    [.autoFitColumns sheet]

/-- Embedding of `(*Report).generateStatefulSets`. -/
def generateStatefulSets (r : Report) (statefulSets : List StatefulSetInfo) :
    List WorkbookOp :=
  let sheet := "StatefulSets"
  let headers := ["Name", "Namespace", "Replicas", "Update Strategy", "Labels", "Created At"]
  headerRow r sheet headers ++
    entityRows r sheet
      (fun sts =>
        [.str sts.Name, .str sts.Namespace, .int sts.Replicas, .str sts.UpdateStrategy,
          .str (formatLabels sts.Labels), .str sts.CreatedAt])
      statefulSets ++
    [.autoFitColumns sheet]

/-- Embedding of `(*Report).generateDaemonSets`. -/
def generateDaemonSets (r : Report) (daemonSets : List DaemonSetInfo) : List WorkbookOp :=
  let sheet := "DaemonSets"
  let headers := ["Name", "Namespace", "Update Strategy", "Labels", "Created At"]
  headerRow r sheet headers ++
    entityRows r sheet
      (fun ds =>
        [.str ds.Name, .str ds.Namespace, .str ds.UpdateStrategy,
          .str (formatLabels ds.Labels), .str ds.CreatedAt])
      daemonSets ++
    [.autoFitColumns sheet]

/-- Embedding of `(*Report).generateServices`. -/
def generateServices (r : Report) (services : List ServiceInfo) : List WorkbookOp :=
  let sheet := "Services"
  let headers :=
    ["Name", "Namespace", "Type", "Cluster IP", "External IP", "Ports", "Labels", "Created At"]
  headerRow r sheet headers ++
    entityRows r sheet
      (fun svc =>
        [.str svc.Name, .str svc.Namespace, .str svc.Type_, .str svc.ClusterIP,
          .str (String.intercalate ", " svc.ExternalIPs), .str (formatPorts svc.Ports),
          .str (formatLabels svc.Labels), .str svc.CreatedAt])
      services ++
    [.autoFitColumns sheet]

/-- Embedding of `(*Report).generateNetworkPolicies`. -/
def generateNetworkPolicies (r : Report) (networkPolicies : List NetworkPolicyInfo) :
    List WorkbookOp :=
  let sheet := "Network Policies"
  let headers := ["Name", "Namespace", "Pod Selector", "Policy Types", "Created At", "Labels"]
  headerRow r sheet headers ++ [headerAutoFilter sheet headers] ++
    entityRows r sheet
      (fun policy =>
        [.str policy.Name, .str policy.Namespace, .str policy.PodSelector,
          .str (String.intercalate ", " policy.PolicyTypes), .str policy.CreatedAt,
          .str (formatLabels policy.Labels)])
      networkPolicies ++
    [.autoFitColumns sheet]

/-- Embedding of `(*Report).generateServiceAccounts`; `sheets` are the sheets
of the workbook when it is called (the result of `GetSheetIndex` is -1 when
the sheet is not among them). -/
def generateServiceAccounts (r : Report) (sheets : List String)
    (serviceAccounts : List ServiceAccountInfo) : List WorkbookOp :=
  let sheet := "Service Accounts"
  let headers := ["Name", "Namespace", "Secrets", "Image Pull Secrets", "Created At", "Labels"]
  (if sheet ∈ sheets then [] else [.newSheet sheet]) ++
    headerRow r sheet headers ++ [headerAutoFilter sheet headers] ++
    entityRows r sheet
      (fun sa =>
        [.str sa.Name, .str sa.Namespace, .str (String.intercalate ", " sa.Secrets),
          .str (String.intercalate ", " sa.ImagePullSecrets), .str sa.CreatedAt,
          .str (formatLabels sa.Labels)])
      serviceAccounts ++
    [.autoFitColumns sheet]

/-- Embedding of `(*Report).generateIngresses`. -/
def generateIngresses (r : Report) (ingresses : List IngressInfo) : List WorkbookOp :=
  let sheet := "Ingresses"
  let headers := ["Name", "Namespace", "Rules", "Labels", "Created At"]
  headerRow r sheet headers ++
    entityRows r sheet
      (fun ing =>
        [.str ing.Name, .str ing.Namespace, .str (formatIngressRules ing.Rules),
          .str (formatLabels ing.Labels), .str ing.CreatedAt])
      ingresses ++
    [.autoFitColumns sheet]

/-- Embedding of `(*Report).generateSecrets`. -/
def generateSecrets (r : Report) (secrets : List SecretInfo) : List WorkbookOp :=
  let sheet := "Secrets"
  let headers := ["Name", "Namespace", "Type", "Labels", "Created At"]
  headerRow r sheet headers ++
    entityRows r sheet
      (fun secret =>
        [.str secret.Name, .str secret.Namespace, .str secret.Type_,
          .str (formatLabels secret.Labels), .str secret.CreatedAt])
      secrets ++
    [.autoFitColumns sheet]

/-- Embedding of `(*Report).generateNodes`. -/
def generateNodes (r : Report) (nodes : List NodeInfo) : List WorkbookOp :=
  let sheet := "Nodes"
  let headers :=
    ["Name", "Version", "Architecture", "OS", "Container Runtime", "CPU", "Memory", "Ready",
      "Labels"]
  headerRow r sheet headers ++
    entityRows r sheet
      (fun node =>
        [.str node.Name, .str node.Version, .str node.Architecture, .str node.OS,
          .str node.ContainerRuntime, .str node.CPU, .str node.Memory, .bool node.Ready,
          .str (formatLabels node.Labels)])
      nodes ++
    [.autoFitColumns sheet]

/-- Embedding of `(*Report).generateNamespaces`. -/
def generateNamespaces (r : Report) (namespaces : List NamespaceInfo) : List WorkbookOp :=
  let sheet := "Namespaces"
  let headers := ["Name", "Status", "Created At", "Labels"]
  headerRow r sheet headers ++
    entityRows r sheet
      (fun ns =>
        [.str ns.Name, .str ns.Status, .str ns.CreatedAt, .str (formatLabels ns.Labels)])
      namespaces ++
    [.autoFitColumns sheet]

/-- The lower-casing of ASCII letters: A to Z are replaced by a to z, every
other character is kept.  This is the value of Go's `strings.ToLower` on a
string of ASCII characters; on other strings `strings.ToLower` also lowers
letters outside ASCII, so `toLowerASCII` stands for it on ASCII strings
only. -/
def toLowerASCII (s : String) : String :=
  String.mk (s.toList.map Char.toLower)

/-- Whether the characters `sub` occur consecutively in a character list. -/
def containsChars (sub : List Char) : List Char → Bool
  | [] => sub.isPrefixOf []
  | c :: cs => sub.isPrefixOf (c :: cs) || containsChars sub cs

/-- Go's `strings.Contains(s, substr)`. -/
def stringContains (s substr : String) : Bool :=
  containsChars substr.toList s.toList

/-- The condition under which `generatePods` keeps an environment variable
name.  `toLower` is the library function `strings.ToLower`, which lowers the
letters of every script; it is a parameter of the embedding. -/
def envVarKept (toLower : String → String) (env : String) : Bool :=
  !stringContains (toLower env) "secret" &&
    !stringContains (toLower env) "password" &&
    !stringContains (toLower env) "key"

/-- The variables that the container loop of `generatePods` updates. -/
structure PodRowState where
  containerNames : List String
  imageNames : List String
  capabilities : List String
  resourceInfo : List String
  envVars : List String
  hasPrivileged : Bool
  runAsNonRoot : Bool
  deriving DecidableEq, Repr

/-- Body of the loop `for _, container := range pod.Containers` of
`generatePods`. -/
def podContainerStep (toLower : String → String) (s : PodRowState)
    (container : ContainerInfo) : PodRowState :=
  let resourceInfo := s.resourceInfo
  let resourceInfo :=
    if container.Resources.Limits.CPU ≠ "" then
      resourceInfo ++ [container.Name ++ ": CPU limit " ++ container.Resources.Limits.CPU]
    else resourceInfo
  let resourceInfo :=
    if container.Resources.Limits.Memory ≠ "" then
      resourceInfo ++ [container.Name ++ ": Memory limit " ++ container.Resources.Limits.Memory]
    else resourceInfo
  let resourceInfo :=
    if container.Resources.Requests.CPU ≠ "" then
      resourceInfo ++ [container.Name ++ ": CPU request " ++ container.Resources.Requests.CPU]
    else resourceInfo
  let resourceInfo :=
    if container.Resources.Requests.Memory ≠ "" then
      resourceInfo ++
        [container.Name ++ ": Memory request " ++ container.Resources.Requests.Memory]
    else resourceInfo
  { containerNames := s.containerNames ++ [container.Name]
    imageNames := s.imageNames ++ [container.Image]
    capabilities :=
      if container.SecurityContext.Capabilities.length > 0 then
        s.capabilities ++ container.SecurityContext.Capabilities
      else s.capabilities
    hasPrivileged := if container.SecurityContext.Privileged then true else s.hasPrivileged
    runAsNonRoot :=
      match container.SecurityContext.RunAsNonRoot with
      | some b => b
      | none => s.runAsNonRoot
    resourceInfo := resourceInfo
    envVars :=
      container.EnvVars.foldl
        (fun envVars env => if envVarKept toLower env then envVars ++ [env] else envVars)
        s.envVars }

/-- The slice `values` of `generatePods` for one pod. -/
def podValues (toLower : String → String) (pod : PodInfo) : List CellValue :=
  let runAsUser : Int :=
    match pod.SecurityContext.RunAsUser with
    | some u => u
    | none => 0
  let s :=
    pod.Containers.foldl (podContainerStep toLower)
      { containerNames := []
        imageNames := []
        capabilities := []
        resourceInfo := []
        envVars := []
        hasPrivileged := false
        runAsNonRoot := false }
  let automountServiceAccountToken :=
    match pod.AutomountServiceAccountToken with
    | some b => b
    | none => true
  [ .str pod.Name,
    .str pod.Namespace,
    .str pod.NodeName,
    .str pod.ServiceAccount,
    .bool s.hasPrivileged,
    .bool pod.SecurityContext.HostNetwork,
    .bool pod.SecurityContext.HostPID,
    .bool pod.SecurityContext.HostIPC,
    .int runAsUser,
    .bool s.runAsNonRoot,
    .bool automountServiceAccountToken,
    .str (String.intercalate "\n" s.containerNames),
    .str (String.intercalate "\n" s.imageNames),
    .str (String.intercalate ", " s.capabilities),
    .str (String.intercalate "\n" s.resourceInfo),
    .str "N/A",
    .str (String.intercalate "\n" s.envVars),
    .str pod.CreatedAt,
    .str (formatLabels pod.Labels) ]

/-- The slice `headers` of `generatePods`. -/
def podHeaders : List String :=
  [ "Name", "Namespace", "Node", "Service Account",
    "Privileged", "Host Network", "Host PID", "Host IPC",
    "Run As User", "Run As Non Root", "Auto Mount SA Token",
    "Container Names", "Container Images", "Capabilities",
    "Resources", "Sysctls", "Environment Variables",
    "Created At", "Labels" ]

/-- Embedding of `(*Report).generatePods`; `toLower` is the library function
`strings.ToLower`. -/
def generatePods (toLower : String → String) (r : Report) (workloads : WorkloadAssessment) :
    List WorkbookOp :=
  let sheet := "Pods"
  headerRow r sheet podHeaders ++ entityRows r sheet (podValues toLower) workloads.Pods ++
    [.autoFitColumns sheet]

/-! ## pkg/excel/report.go: the contents sheet and Generate -/

/-- The slice `toc` of `generateTableOfContents`: name and target of each
entry. -/
def tocEntries : List (String × String) :=
  [ ("Dashboard", "Dashboard"),
    ("Nodes", "Nodes"),
    ("Namespaces", "Namespaces"),
    ("Pods", "Pods"),
    ("Deployments", "Deployments"),
    ("StatefulSets", "StatefulSets"),
    ("DaemonSets", "DaemonSets"),
    ("Services", "Services"),
    ("Network Policies", "Network Policies"),
    ("Ingresses", "Ingresses"),
    ("Secrets", "Secrets"),
    ("Service Accounts", "Service Accounts"),
    ("Roles", "Roles"),
    ("Role Bindings", "Role Bindings"),
    ("Cluster Roles", "Cluster Roles"),
    ("Cluster Role Bindings", "Cluster Role Bindings") ]

/-- Embedding of `(*Report).generateTableOfContents`; its parameter, the sheet
list, is not used by the function (`_ []string`).  The path of the logo is
`filepath.Join("pkg", "excel", "logo.png")`; a failure of `AddPicture` only
prints a warning. -/
def generateTableOfContents (r : Report) (_sheets : List String) : List WorkbookOp :=
  let sheet := "Contents"
  [ .addPicture sheet "A1" "pkg/excel/logo.png",
    .setCellValue sheet "A8" (.str "Kubernetes Reconnaissance Report"),
    .mergeCell sheet "A8" "C8",
    .setCellStyle sheet "A8" "C8" r.titleStyle,
    .setCellValue sheet "A10" (.str "Contents"),
    .setCellStyle sheet "A10" "A10" r.sectionStyle ] ++
    forEachIndexed
      (fun i entry =>
        let cell := cellName "A" (12 + i)
        [ .setCellValue sheet cell (.str entry.1),
          .setCellHyperLink sheet cell ("#'" ++ entry.2 ++ "'!A1") "Location",
          .setCellStyle sheet cell cell r.contentStyle ])
      0 tocEntries ++
    [.autoFitColumns sheet]

/-- The slice `sheets` of `Generate`. -/
def generateSheets : List String :=
  [ "Contents",
    "Dashboard",
    "Nodes",
    "Namespaces",
    "Pods",
    "Deployments",
    "StatefulSets",
    "DaemonSets",
    "Services",
    "Network Policies",
    "Ingresses",
    "Secrets",
    "Service Accounts",
    "Roles",
    "Role Bindings",
    "Cluster Roles",
    "Cluster Role Bindings" ]

/-- The loop "Initialize sheets" of `Generate`. -/
def initializeSheets (sheets : List String) : List WorkbookOp :=
  forEachIndexed
    (fun i sheet => if i = 0 then [.setSheetName "Sheet1" sheet] else [.newSheet sheet])
    0 sheets

/-- The sheets of the workbook after the calls `ops`, modelled from the
library: a new workbook (`excelize.NewFile`) has the one sheet "Sheet1",
`SetSheetName` renames the sheet of the source name, `NewSheet` appends a
sheet unless one of that name exists. -/
def workbookSheets (ops : List WorkbookOp) : List String :=
  ops.foldl
    (fun sheets op =>
      match op with
      | .setSheetName source target => sheets.map fun s => if s = source then target else s
      | .newSheet sheet => if sheet ∈ sheets then sheets else sheets ++ [sheet]
      | _ => sheets)
    ["Sheet1"]

/-- The loop "Auto-fit columns in all sheets" of `Generate`: the calls made and
the error returned, if any; `autoFitError sheet` is the error of
`r.autoFitColumns(sheet)` in this loop. -/
def autoFitAll (autoFitError : String → Option String) :
    List String → List WorkbookOp × Option String
  | [] => ([], none)
  | sheet :: rest =>
    match autoFitError sheet with
    | some err =>
      ([.autoFitColumns sheet], some ("failed to auto-fit columns in " ++ sheet ++ ": " ++ err))
    | none =>
      let (ops, err) := autoFitAll autoFitError rest
      (.autoFitColumns sheet :: ops, err)

/-- What a run of `Generate` does: the calls made on the workbook and the
error returned (`none` for nil). -/
structure GenerateResult where
  calls : List WorkbookOp
  error : Option String
  deriving DecidableEq, Repr

/-- The calls of `Generate` from the creation of the sheets to the last sheet
generator, made through the report `r` whose styles `setupStyles` has set. -/
def generateAllSheets (toLower : String → String) (r : Report) (data : AssessmentData) :
    List WorkbookOp :=
  let sheets := generateSheets
  let created := initializeSheets sheets
  created ++
    generateTableOfContents r sheets ++
    generateDashboard r data ++
    generateNodes r data.ClusterInfo.Nodes ++
    generateNamespaces r data.ClusterInfo.Namespaces ++
    generatePods toLower r data.Workloads ++
    generateDeployments r data.Workloads.Deployments ++
    generateStatefulSets r data.Workloads.StatefulSets ++
    generateDaemonSets r data.Workloads.DaemonSets ++
    generateServices r data.Network.Services ++
    generateNetworkPolicies r data.Network.NetworkPolicies ++
    generateIngresses r data.Network.Ingresses ++
    generateSecrets r data.Secrets.Secrets ++
    generateServiceAccounts r (workbookSheets created) data.RBAC.ServiceAccounts ++
    generateRoles r data.RBAC ++
    generateRoleBindings r data.RBAC ++
    generateClusterRoles r data.RBAC ++
    generateClusterRoleBindings r data.RBAC

/-- Embedding of `(*Report).Generate`.  The results of the library calls that
can make it return an error are parameters: `setupStyles` is the result of
`r.setupStyles()` (the report with its style identifiers set, or the error of
`NewStyle`), `autoFitError` the error of `autoFitColumns` in the final loop,
`saveAsError` the error of `SaveAs`; `toLower` is the library function
`strings.ToLower`, which `generatePods` applies to the names of environment
variables.  The sheet generators always return nil.  The calls of `NewStyle`
made by `setupStyles` are not listed among the calls. -/
def Generate (toLower : String → String) (setupStyles : Except String Report)
    (autoFitError : String → Option String) (saveAsError : Option String)
    (data : AssessmentData) : GenerateResult :=
  match setupStyles with
  | .error err => { calls := [], error := some err }
  | .ok r =>
    let generated := generateAllSheets toLower r data
    match autoFitAll autoFitError generateSheets with
    | (fitted, some err) => { calls := generated ++ fitted, error := some err }
    | (fitted, none) =>
      match saveAsError with
      | some err =>
        { calls := generated ++ fitted ++ [.saveAs r.filePath]
          error := some ("failed to save excel file: " ++ err) }
      | none => { calls := generated ++ fitted ++ [.saveAs r.filePath], error := none }

/-! ## Observations on the list of workbook calls -/

/-- The value a cell holds after the calls `ops`: that of the last
`SetCellValue` on it, if any. -/
def cellValue? (ops : List WorkbookOp) (sheet cell : String) : Option CellValue :=
  ops.foldl
    (fun acc op =>
      match op with
      | .setCellValue s c v => if s = sheet ∧ c = cell then some v else acc
      | _ => acc)
    none

/-- The cells that the calls `ops` write with `SetCellValue`, in order. -/
def writtenCells (ops : List WorkbookOp) : List String :=
  ops.filterMap fun op =>
    match op with
    | .setCellValue _ c _ => some c
    | _ => none

/-- The charts that the calls `ops` add, each with its anchor cell, in order. -/
def chartsAdded (ops : List WorkbookOp) : List (String × Chart) :=
  ops.filterMap fun op =>
    match op with
    | .addChart _ cell chart => some (cell, chart)
    | _ => none

/-- The absolute A1 reference of rows `first` to `last` of one column of a
sheet, as a chart series names it: `Sheet!$E$5:$E$9`. -/
def absoluteRange (sheet col : String) (first last : Nat) : String :=
  sheet ++ "!$" ++ col ++ "$" ++ toString first ++ ":$" ++ col ++ "$" ++ toString last

/-- The cells of rows `first` to `last` of one column. -/
def rangeCells (col : String) (first last : Nat) : List String :=
  (List.range (last + 1 - first)).map fun k => cellName col (first + k)

/-! ## Reference counts of the pod-security summary, as the specification words them -/

/-- Some container of the pod has the privileged flag set. -/
def hasPrivilegedContainer (pod : PodInfo) : Bool :=
  pod.Containers.any fun c => c.SecurityContext.Privileged

/-- Some container of the pod has run-as-user set and equal to 0. -/
def hasRootContainer (pod : PodInfo) : Bool :=
  pod.Containers.any fun c => decide (c.SecurityContext.RunAsUser = some 0)

/-- What the container scan of `generateDashboard` adds to `podPrivileged` for
one container list: 1 when the scan stops at a privileged container. -/
def privilegedHit : List ContainerInfo → Nat
  | [] => 0
  | c :: rest =>
    if c.SecurityContext.Privileged then 1
    else if c.SecurityContext.RunAsUser = some 0 then 0
    else privilegedHit rest

/-- What the container scan of `generateDashboard` adds to `podRunAsRoot` for
one container list: 1 when the scan stops at a container that is not
privileged and has run-as-user 0. -/
def rootHit : List ContainerInfo → Nat
  | [] => 0
  | c :: rest =>
    if c.SecurityContext.Privileged then 0
    else if c.SecurityContext.RunAsUser = some 0 then 1
    else rootHit rest

/-! ## Sample inputs -/

def sampleReport : Report :=
  { filePath := "report.xlsx"
    headerStyle := 1
    contentStyle := 2
    sectionStyle := 3
    altRowStyle := 4
    wrapTextStyle := 5
    titleStyle := 6
    criticalStyle := 7
    warningStyle := 8
    moderateStyle := 9
    goodStyle := 10 }

def sampleContainer (name : String) (privileged : Bool) (runAsUser : Option Int) :
    ContainerInfo :=
  { Name := name
    Image := "busybox"
    SecurityContext :=
      { Capabilities := []
        RunAsUser := runAsUser
        RunAsNonRoot := none
        ReadOnlyRoot := false
        Privileged := privileged
        AllowPrivilegeEscalation := none }
    Resources := { Limits := { CPU := "0", Memory := "0" }, Requests := { CPU := "0", Memory := "0" } }
    EnvVars := [] }

def samplePod (name : String) (containers : List ContainerInfo) : PodInfo :=
  { Name := name
    Namespace := "default"
    NodeName := "node-1"
    ServiceAccount := "default"
    Labels := []
    CreatedAt := "2024-01-01 00:00:00 +0000 UTC"
    SecurityContext :=
      { RunAsUser := none
        RunAsGroup := none
        FSGroup := none
        HostNetwork := false
        HostPID := false
        HostIPC := false }
    Containers := containers
    AutomountServiceAccountToken := none }

/-- A pod whose first container runs as user 0 without the privileged flag and
whose second container is privileged. -/
def rootThenPrivilegedPod : PodInfo :=
  samplePod "p1" [sampleContainer "init" false (some 0), sampleContainer "main" true none]

/-- A pod whose only container is privileged and runs as user 0. -/
def privilegedRootPod : PodInfo :=
  samplePod "p2" [sampleContainer "main" true (some 0)]

def emptyAssessment : AssessmentData :=
  { ClusterInfo :=
      { Version := "v1.29.0", NodeCount := 0, APIServer := "", Platform := "", Nodes := [],
        Namespaces := [] }
    RBAC :=
      { ClusterRoles := [], ClusterRoleBindings := [], Roles := [], RoleBindings := [],
        ServiceAccounts := [] }
    Workloads := { Pods := [], Deployments := [], StatefulSets := [], DaemonSets := [] }
    Network := { Services := [], NetworkPolicies := [], Ingresses := [] }
    Secrets := { Secrets := [] } }

/-- An assessment whose only content is the given pods. -/
def assessmentOfPods (pods : List PodInfo) : AssessmentData :=
  { emptyAssessment with
    Workloads := { Pods := pods, Deployments := [], StatefulSets := [], DaemonSets := [] } }

def apiFailure : APIError := { msg := "forbidden" }

def sampleNamespace (name : String) : RawNamespace :=
  { Name := name, Phase := "Active", CreationTimestamp := "2024-01-01 00:00:00 +0000 UTC",
    Labels := [] }

/-- A cluster in which every list call succeeds and returns nothing. -/
def emptyClient : Client :=
  { Host := "https://cluster.local"
    ServerVersion := .ok "v1.29.0"
    Nodes := .ok []
    NamespacesForClusterInfo := .ok []
    ClusterRoles := .ok []
    ClusterRoleBindings := .ok []
    NamespacesForRBAC := .ok []
    Roles := fun _ => .ok []
    RoleBindings := fun _ => .ok []
    ServiceAccounts := fun _ => .ok []
    NamespacesForWorkloads := .ok []
    Pods := fun _ => .ok []
    Deployments := fun _ => .ok []
    StatefulSets := fun _ => .ok []
    DaemonSets := fun _ => .ok []
    NamespacesForNetwork := .ok []
    Services := fun _ => .ok []
    NetworkPolicies := fun _ => .ok []
    Ingresses := fun _ => .ok []
    NamespacesForSecrets := .ok []
    Secrets := fun _ => .ok [] }

def sampleRawPod (name ns : String) : RawPod :=
  { Name := name
    Namespace := ns
    ServiceAccountName := "default"
    NodeName := "node-1"
    CreationTimestamp := "2024-01-01 00:00:00 +0000 UTC"
    Labels := []
    SecurityContext := none
    HostNetwork := false
    HostPID := false
    HostIPC := false
    Containers := []
    AutomountServiceAccountToken := none }

def sampleDeployment (replicas : Option Int) : RawDeployment :=
  { Name := "web", Namespace := "n", Replicas := replicas, StrategyType := "RollingUpdate",
    Labels := [], CreationTimestamp := "2024-01-01 00:00:00 +0000 UTC" }

def sampleStatefulSet : RawStatefulSet :=
  { Name := "db", Namespace := "n", Replicas := some 1, UpdateStrategyType := "RollingUpdate",
    Labels := [], CreationTimestamp := "2024-01-01 00:00:00 +0000 UTC" }

def sampleDaemonSet : RawDaemonSet :=
  { Name := "agent", Namespace := "n", UpdateStrategyType := "RollingUpdate",
    Labels := [], CreationTimestamp := "2024-01-01 00:00:00 +0000 UTC" }

def sampleNetworkPolicy : RawNetworkPolicy :=
  { Name := "deny-all", Namespace := "n", Labels := [],
    CreationTimestamp := "2024-01-01 00:00:00 +0000 UTC", PodSelector := "",
    PolicyTypes := ["Ingress"] }

def sampleIngress : RawIngress :=
  { Name := "front", Namespace := "n", Labels := [],
    CreationTimestamp := "2024-01-01 00:00:00 +0000 UTC", Rules := [], TLS := [] }

def sampleRoleBinding : RawRoleBinding :=
  { Name := "read", Namespace := "n", RoleRefName := "reader", Subjects := [],
    CreationTimestamp := "2024-01-01 00:00:00 +0000 UTC" }

def sampleServiceAccount : RawServiceAccount :=
  { Name := "default", Namespace := "n", Labels := [],
    CreationTimestamp := "2024-01-01 00:00:00 +0000 UTC", Secrets := [],
    ImagePullSecrets := [] }

/-- One namespace "n" whose pods list fails while its deployments, stateful
sets and daemon sets lists succeed with one entry each. -/
def podsFailClient : Client :=
  { emptyClient with
    NamespacesForWorkloads := .ok [sampleNamespace "n"]
    Pods := fun _ => .error apiFailure
    Deployments := fun _ => .ok [sampleDeployment (some 2)]
    StatefulSets := fun _ => .ok [sampleStatefulSet]
    DaemonSets := fun _ => .ok [sampleDaemonSet] }

/-- One namespace "n" whose services list fails while its network policies
and ingresses lists succeed with one entry each. -/
def servicesFailClient : Client :=
  { emptyClient with
    NamespacesForNetwork := .ok [sampleNamespace "n"]
    Services := fun _ => .error apiFailure
    NetworkPolicies := fun _ => .ok [sampleNetworkPolicy]
    Ingresses := fun _ => .ok [sampleIngress] }

/-- One namespace "n" whose roles list fails while its role bindings and
service accounts lists succeed with one entry each. -/
def rolesFailClient : Client :=
  { emptyClient with
    NamespacesForRBAC := .ok [sampleNamespace "n"]
    Roles := fun _ => .error apiFailure
    RoleBindings := fun _ => .ok [sampleRoleBinding]
    ServiceAccounts := fun _ => .ok [sampleServiceAccount] }

/-- One namespace "n" whose deployments list fails while the other three
workload lists succeed with one entry each. -/
def deploymentsFailClient : Client :=
  { emptyClient with
    NamespacesForWorkloads := .ok [sampleNamespace "n"]
    Pods := fun _ => .ok [sampleRawPod "p" "n"]
    Deployments := fun _ => .error apiFailure
    StatefulSets := fun _ => .ok [sampleStatefulSet]
    DaemonSets := fun _ => .ok [sampleDaemonSet] }

/-- One namespace "n" whose pods list succeeds and whose deployments list
returns a deployment with no replica count. -/
def unsetReplicasClient : Client :=
  { emptyClient with
    NamespacesForWorkloads := .ok [sampleNamespace "n"]
    Pods := fun _ => .ok [sampleRawPod "p" "n"]
    Deployments := fun _ => .ok [sampleDeployment none] }

/-- Namespaces "a", "b", "c"; the pods list of "b" fails, "a" has pods a1 and
a2, "c" has pod c1. -/
def threeNamespacesClient : Client :=
  { emptyClient with
    NamespacesForWorkloads := .ok [sampleNamespace "a", sampleNamespace "b", sampleNamespace "c"]
    Pods := fun ns =>
      if ns = "a" then .ok [sampleRawPod "a1" "a", sampleRawPod "a2" "a"]
      else if ns = "b" then .error apiFailure
      else .ok [sampleRawPod "c1" "c"] }

/-- A cluster whose ClusterRoles list fails. -/
def clusterRolesFailClient : Client :=
  { emptyClient with ClusterRoles := .error apiFailure }

/-- The pods of the namespaces whose pods list succeeded, in namespace order
and, within a namespace, in the order the API returned them. -/
def podsOfNamespaces (c : Client) (namespaces : List RawNamespace) : List PodInfo :=
  (namespaces.map fun ns =>
    match c.Pods ns.Name with
    | .ok pods => pods.map podInfo
    | .error _ => []).flatten

/-- Every deployment and stateful set that the workload collector converts
(those of the namespaces whose pods list succeeded) carries a replica count. -/
def ReplicasSet (c : Client) (namespaces : List RawNamespace) : Prop :=
  ∀ ns ∈ namespaces, ∀ pods, c.Pods ns.Name = .ok pods →
    (∀ deployments, c.Deployments ns.Name = .ok deployments →
      ∀ d ∈ deployments, d.Replicas ≠ none) ∧
    (∀ statefulSets, c.StatefulSets ns.Name = .ok statefulSets →
      ∀ s ∈ statefulSets, s.Replicas ≠ none)

def sampleNode (conditions : List RawNodeCondition) : RawNode :=
  { Name := "node-1"
    KubeletVersion := "v1.29.0"
    Architecture := "amd64"
    OperatingSystem := "linux"
    ContainerRuntimeVersion := "containerd://1.7.0"
    CapacityCPU := "4"
    CapacityMemory := "16Gi"
    Conditions := conditions
    Labels := [] }

/-- A node whose condition list has two conditions of type "Ready", the first
with status "False" and the second with status "True". -/
def twoReadyConditionsNode : RawNode :=
  sampleNode [{ Type_ := "Ready", Status := "False" }, { Type_ := "Ready", Status := "True" }]

/-- A cluster whose only node is `twoReadyConditionsNode`. -/
def twoReadyConditionsClient : Client :=
  { emptyClient with Nodes := .ok [twoReadyConditionsNode] }

/-! ## Further observations and reference definitions -/

/-- The lines of a text: the pieces between its newline characters, as Go's
`strings.Split(s, "\n")` returns them (one empty line for the empty text). -/
def splitLines (s : String) : List String :=
  (s.toList.splitOn '\n').map String.mk

/-- A string has no newline character. -/
def NoNewline (s : String) : Prop := '\n' ∉ s.toList

/-- The link location of cell A1 of the sheet `name`. -/
def sheetLocation (name : String) : String := "#'" ++ name ++ "'!A1"

/-- The hyperlinks that the calls `ops` set on the cells of `sheet`, in order:
the cell, the value it holds after `ops`, and the link. -/
def hyperlinkRows (ops : List WorkbookOp) (sheet : String) :
    List (String × Option CellValue × String) :=
  ops.filterMap fun op =>
    match op with
    | .setCellHyperLink s cell link _ =>
      if s = sheet then some (cell, cellValue? ops sheet cell, link) else none
    | _ => none

/-- The sheet names in the wording of the specification (section 4.5). -/
def specifiedSheetNames : List String :=
  [ "Contents", "Dashboard", "Nodes", "Namespaces", "Pods", "Deployments", "StatefulSets",
    "DaemonSets", "Services", "NetworkPolicies", "Ingresses", "Secrets", "ServiceAccounts",
    "Roles", "RoleBindings", "ClusterRoles", "ClusterRoleBindings" ]

/-- A call that leaves the sheet list of the workbook as it is. -/
def keepsSheets (op : WorkbookOp) : Bool :=
  match op with
  | .setSheetName _ _ => false
  | .newSheet _ => false
  | _ => true

/-! ## Further sample inputs -/

/-- A raw pod with one container whose capability set adds NET_ADMIN and drops
SETUID. -/
def capabilitiesRawPod : RawPod :=
  { sampleRawPod "p" "default" with
    Containers :=
      [ { Name := "main"
          Image := "busybox"
          SecurityContext :=
            some
              { Capabilities := some { Add := ["NET_ADMIN"], Drop := ["SETUID"] }
                RunAsUser := none
                RunAsNonRoot := none
                ReadOnlyRootFilesystem := none
                Privileged := none
                AllowPrivilegeEscalation := none }
          Env := []
          LimitsCPU := "0"
          LimitsMemory := "0"
          RequestsCPU := "0"
          RequestsMemory := "0" } ] }

/-- A label mapping with one entry whose value contains a newline. -/
def newlineLabels : Labels := [("b", "x\na")]

/-- A binding with two subjects. -/
def sampleBinding : BindingInfo :=
  { Name := "read"
    Namespace := "n"
    RoleRef := "reader"
    Subjects :=
      [ { Kind := "ServiceAccount", Name := "builder", Namespace := "ci" },
        { Kind := "User", Name := "alice", Namespace := "" } ]
    CreatedAt := "2024-01-01 00:00:00 +0000 UTC" }

/-- An RBAC assessment whose only content is `sampleBinding`, as a role
binding and as a cluster role binding. -/
def sampleBindingsRBAC : RBACAssessment :=
  { ClusterRoles := [], ClusterRoleBindings := [sampleBinding], Roles := [],
    RoleBindings := [sampleBinding], ServiceAccounts := [] }

/-- An ingress rule with host "a.example" and two paths, "/api" to svc:80 and
the empty path to web:8080. -/
def sampleIngressRule : IngressRule :=
  { Host := "a.example"
    Paths :=
      [ { Path := "/api", ServiceName := "svc", ServicePort := 80 },
        { Path := "", ServiceName := "web", ServicePort := 8080 } ] }

/-- An ingress rule whose only path has a service name with a newline. -/
def newlineServiceRule : IngressRule :=
  { Host := "b.example", Paths := [{ Path := "/", ServiceName := "s\nt", ServicePort := 80 }] }

/-- A raw ingress with three rules: host "a.example" with the HTTP paths
"/api" to svc:80 and "/" to web:8080, an empty host, and host "b.example"
without HTTP section. -/
def threeRulesIngress : RawIngress :=
  { sampleIngress with
    Rules :=
      [ { Host := "a.example"
          HTTP :=
            some
              [ { Path := "/api", BackendService := some { Name := "svc", PortNumber := 80 } },
                { Path := "/", BackendService := some { Name := "web", PortNumber := 8080 } } ] },
        { Host := ""
          HTTP := some [{ Path := "/x", BackendService := some { Name := "x", PortNumber := 1 } }] },
        { Host := "b.example", HTTP := none } ] }

/-- A raw ingress whose rule for host "files.example" has one HTTP path with a
resource backend (`path.Backend.Service` is nil). -/
def resourceBackendIngress : RawIngress :=
  { sampleIngress with
    Rules := [{ Host := "files.example", HTTP := some [{ Path := "/", BackendService := none }] }] }

/-- One namespace "n" whose three network list calls succeed; the ingresses
list returns `resourceBackendIngress`. -/
def resourceBackendClient : Client :=
  { emptyClient with
    NamespacesForNetwork := .ok [sampleNamespace "n"]
    Ingresses := fun _ => .ok [resourceBackendIngress] }

/-- Two pods that differ in their host-namespace flags. -/
def hostFlagPods : List PodInfo :=
  [ { samplePod "h1" [] with
      SecurityContext :=
        { RunAsUser := none, RunAsGroup := none, FSGroup := none, HostNetwork := true,
          HostPID := false, HostIPC := true } },
    samplePod "h2" [sampleContainer "main" true none] ]

/-! ## Line structure of rendered cells -/

instance NoNewline.decidable (s : String) : Decidable (NoNewline s) :=
  inferInstanceAs (Decidable ('\n' ∉ s.toList))

/-- The number of lines of a text: none for the empty text, otherwise one more
than the number of its newline characters. -/
def lineCount (s : String) : Nat :=
  if s = "" then 0 else (splitLines s).length

/-- The rendering of an ingress path with a slash between port and path:
service name, colon, decimal service port, slash, path. -/
def slashedIngressPathString (path : IngressPath) : String :=
  path.ServiceName ++ ":" ++ toString path.ServicePort ++ "/" ++ path.Path

/-! ## pkg/excel/report.go: autoFitColumns -/

/-- The inner loop of `autoFitColumns` over the cells of one column: the
largest `len(cell)`, 0 for a column without cells.  Go's `len` of a string is
its number of bytes. -/
def maxCellLen (col : List String) : Nat :=
  col.foldl
    (fun maxLen cell => if cell.utf8ByteSize > maxLen then cell.utf8ByteSize else maxLen)
    0

/-- The width that `autoFitColumns` computes from the largest cell length:
`float64(maxLen) + 2`, replaced by 100 when above 100 and by 10 when below 10.
The value is a whole number, and the conversion to `float64` is monotone, so
the result is the same for every length an `int` can hold. -/
def columnWidth (maxLen : Nat) : Nat :=
  let width := maxLen + 2
  if width > 100 then 100
  else if width < 10 then 10
  else width

/-- Embedding of `(*Report).autoFitColumns`: the calls made on the workbook and
the error returned.  `getCols` is the result of the library call
`r.excel.GetCols(sheet)`, the cell texts of the sheet column by column; a
column whose number has no name is skipped (`continue`). -/
def autoFitColumns (getCols : Except String (List (List String))) (sheet : String) :
    List WorkbookOp × Option String :=
  match getCols with
  | .error err => ([], some err)
  | .ok cols =>
    (forEachIndexed
        (fun idx col =>
          match columnNumberToName (idx + 1) with
          | none => []
          | some colName =>
            [.setColWidth sheet colName colName (columnWidth (maxCellLen col) : Nat)])
        0 cols,
      none)

/-! ## Further observations on the list of workbook calls -/

/-- The cell writes that the calls `ops` make with `SetCellValue`, in order:
sheet, cell and value. -/
def cellWrites (ops : List WorkbookOp) : List (String × String × CellValue) :=
  ops.filterMap fun op =>
    match op with
    | .setCellValue sheet cell value => some (sheet, cell, value)
    | _ => none

/-- The auto-filters that the calls `ops` apply, in order: sheet and range. -/
def autoFilters (ops : List WorkbookOp) : List (String × String) :=
  ops.filterMap fun op =>
    match op with
    | .autoFilter sheet range => some (sheet, range)
    | _ => none

/-- The environment variable names of the containers of a pod, in container
order and, within a container, in declaration order. -/
def podEnvVarNames (pod : PodInfo) : List String :=
  (pod.Containers.map fun container => container.EnvVars).flatten

/-- Some container of the pod is privileged or has run-as-user set and equal
to 0. -/
def hasPrivilegedOrRootContainer (pod : PodInfo) : Bool :=
  pod.Containers.any fun c =>
    c.SecurityContext.Privileged || decide (c.SecurityContext.RunAsUser = some 0)

/-! ## Sample inputs for the privacy and safety properties -/

/-- A cluster like `emptyClient` whose server reports another version. -/
def otherVersionClient : Client :=
  { emptyClient with ServerVersion := .ok "v1.30.1" }

/-- A raw container with the given environment. -/
def envContainer (name : String) (env : List RawEnvVar) : RawContainer :=
  { Name := name
    Image := "busybox"
    SecurityContext := none
    Env := env
    LimitsCPU := "0"
    LimitsMemory := "0"
    RequestsCPU := "0"
    RequestsMemory := "0" }

/-- An environment variable with a literal value. -/
def literalEnv (name value : String) : RawEnvVar :=
  { Name := name, Value := value, ValueFrom := none }

/-- A raw pod with two containers: the first declares PATH, API_KEY,
Db_Password, MY_SECRET_TOKEN and HOME, the second KeyStore and LANG. -/
def envVarsRawPod : RawPod :=
  { sampleRawPod "p" "default" with
    Containers :=
      [ envContainer "main"
          [ literalEnv "PATH" "/bin", literalEnv "API_KEY" "k-123",
            literalEnv "Db_Password" "hunter2",
            { Name := "MY_SECRET_TOKEN", Value := "", ValueFrom := some "secret/token" },
            literalEnv "HOME" "/root" ],
        envContainer "sidecar" [literalEnv "KeyStore" "/ks", literalEnv "LANG" "C"] ] }

/-- A secret of type Opaque with the given payload. -/
def sampleSecret (data stringData : List (String × String)) : RawSecret :=
  { Name := "db-credentials"
    Namespace := "n"
    Labels := [("app", "shop")]
    CreationTimestamp := "2024-01-01 00:00:00 +0000 UTC"
    Type_ := "Opaque"
    Data := data
    StringData := stringData }

/-- One namespace "n" whose secrets list returns the given secrets. -/
def secretsClient (secrets : List RawSecret) : Client :=
  { emptyClient with
    NamespacesForSecrets := .ok [sampleNamespace "n"]
    Secrets := fun _ => .ok secrets }

/-- A raw pod without pod-level security context whose spec sets hostNetwork,
hostPID and hostIPC. -/
def hostNamespacesRawPod : RawPod :=
  { sampleRawPod "h" "n" with HostNetwork := true, HostPID := true, HostIPC := true }

/-- The pod of `hostNamespacesRawPod` with an empty pod-level security
context. -/
def hostNamespacesContextRawPod : RawPod :=
  { hostNamespacesRawPod with
    SecurityContext := some { RunAsUser := none, RunAsGroup := none, FSGroup := none } }

/-- A stateful set with no replica count. -/
def unsetReplicasStatefulSet : RawStatefulSet :=
  { sampleStatefulSet with Replicas := none }

/-- One namespace "n" whose pods and deployments lists succeed and whose
stateful sets list returns a stateful set with no replica count. -/
def unsetStatefulSetReplicasClient : Client :=
  { emptyClient with
    NamespacesForWorkloads := .ok [sampleNamespace "n"]
    Pods := fun _ => .ok [sampleRawPod "p" "n"]
    Deployments := fun _ => .ok [sampleDeployment (some 2)]
    StatefulSets := fun _ => .ok [unsetReplicasStatefulSet] }

/-- A cluster with one node, one namespace "n" and in it one deployment with
no replica count; every list call succeeds. -/
def unsetReplicasCluster : Client :=
  { unsetReplicasClient with
    Nodes := .ok [sampleNode [{ Type_ := "Ready", Status := "True" }]]
    NamespacesForClusterInfo := .ok [sampleNamespace "n"]
    NamespacesForRBAC := .ok [sampleNamespace "n"]
    NamespacesForNetwork := .ok [sampleNamespace "n"]
    NamespacesForSecrets := .ok [sampleNamespace "n"] }

/-! ## Decimal numerals, ASCII strings and a further sample cluster -/

/-- The number that a list of decimal digits denotes, most significant digit
first. -/
def decimalValue (digits : List Char) : Nat :=
  digits.foldl (fun value digit => 10 * value + (digit.toNat - 48)) 0

/-- Every character of the string is an ASCII character. -/
def IsASCII (s : String) : Prop := ∀ c ∈ s.toList, c.toNat < 128

instance IsASCII.decidable (s : String) : Decidable (IsASCII s) :=
  inferInstanceAs (Decidable (∀ c ∈ s.toList, c.toNat < 128))

/-- The cluster of `threeNamespacesClient` with, in every namespace, one
deployment with two replicas and one stateful set with one replica. -/
def threeNamespacesWorkloadsClient : Client :=
  { threeNamespacesClient with
    Deployments := fun _ => .ok [sampleDeployment (some 2)]
    StatefulSets := fun _ => .ok [sampleStatefulSet] }

/-! # Theorems -/

/-! ## The pod-security counters of the dashboard -/

theorem scanContainers_eq (cs : List ContainerInfo) (t : PodSecurityTotals) :
    scanContainers cs t =
      { t with
        podPrivileged := t.podPrivileged + privilegedHit cs
        podRunAsRoot := t.podRunAsRoot + rootHit cs } := by
  induction cs with
  | nil => simp [scanContainers, privilegedHit, rootHit]
  | cons c rest ih =>
    by_cases hp : c.SecurityContext.Privileged = true
    · simp [scanContainers, privilegedHit, rootHit, hp]
    · by_cases hr : c.SecurityContext.RunAsUser = some 0
      · simp [scanContainers, privilegedHit, rootHit, hp, hr]
      · simp [scanContainers, privilegedHit, rootHit, hp, hr, ih]

theorem countPod_podPrivileged (t : PodSecurityTotals) (pod : PodInfo) :
    (countPod t pod).podPrivileged = t.podPrivileged + privilegedHit pod.Containers := by
  unfold countPod
  simp only [scanContainers_eq]
  split_ifs <;> rfl

theorem countPod_podRunAsRoot (t : PodSecurityTotals) (pod : PodInfo) :
    (countPod t pod).podRunAsRoot = t.podRunAsRoot + rootHit pod.Containers := by
  unfold countPod
  simp only [scanContainers_eq]
  split_ifs <;> rfl

theorem foldl_countPod_podPrivileged (pods : List PodInfo) (t : PodSecurityTotals) :
    (pods.foldl countPod t).podPrivileged =
      t.podPrivileged + (pods.map fun pod => privilegedHit pod.Containers).sum := by
  induction pods generalizing t with
  | nil => simp
  | cons pod rest ih =>
    simp only [List.foldl_cons, List.map_cons, List.sum_cons, ih, countPod_podPrivileged]
    omega

theorem foldl_countPod_podRunAsRoot (pods : List PodInfo) (t : PodSecurityTotals) :
    (pods.foldl countPod t).podRunAsRoot =
      t.podRunAsRoot + (pods.map fun pod => rootHit pod.Containers).sum := by
  induction pods generalizing t with
  | nil => simp
  | cons pod rest ih =>
    simp only [List.foldl_cons, List.map_cons, List.sum_cons, ih, countPod_podRunAsRoot]
    omega

/-- The privileged counter is the number of pods whose container scan stops at
a privileged container. -/
theorem podSecurityTotals_podPrivileged (pods : List PodInfo) :
    (podSecurityTotals pods).podPrivileged =
      (pods.map fun pod => privilegedHit pod.Containers).sum := by
  unfold podSecurityTotals
  rw [foldl_countPod_podPrivileged]
  simp

/-- The run-as-root counter is the number of pods whose container scan stops at
a container that has run-as-user 0 and is not privileged. -/
theorem podSecurityTotals_podRunAsRoot (pods : List PodInfo) :
    (podSecurityTotals pods).podRunAsRoot =
      (pods.map fun pod => rootHit pod.Containers).sum := by
  unfold podSecurityTotals
  rw [foldl_countPod_podRunAsRoot]
  simp

theorem privilegedHit_le_one (cs : List ContainerInfo) : privilegedHit cs ≤ 1 := by
  induction cs with
  | nil => simp [privilegedHit]
  | cons c rest ih =>
    unfold privilegedHit
    split_ifs <;> simp [ih]

theorem sum_privilegedHit_le_length (pods : List PodInfo) :
    (pods.map fun pod => privilegedHit pod.Containers).sum ≤ pods.length := by
  induction pods with
  | nil => simp
  | cons pod rest ih =>
    have h := privilegedHit_le_one pod.Containers
    simp only [List.map_cons, List.sum_cons, List.length_cons]
    omega

/-- C1 (code defect, evaluated at the failing input).  The pod
`rootThenPrivilegedPod` has a privileged container, so the number of pods with
at least one privileged container is 1; its first container has run-as-user 0
and is not privileged, the scan of `generateDashboard` stops there, and the
"Privileged" total written to the dashboard (row 15) is 0. -/
theorem podPrivileged_misses_privileged_container_after_root_container :
    List.countP hasPrivilegedContainer [rootThenPrivilegedPod] = 1 ∧
    (podSecurityTotals [rootThenPrivilegedPod]).podPrivileged = 0 ∧
    cellValue? (generateDashboard sampleReport (assessmentOfPods [rootThenPrivilegedPod]))
      "Dashboard" "E15" = some (.str "Privileged") ∧
    cellValue? (generateDashboard sampleReport (assessmentOfPods [rootThenPrivilegedPod]))
      "Dashboard" "F15" = some (.int 0) := by
  decide

/-- C2 (code defect, evaluated at the failing input).  The only container of
`privilegedRootPod` has run-as-user 0, so the number of pods with a container
whose run-as-user is 0 is 1; that container is also privileged, the scan of
`generateDashboard` counts it as privileged and stops, and the "RunAsRoot"
total written to the dashboard (row 19) is 0. -/
theorem podRunAsRoot_misses_root_container_that_is_privileged :
    List.countP hasRootContainer [privilegedRootPod] = 1 ∧
    (podSecurityTotals [privilegedRootPod]).podRunAsRoot = 0 ∧
    cellValue? (generateDashboard sampleReport (assessmentOfPods [privilegedRootPod]))
      "Dashboard" "E19" = some (.str "RunAsRoot") ∧
    cellValue? (generateDashboard sampleReport (assessmentOfPods [privilegedRootPod]))
      "Dashboard" "F19" = some (.int 0) := by
  decide

/-- C3.  The "Privileged" total that `generateDashboard` writes (label in E15,
count in F15) never exceeds the number of pods, and a pod P contributes at
most 1 to it whatever its containers are: inserting P anywhere in the pod
sequence raises the total by 0 or 1. -/
theorem podPrivileged_counts_each_pod_at_most_once (r : Report) (data : AssessmentData) :
    cellValue? (generateDashboard r data) "Dashboard" "E15" = some (.str "Privileged") ∧
    cellValue? (generateDashboard r data) "Dashboard" "F15" =
      some (.int (podSecurityTotals data.Workloads.Pods).podPrivileged) ∧
    (podSecurityTotals data.Workloads.Pods).podPrivileged ≤ data.Workloads.Pods.length ∧
    (∀ (before after : List PodInfo) (P : PodInfo),
      (podSecurityTotals (before ++ P :: after)).podPrivileged ≤
        (podSecurityTotals (before ++ after)).podPrivileged + 1) ∧
    (∀ (before after : List PodInfo) (P : PodInfo),
      (podSecurityTotals (before ++ after)).podPrivileged ≤
        (podSecurityTotals (before ++ P :: after)).podPrivileged) := by
  refine ⟨by rfl, by rfl, ?_, ?_, ?_⟩
  · rw [podSecurityTotals_podPrivileged]
    exact sum_privilegedHit_le_length _
  · intro before after P
    have h := privilegedHit_le_one P.Containers
    simp only [podSecurityTotals_podPrivileged, List.map_append, List.map_cons, List.sum_append,
      List.sum_cons]
    omega
  · intro before after P
    simp only [podSecurityTotals_podPrivileged, List.map_append, List.map_cons, List.sum_append,
      List.sum_cons]
    omega

/-! ## The summary tables of the dashboard and their charts -/

theorem rbacTableRows_isInfix (r : Report) (data : AssessmentData) :
    rbacTableRows r "Dashboard" data <:+: generateDashboard r data := by
  unfold generateDashboard
  dsimp only
  exact (List.suffix_append _ _).isInfix.trans
    ((List.prefix_append _ _).isInfix.trans
      ((List.prefix_append _ _).isInfix.trans
        ((List.prefix_append _ _).isInfix.trans (List.prefix_append _ _).isInfix)))

theorem podTableRows_isInfix (r : Report) (data : AssessmentData) :
    podTableRows r "Dashboard" data <:+: generateDashboard r data := by
  unfold generateDashboard
  dsimp only
  exact (List.suffix_append _ _).isInfix.trans (List.prefix_append _ _).isInfix

theorem writtenCells_rbacTableRows (r : Report) (data : AssessmentData) :
    writtenCells (rbacTableRows r "Dashboard" data) =
      ["E5", "F5", "E6", "F6", "E7", "F7", "E8", "F8", "E9", "F9"] := by
  rfl

theorem writtenCells_podTableRows (r : Report) (data : AssessmentData) :
    writtenCells (podTableRows r "Dashboard" data) =
      ["E14", "F14", "E15", "F15", "E16", "F16", "E17", "F17", "E18", "F18", "E19", "F19"] := by
  rfl

theorem chartsAdded_generateDashboard (r : Report) (data : AssessmentData) :
    chartsAdded (generateDashboard r data) =
      [("H4", rbacChart "Dashboard"), ("E21", podChart "Dashboard")] := by
  rfl

/-- C4 (code defect, for every report and assessment).  The loop of the
pod-security table is part of `generateDashboard` and writes the cells of
rows 14 to 19 of columns E and F, while the series of the pod-security chart
name rows 15 to 20: the row of "Total Pods" (E14) is outside the chart range,
and row 20, inside the chart range, is never written. -/
theorem pod_security_chart_range_is_one_row_below_table (r : Report) (data : AssessmentData) :
    podTableRows r "Dashboard" data <:+: generateDashboard r data ∧
    (writtenCells (podTableRows r "Dashboard" data)).Perm
      (rangeCells "E" 14 19 ++ rangeCells "F" 14 19) ∧
    chartsAdded (generateDashboard r data) =
      [("H4", rbacChart "Dashboard"), ("E21", podChart "Dashboard")] ∧
    (podChart "Dashboard").Series =
      [ { Name := "Pod Security"
          Categories := absoluteRange "Dashboard" "E" 15 20
          Values := absoluteRange "Dashboard" "F" 15 20 } ] ∧
    cellValue? (generateDashboard r data) "Dashboard" "E14" = some (.str "Total Pods") ∧
    "E14" ∉ rangeCells "E" 15 20 ∧
    "E20" ∈ rangeCells "E" 15 20 ∧
    cellValue? (generateDashboard r data) "Dashboard" "E20" = none ∧
    cellValue? (generateDashboard r data) "Dashboard" "F20" = none := by
  refine ⟨podTableRows_isInfix r data, ?_, chartsAdded_generateDashboard r data, by decide,
    by rfl, by decide, by decide, by rfl, by rfl⟩
  rw [writtenCells_podTableRows]
  decide

/-- C5.  The loop of the RBAC table is part of `generateDashboard` and writes
exactly the cells of rows 5 to 9 of columns E and F; the series of the RBAC
chart name exactly these rows (E5:E9 as categories, F5:F9 as values); row
5+i holds the i-th label and the length of the i-th of the sequences Roles,
ClusterRoles, RoleBindings, ClusterRoleBindings, ServiceAccounts. -/
theorem rbac_table_rows_are_the_chart_range (r : Report) (data : AssessmentData) :
    rbacTableRows r "Dashboard" data <:+: generateDashboard r data ∧
    (writtenCells (rbacTableRows r "Dashboard" data)).Perm
      (rangeCells "E" 5 9 ++ rangeCells "F" 5 9) ∧
    chartsAdded (generateDashboard r data) =
      [("H4", rbacChart "Dashboard"), ("E21", podChart "Dashboard")] ∧
    (rbacChart "Dashboard").Series =
      [ { Name := "RBAC Objects"
          Categories := absoluteRange "Dashboard" "E" 5 9
          Values := absoluteRange "Dashboard" "F" 5 9 } ] ∧
    (cellValue? (generateDashboard r data) "Dashboard" "E5" = some (.str "Roles") ∧
     cellValue? (generateDashboard r data) "Dashboard" "E6" = some (.str "ClusterRoles") ∧
     cellValue? (generateDashboard r data) "Dashboard" "E7" = some (.str "RoleBindings") ∧
     cellValue? (generateDashboard r data) "Dashboard" "E8" =
       some (.str "ClusterRoleBindings") ∧
     cellValue? (generateDashboard r data) "Dashboard" "E9" = some (.str "ServiceAccounts")) ∧
    (cellValue? (generateDashboard r data) "Dashboard" "F5" =
       some (.int data.RBAC.Roles.length) ∧
     cellValue? (generateDashboard r data) "Dashboard" "F6" =
       some (.int data.RBAC.ClusterRoles.length) ∧
     cellValue? (generateDashboard r data) "Dashboard" "F7" =
       some (.int data.RBAC.RoleBindings.length) ∧
     cellValue? (generateDashboard r data) "Dashboard" "F8" =
       some (.int data.RBAC.ClusterRoleBindings.length) ∧
     cellValue? (generateDashboard r data) "Dashboard" "F9" =
       some (.int data.RBAC.ServiceAccounts.length)) := by
  refine ⟨rbacTableRows_isInfix r data, ?_, chartsAdded_generateDashboard r data, by decide,
    ⟨by rfl, by rfl, by rfl, by rfl, by rfl⟩, ⟨by rfl, by rfl, by rfl, by rfl, by rfl⟩⟩
  rw [writtenCells_rbacTableRows]
  decide

/-! ## Sub-collectors: a failed namespaced list call -/

/-- C6 (code defect, evaluated at failing inputs).  In each of the three
clients one namespace "n" has a first list call that fails while its later
list calls would succeed with one entry each: after the failed pods list the
workload model holds none of the namespace's deployments, stateful sets and
daemon sets; after the failed services list the network model holds none of
its network policies and ingresses; after the failed roles list the RBAC
model holds none of its role bindings and service accounts.  The blocks
guarded by `if err == nil` behave as the claim says: a failed deployments list
leaves the pods, stateful sets and daemon sets of the namespace in the
model. -/
theorem failed_first_list_call_drops_the_other_kinds_of_the_namespace :
    (podsFailClient.Deployments "n" = .ok [sampleDeployment (some 2)] ∧
     podsFailClient.StatefulSets "n" = .ok [sampleStatefulSet] ∧
     podsFailClient.DaemonSets "n" = .ok [sampleDaemonSet] ∧
     collectWorkloadInfo podsFailClient =
       .ok { Pods := [], Deployments := [], StatefulSets := [], DaemonSets := [] }) ∧
    (servicesFailClient.NetworkPolicies "n" = .ok [sampleNetworkPolicy] ∧
     servicesFailClient.Ingresses "n" = .ok [sampleIngress] ∧
     collectNetworkInfo servicesFailClient =
       .ok { Services := [], NetworkPolicies := [], Ingresses := [] }) ∧
    (rolesFailClient.RoleBindings "n" = .ok [sampleRoleBinding] ∧
     rolesFailClient.ServiceAccounts "n" = .ok [sampleServiceAccount] ∧
     collectRBACInfo rolesFailClient =
       .ok { ClusterRoles := [], ClusterRoleBindings := [], Roles := [], RoleBindings := [],
             ServiceAccounts := [] }) ∧
    (∃ w, collectWorkloadInfo deploymentsFailClient = .ok w ∧
      w.Pods = [podInfo (sampleRawPod "p" "n")] ∧ w.Deployments = [] ∧
      w.StatefulSets.length = 1 ∧ w.DaemonSets = [daemonSetInfo sampleDaemonSet]) := by
  refine ⟨⟨rfl, rfl, rfl, by decide⟩, ⟨rfl, rfl, by decide⟩, ⟨rfl, rfl, by decide⟩,
    ⟨_, rfl, by decide, by decide, by decide, by decide⟩⟩

/-! ## The workload collector: pods of the namespaces whose pods list succeeded -/

theorem convertAll_eq_some {α β : Type} (f : α → Option β) (xs : List α)
    (h : ∀ x ∈ xs, f x ≠ none) : ∃ ys, convertAll f xs = some ys := by
  induction xs with
  | nil => exact ⟨[], rfl⟩
  | cons x rest ih =>
    obtain ⟨y, hy⟩ := Option.ne_none_iff_exists'.mp (h x (List.mem_cons_self _ _))
    obtain ⟨ys, hys⟩ := ih fun z hz => h z (List.mem_cons_of_mem _ hz)
    exact ⟨y :: ys, by simp [convertAll, hy, hys]⟩

theorem deploymentInfo_ne_none (d : RawDeployment) (h : d.Replicas ≠ none) :
    deploymentInfo d ≠ none := by
  unfold deploymentInfo
  cases hr : d.Replicas with
  | none => exact absurd hr h
  | some n => simp

theorem statefulSetInfo_ne_none (s : RawStatefulSet) (h : s.Replicas ≠ none) :
    statefulSetInfo s ≠ none := by
  unfold statefulSetInfo
  cases hr : s.Replicas with
  | none => exact absurd hr h
  | some n => simp

theorem collectDeployments_pods (c : Client) (ns : RawNamespace) (w w1 : WorkloadAssessment)
    (h : collectDeployments c ns w = .ok w1) : w1.Pods = w.Pods := by
  unfold collectDeployments at h
  cases hd : c.Deployments ns.Name with
  | error e => simp [hd] at h; rw [← h]
  | ok ds =>
    simp only [hd] at h
    cases hc : convertAll deploymentInfo ds with
    | none => simp [hc] at h
    | some infos => simp [hc] at h; rw [← h]

theorem collectStatefulSets_pods (c : Client) (ns : RawNamespace) (w w1 : WorkloadAssessment)
    (h : collectStatefulSets c ns w = .ok w1) : w1.Pods = w.Pods := by
  unfold collectStatefulSets at h
  cases hd : c.StatefulSets ns.Name with
  | error e => simp [hd] at h; rw [← h]
  | ok ds =>
    simp only [hd] at h
    cases hc : convertAll statefulSetInfo ds with
    | none => simp [hc] at h
    | some infos => simp [hc] at h; rw [← h]

theorem collectDaemonSets_pods (c : Client) (ns : RawNamespace) (w : WorkloadAssessment) :
    (collectDaemonSets c ns w).Pods = w.Pods := by
  unfold collectDaemonSets
  cases c.DaemonSets ns.Name <;> rfl

theorem collectDeployments_ok (c : Client) (ns : RawNamespace) (w : WorkloadAssessment)
    (h : ∀ ds, c.Deployments ns.Name = .ok ds → ∀ d ∈ ds, d.Replicas ≠ none) :
    ∃ w1, collectDeployments c ns w = .ok w1 := by
  unfold collectDeployments
  cases hd : c.Deployments ns.Name with
  | error e => exact ⟨w, rfl⟩
  | ok ds =>
    obtain ⟨infos, hi⟩ := convertAll_eq_some deploymentInfo ds
      fun d hmem => deploymentInfo_ne_none d (h ds hd d hmem)
    exact ⟨{ w with Deployments := w.Deployments ++ infos }, by simp only [hi]⟩

theorem collectStatefulSets_ok (c : Client) (ns : RawNamespace) (w : WorkloadAssessment)
    (h : ∀ ss, c.StatefulSets ns.Name = .ok ss → ∀ s ∈ ss, s.Replicas ≠ none) :
    ∃ w1, collectStatefulSets c ns w = .ok w1 := by
  unfold collectStatefulSets
  cases hd : c.StatefulSets ns.Name with
  | error e => exact ⟨w, rfl⟩
  | ok ss =>
    obtain ⟨infos, hi⟩ := convertAll_eq_some statefulSetInfo ss
      fun s hmem => statefulSetInfo_ne_none s (h ss hd s hmem)
    exact ⟨{ w with StatefulSets := w.StatefulSets ++ infos }, by simp only [hi]⟩

/-- One iteration of the workload loop, when no replica count is unset: it
returns a model whose pods are the old ones followed by this namespace's. -/
theorem workloadNamespaceBody_pods (c : Client) (w : WorkloadAssessment) (ns : RawNamespace)
    (h : ∀ pods, c.Pods ns.Name = .ok pods →
      (∀ ds, c.Deployments ns.Name = .ok ds → ∀ d ∈ ds, d.Replicas ≠ none) ∧
      (∀ ss, c.StatefulSets ns.Name = .ok ss → ∀ s ∈ ss, s.Replicas ≠ none)) :
    ∃ w1, workloadNamespaceBody c w ns = .ok w1 ∧
      w1.Pods = w.Pods ++ podsOfNamespaces c [ns] := by
  unfold workloadNamespaceBody podsOfNamespaces
  cases hp : c.Pods ns.Name with
  | error e => exact ⟨w, rfl, by simp [hp]⟩
  | ok pods =>
    obtain ⟨hd, hs⟩ := h pods hp
    obtain ⟨w1, h1⟩ := collectDeployments_ok c ns { w with Pods := w.Pods ++ pods.map podInfo } hd
    obtain ⟨w2, h2⟩ := collectStatefulSets_ok c ns w1 hs
    refine ⟨collectDaemonSets c ns w2, ?_, ?_⟩
    · simp [h1, h2, Outcome.bind]
    · rw [collectDaemonSets_pods, collectStatefulSets_pods c ns w1 w2 h2,
        collectDeployments_pods c ns _ w1 h1]
      simp [hp]

theorem podsOfNamespaces_cons (c : Client) (ns : RawNamespace) (rest : List RawNamespace) :
    podsOfNamespaces c (ns :: rest) = podsOfNamespaces c [ns] ++ podsOfNamespaces c rest := by
  simp [podsOfNamespaces]

theorem forEachNamespace_workload_pods (c : Client) (namespaces : List RawNamespace)
    (w : WorkloadAssessment) (h : ReplicasSet c namespaces) :
    ∃ w1, forEachNamespace (workloadNamespaceBody c) namespaces w = .ok w1 ∧
      w1.Pods = w.Pods ++ podsOfNamespaces c namespaces := by
  induction namespaces generalizing w with
  | nil => exact ⟨w, rfl, by simp [podsOfNamespaces]⟩
  | cons ns rest ih =>
    obtain ⟨w1, h1, hp1⟩ := workloadNamespaceBody_pods c w ns
      (h ns (List.mem_cons_self _ _))
    obtain ⟨w2, h2, hp2⟩ := ih w1 fun n hn => h n (List.mem_cons_of_mem _ hn)
    refine ⟨w2, ?_, ?_⟩
    · simp [forEachNamespace, h1, h2]
    · rw [hp2, hp1, podsOfNamespaces_cons c ns rest, List.append_assoc]

/-- When the namespace listing succeeds and no converted deployment or
stateful set lacks a replica count, `collectWorkloadInfo` returns a model and
no error, and its pods are those of the namespaces whose pods list
succeeded, in namespace order. -/
theorem collectWorkloadInfo_pods_of_replicasSet (c : Client) (namespaces : List RawNamespace)
    (hns : c.NamespacesForWorkloads = .ok namespaces) (h : ReplicasSet c namespaces) :
    ∃ w, collectWorkloadInfo c = .ok w ∧ w.Pods = podsOfNamespaces c namespaces := by
  obtain ⟨w, hw, hp⟩ := forEachNamespace_workload_pods c namespaces
    { Pods := [], Deployments := [], StatefulSets := [], DaemonSets := [] } h
  exact ⟨w, by simp [collectWorkloadInfo, hns, hw], by simpa using hp⟩

/-- Evaluation on a deployment without replica count, a record that the API
server does not serve since it sets the count of every deployment: in
`unsetReplicasClient` the namespace listing and the pods list of the only
namespace succeed and the deployments list returns such a deployment, and
`collectWorkloadInfo` stops with a nil dereference.  With the namespaces a, b,
c of `threeNamespacesClient`, where only the pods list of b fails, it returns
the pods of a followed by those of c. -/
theorem collectWorkloadInfo_stops_on_unset_replica_count :
    unsetReplicasClient.NamespacesForWorkloads = .ok [sampleNamespace "n"] ∧
    unsetReplicasClient.Pods "n" = .ok [sampleRawPod "p" "n"] ∧
    unsetReplicasClient.Deployments "n" = .ok [sampleDeployment none] ∧
    collectWorkloadInfo unsetReplicasClient = .nilDereference ∧
    collectWorkloadInfo threeNamespacesClient =
      .ok { Pods := [podInfo (sampleRawPod "a1" "a"), podInfo (sampleRawPod "a2" "a"),
                     podInfo (sampleRawPod "c1" "c")]
            Deployments := [], StatefulSets := [], DaemonSets := [] } := by
  refine ⟨rfl, rfl, rfl, by decide, by decide⟩

/-- C7.  Let the namespace listing succeed, and let every deployment and
stateful set that the collector converts carry a replica count, as every
object served by the API server does.  Then, whatever the results of the pods
list calls are, `collectWorkloadInfo` returns a model and no error, and its
pods are the pods of the namespaces whose pods list succeeded, in namespace
order and within a namespace in the order the API returned them, and none of
a namespace whose pods list failed.  With the namespaces a, b, c of
`threeNamespacesClient`, where only the pods list of b fails, the pods are
those of a followed by those of c. -/
theorem collectWorkloadInfo_returns_pods_of_listed_namespaces (c : Client)
    (namespaces : List RawNamespace) (hns : c.NamespacesForWorkloads = .ok namespaces)
    (h : ReplicasSet c namespaces) :
    (∃ w, collectWorkloadInfo c = .ok w ∧
      w.Pods =
        (namespaces.map fun ns =>
          match c.Pods ns.Name with
          | .ok pods => pods.map podInfo
          | .error _ => []).flatten) ∧
    (∀ w, collectWorkloadInfo c = .ok w →
      ∀ pod ∈ w.Pods, ∃ ns ∈ namespaces, ∃ pods, c.Pods ns.Name = .ok pods ∧
        pod ∈ pods.map podInfo) ∧
    collectWorkloadInfo threeNamespacesClient =
      .ok { Pods := [podInfo (sampleRawPod "a1" "a"), podInfo (sampleRawPod "a2" "a"),
                     podInfo (sampleRawPod "c1" "c")]
            Deployments := [], StatefulSets := [], DaemonSets := [] } := by
  obtain ⟨w, hw, hp⟩ := collectWorkloadInfo_pods_of_replicasSet c namespaces hns h
  refine ⟨⟨w, hw, hp⟩, ?_, by decide⟩
  intro w1 hw1 pod hpod
  rw [hw] at hw1
  obtain rfl := Outcome.ok.inj hw1
  rw [hp] at hpod
  unfold podsOfNamespaces at hpod
  rw [List.mem_flatten] at hpod
  obtain ⟨l, hl, hmem⟩ := hpod
  obtain ⟨ns, hns1, rfl⟩ := List.mem_map.mp hl
  cases hpods : c.Pods ns.Name with
  | error e => simp [hpods] at hmem
  | ok pods =>
    rw [hpods] at hmem
    exact ⟨ns, hns1, pods, hpods, hmem⟩

/-- Witness for C7: the namespaces a, b, c with a deployment and a stateful
set in each; the pods list of b fails. -/
theorem collectWorkloadInfo_returns_pods_of_listed_namespaces_witness :
    ∃ w, collectWorkloadInfo threeNamespacesWorkloadsClient = .ok w ∧
      w.Pods =
        [podInfo (sampleRawPod "a1" "a"), podInfo (sampleRawPod "a2" "a"),
          podInfo (sampleRawPod "c1" "c")] :=
  (collectWorkloadInfo_returns_pods_of_listed_namespaces threeNamespacesWorkloadsClient
    [sampleNamespace "a", sampleNamespace "b", sampleNamespace "c"] rfl
    (by
      intro ns _ pods _
      refine ⟨?_, ?_⟩
      · intro deployments hd d hmem
        obtain rfl : [sampleDeployment (some 2)] = deployments := Except.ok.inj hd
        rw [List.mem_singleton.mp hmem]
        decide
      · intro statefulSets hs s hmem
        obtain rfl : [sampleStatefulSet] = statefulSets := Except.ok.inj hs
        rw [List.mem_singleton.mp hmem]
        decide)).1

/-! ## The orchestrator -/

theorem collectClusterInfo_ne_nilDereference (c : Client) :
    collectClusterInfo c ≠ .nilDereference := by
  unfold collectClusterInfo
  cases c.ServerVersion <;> cases c.Nodes <;> cases c.NamespacesForClusterInfo <;> simp

theorem CollectAll_eq_ok_iff (c : Client) (data : AssessmentData) :
    CollectAll c = .ok data ↔
      collectClusterInfo c = .ok data.ClusterInfo ∧ collectRBACInfo c = .ok data.RBAC ∧
      collectWorkloadInfo c = .ok data.Workloads ∧ collectNetworkInfo c = .ok data.Network ∧
      collectSecretInfo c = .ok data.Secrets := by
  unfold CollectAll
  cases hci : collectClusterInfo c <;> cases hr : collectRBACInfo c <;>
    cases hw : collectWorkloadInfo c <;> cases hn : collectNetworkInfo c <;>
    cases hs : collectSecretInfo c <;> simp
  constructor
  · rintro rfl
    exact ⟨rfl, rfl, rfl, rfl, rfl⟩
  · rintro ⟨rfl, rfl, rfl, rfl, rfl⟩
    rfl

theorem collectClusterInfo_ok_listings (c : Client) (ci : ClusterInfo)
    (h : collectClusterInfo c = .ok ci) :
    (∃ v, c.ServerVersion = .ok v) ∧ (∃ x, c.Nodes = .ok x) ∧
      (∃ x, c.NamespacesForClusterInfo = .ok x) := by
  unfold collectClusterInfo at h
  cases h1 : c.ServerVersion <;> cases h2 : c.Nodes <;>
    cases h3 : c.NamespacesForClusterInfo <;> simp_all

theorem collectRBACInfo_ok_listings (c : Client) (rbac : RBACAssessment)
    (h : collectRBACInfo c = .ok rbac) :
    (∃ x, c.ClusterRoles = .ok x) ∧ (∃ x, c.ClusterRoleBindings = .ok x) ∧
      (∃ x, c.NamespacesForRBAC = .ok x) := by
  unfold collectRBACInfo at h
  cases h1 : c.ClusterRoles <;> cases h2 : c.ClusterRoleBindings <;>
    cases h3 : c.NamespacesForRBAC <;> simp_all

theorem collectWorkloadInfo_ok_listing (c : Client) (w : WorkloadAssessment)
    (h : collectWorkloadInfo c = .ok w) : ∃ x, c.NamespacesForWorkloads = .ok x := by
  unfold collectWorkloadInfo at h
  cases h1 : c.NamespacesForWorkloads <;> simp_all

theorem collectNetworkInfo_ok_listing (c : Client) (n : NetworkAssessment)
    (h : collectNetworkInfo c = .ok n) : ∃ x, c.NamespacesForNetwork = .ok x := by
  unfold collectNetworkInfo at h
  cases h1 : c.NamespacesForNetwork <;> simp_all

theorem collectSecretInfo_ok_listing (c : Client) (sa : SecretAssessment)
    (h : collectSecretInfo c = .ok sa) : ∃ x, c.NamespacesForSecrets = .ok x := by
  unfold collectSecretInfo at h
  cases h1 : c.NamespacesForSecrets <;> simp_all


/-- C8.  `CollectAll` runs cluster info, RBAC, workloads, network, secrets in
this order.  A cluster-scoped listing that is issued (every step before it
returned a value) and fails with error `e` makes `CollectAll` return `e`
itself and no data: nodes, the namespaces of each of the five sub-collectors,
ClusterRoles, ClusterRoleBindings.  A failing ClusterRoles list always makes
`CollectAll` return an error.  `CollectAll` returns data exactly when all five
sub-collectors returned a value, the data being these five values, and then
every cluster-scoped call succeeded. -/
theorem CollectAll_fails_fast_on_cluster_scoped_listing (c : Client) :
    (∀ e, (∃ v, c.ServerVersion = .ok v) → c.Nodes = .error e → CollectAll c = .error e) ∧
    (∀ e, (∃ v, c.ServerVersion = .ok v) → (∃ nodes, c.Nodes = .ok nodes) →
      c.NamespacesForClusterInfo = .error e → CollectAll c = .error e) ∧
    (∀ e, (∃ ci, collectClusterInfo c = .ok ci) → c.ClusterRoles = .error e →
      CollectAll c = .error e) ∧
    (∀ e, (∃ ci, collectClusterInfo c = .ok ci) → (∃ crs, c.ClusterRoles = .ok crs) →
      c.ClusterRoleBindings = .error e → CollectAll c = .error e) ∧
    (∀ e, (∃ ci, collectClusterInfo c = .ok ci) → (∃ crs, c.ClusterRoles = .ok crs) →
      (∃ crbs, c.ClusterRoleBindings = .ok crbs) → c.NamespacesForRBAC = .error e →
      CollectAll c = .error e) ∧
    (∀ e, (∃ ci, collectClusterInfo c = .ok ci) → (∃ rbac, collectRBACInfo c = .ok rbac) →
      c.NamespacesForWorkloads = .error e → CollectAll c = .error e) ∧
    (∀ e, (∃ ci, collectClusterInfo c = .ok ci) → (∃ rbac, collectRBACInfo c = .ok rbac) →
      (∃ w, collectWorkloadInfo c = .ok w) → c.NamespacesForNetwork = .error e →
      CollectAll c = .error e) ∧
    (∀ e, (∃ ci, collectClusterInfo c = .ok ci) → (∃ rbac, collectRBACInfo c = .ok rbac) →
      (∃ w, collectWorkloadInfo c = .ok w) → (∃ n, collectNetworkInfo c = .ok n) →
      c.NamespacesForSecrets = .error e → CollectAll c = .error e) ∧
    (∀ e, c.ClusterRoles = .error e → ∃ e1, CollectAll c = .error e1) ∧
    (∀ data, CollectAll c = .ok data ↔
      collectClusterInfo c = .ok data.ClusterInfo ∧ collectRBACInfo c = .ok data.RBAC ∧
      collectWorkloadInfo c = .ok data.Workloads ∧ collectNetworkInfo c = .ok data.Network ∧
      collectSecretInfo c = .ok data.Secrets) ∧
    (∀ data, CollectAll c = .ok data →
      (∃ v, c.ServerVersion = .ok v) ∧ (∃ x, c.Nodes = .ok x) ∧
      (∃ x, c.NamespacesForClusterInfo = .ok x) ∧ (∃ x, c.ClusterRoles = .ok x) ∧
      (∃ x, c.ClusterRoleBindings = .ok x) ∧ (∃ x, c.NamespacesForRBAC = .ok x) ∧
      (∃ x, c.NamespacesForWorkloads = .ok x) ∧ (∃ x, c.NamespacesForNetwork = .ok x) ∧
      (∃ x, c.NamespacesForSecrets = .ok x)) := by
  refine ⟨?_, ?_, ?_, ?_, ?_, ?_, ?_, ?_, ?_, ?_, ?_⟩
  · rintro e ⟨v, hv⟩ hn
    simp [CollectAll, collectClusterInfo, hv, hn]
  · rintro e ⟨v, hv⟩ ⟨nodes, hn⟩ hns
    simp [CollectAll, collectClusterInfo, hv, hn, hns]
  · rintro e ⟨ci, hci⟩ hcr
    simp [CollectAll, hci, collectRBACInfo, hcr]
  · rintro e ⟨ci, hci⟩ ⟨crs, hcr⟩ hcrb
    simp [CollectAll, hci, collectRBACInfo, hcr, hcrb]
  · rintro e ⟨ci, hci⟩ ⟨crs, hcr⟩ ⟨crbs, hcrb⟩ hns
    simp [CollectAll, hci, collectRBACInfo, hcr, hcrb, hns]
  · rintro e ⟨ci, hci⟩ ⟨rbac, hr⟩ hns
    simp [CollectAll, hci, hr, collectWorkloadInfo, hns]
  · rintro e ⟨ci, hci⟩ ⟨rbac, hr⟩ ⟨w, hw⟩ hns
    simp [CollectAll, hci, hr, hw, collectNetworkInfo, hns]
  · rintro e ⟨ci, hci⟩ ⟨rbac, hr⟩ ⟨w, hw⟩ ⟨n, hn⟩ hns
    simp [CollectAll, hci, hr, hw, hn, collectSecretInfo, hns]
  · intro e hcr
    cases hci : collectClusterInfo c with
    | nilDereference => exact absurd hci (collectClusterInfo_ne_nilDereference c)
    | error e1 => exact ⟨e1, by simp [CollectAll, hci]⟩
    | ok ci => exact ⟨e, by simp [CollectAll, hci, collectRBACInfo, hcr]⟩
  · exact CollectAll_eq_ok_iff c
  · intro data h
    obtain ⟨hci, hr, hw, hn, hs⟩ := (CollectAll_eq_ok_iff c data).mp h
    obtain ⟨h1, h2, h3⟩ := collectClusterInfo_ok_listings c _ hci
    obtain ⟨h4, h5, h6⟩ := collectRBACInfo_ok_listings c _ hr
    exact ⟨h1, h2, h3, h4, h5, h6, collectWorkloadInfo_ok_listing c _ hw,
      collectNetworkInfo_ok_listing c _ hn, collectSecretInfo_ok_listing c _ hs⟩

/-- Witness for C8: with a failing ClusterRoles list `CollectAll` returns that
error. -/
theorem CollectAll_fails_fast_on_cluster_scoped_listing_witness :
    CollectAll clusterRolesFailClient = .error apiFailure :=
  (CollectAll_fails_fast_on_cluster_scoped_listing clusterRolesFailClient).2.2.1 apiFailure
    ⟨_, rfl⟩ rfl

/-! ## Node readiness -/

theorem nodeReady_eq_true_iff (conditions : List RawNodeCondition) :
    nodeReady conditions = true ↔
      ∃ before cond after, conditions = before ++ cond :: after ∧
        (∀ x ∈ before, x.Type_ ≠ "Ready") ∧ cond.Type_ = "Ready" ∧ cond.Status = "True" := by
  induction conditions with
  | nil => simp [nodeReady]
  | cons c rest ih =>
    unfold nodeReady
    by_cases hc : c.Type_ = "Ready"
    · simp only [hc, if_true, decide_eq_true_eq]
      constructor
      · intro hs
        exact ⟨[], c, rest, rfl, by simp, hc, hs⟩
      · rintro ⟨before, cond, after, heq, hbefore, _, hstatus⟩
        cases before with
        | nil =>
          simp only [List.nil_append, List.cons.injEq] at heq
          rw [heq.1]
          exact hstatus
        | cons b bs =>
          simp only [List.cons_append, List.cons.injEq] at heq
          exact absurd (heq.1 ▸ hc) (hbefore b (List.mem_cons_self _ _))
    · simp only [hc, if_false, ih]
      constructor
      · rintro ⟨before, cond, after, heq, hbefore, htype, hstatus⟩
        refine ⟨c :: before, cond, after, by simp [heq], ?_, htype, hstatus⟩
        intro x hx
        rcases List.mem_cons.mp hx with rfl | hx
        · exact hc
        · exact hbefore x hx
      · rintro ⟨before, cond, after, heq, hbefore, htype, hstatus⟩
        cases before with
        | nil =>
          simp only [List.nil_append, List.cons.injEq] at heq
          exact absurd (heq.1 ▸ htype) hc
        | cons b bs =>
          simp only [List.cons_append, List.cons.injEq] at heq
          exact ⟨bs, cond, after, heq.2, fun x hx => hbefore x (List.mem_cons_of_mem _ hx),
            htype, hstatus⟩

theorem nodeReady_eq_false_of_no_ready (conditions : List RawNodeCondition)
    (h : ∀ x ∈ conditions, x.Type_ ≠ "Ready") : nodeReady conditions = false := by
  induction conditions with
  | nil => rfl
  | cons c rest ih =>
    unfold nodeReady
    rw [if_neg (h c (List.mem_cons_self _ _))]
    exact ih fun x hx => h x (List.mem_cons_of_mem _ hx)

theorem collectClusterInfo_nodes (c : Client) (nodes : List RawNode) (ci : ClusterInfo)
    (hn : c.Nodes = .ok nodes) (h : collectClusterInfo c = .ok ci) :
    ci.Nodes = nodes.map nodeInfo := by
  unfold collectClusterInfo at h
  cases h1 : c.ServerVersion <;> cases h3 : c.NamespacesForClusterInfo <;>
    simp [h1, hn, h3] at h
  rw [← h]

/-- C9 (amended).  For every node of a successful `collectClusterInfo`, the
collected `Ready` is true exactly when the first condition of type "Ready" of
the node (a condition of type "Ready" with no condition of type "Ready" before
it) has status "True"; when no condition has type "Ready", `Ready` is
false. -/
theorem collected_ready_is_decided_by_first_ready_condition (c : Client)
    (nodes : List RawNode) (ci : ClusterInfo) (hn : c.Nodes = .ok nodes)
    (h : collectClusterInfo c = .ok ci) :
    List.Forall₂
      (fun node info =>
        (info.Ready = true ↔
          ∃ before cond after, node.Conditions = before ++ cond :: after ∧
            (∀ x ∈ before, x.Type_ ≠ "Ready") ∧ cond.Type_ = "Ready" ∧
            cond.Status = "True") ∧
        ((∀ x ∈ node.Conditions, x.Type_ ≠ "Ready") → info.Ready = false))
      nodes ci.Nodes := by
  rw [collectClusterInfo_nodes c nodes ci hn h, List.forall₂_map_right_iff, List.forall₂_same]
  intro node _
  exact ⟨nodeReady_eq_true_iff node.Conditions, nodeReady_eq_false_of_no_ready node.Conditions⟩

/-- C9 (counterexample).  The node `twoReadyConditionsNode` has a condition with
type "Ready" and status "True", and its collected `Ready` is false: the first
condition of type "Ready" has status "False" and ends the scan. -/
theorem ready_false_although_a_ready_true_condition_exists :
    (∃ cond ∈ twoReadyConditionsNode.Conditions, cond.Type_ = "Ready" ∧ cond.Status = "True") ∧
    (nodeInfo twoReadyConditionsNode).Ready = false ∧
    (∃ ci, collectClusterInfo twoReadyConditionsClient = .ok ci ∧
      ci.Nodes.map NodeInfo.Ready = [false]) :=
  ⟨⟨{ Type_ := "Ready", Status := "True" }, by decide, rfl, rfl⟩, by decide, _, rfl, by decide⟩

/-- Witness for C9 (amended), on the cluster of `twoReadyConditionsClient`. -/
theorem collected_ready_is_decided_by_first_ready_condition_witness :
    ∃ ci, collectClusterInfo twoReadyConditionsClient = .ok ci ∧
      List.Forall₂
        (fun node info =>
          (info.Ready = true ↔
            ∃ before cond after, node.Conditions = before ++ cond :: after ∧
              (∀ x ∈ before, x.Type_ ≠ "Ready") ∧ cond.Type_ = "Ready" ∧
              cond.Status = "True") ∧
          ((∀ x ∈ node.Conditions, x.Type_ ≠ "Ready") → info.Ready = false))
        [twoReadyConditionsNode] ci.Nodes :=
  ⟨_, rfl, collected_ready_is_decided_by_first_ready_condition twoReadyConditionsClient
    [twoReadyConditionsNode] _ rfl rfl⟩

/-! ## formatLabels -/

theorem codePointsLe_total (a b : List Nat) :
    codePointsLe a b = true ∨ codePointsLe b a = true := by
  induction a generalizing b with
  | nil => simp [codePointsLe]
  | cons x xs ih =>
    cases b with
    | nil => simp [codePointsLe]
    | cons y ys =>
      rcases Nat.lt_trichotomy x y with h | h | h
      · simp [codePointsLe, h]
      · subst h
        simpa [codePointsLe] using ih ys
      · right
        simp [codePointsLe, h]

theorem codePointsLe_trans (a b c : List Nat) (hab : codePointsLe a b = true)
    (hbc : codePointsLe b c = true) : codePointsLe a c = true := by
  induction a generalizing b c with
  | nil => simp [codePointsLe]
  | cons x xs ih =>
    cases b with
    | nil => simp [codePointsLe] at hab
    | cons y ys =>
      cases c with
      | nil => simp [codePointsLe] at hbc
      | cons z zs =>
        simp only [codePointsLe] at hab hbc ⊢
        split_ifs at hab hbc ⊢ <;> first
          | rfl
          | omega
          | exact ih ys zs hab hbc

theorem codePointsLe_antisymm (a b : List Nat) (hab : codePointsLe a b = true)
    (hba : codePointsLe b a = true) : a = b := by
  induction a generalizing b with
  | nil =>
    cases b with
    | nil => rfl
    | cons y ys => simp [codePointsLe] at hba
  | cons x xs ih =>
    cases b with
    | nil => simp [codePointsLe] at hab
    | cons y ys =>
      simp only [codePointsLe] at hab hba
      split_ifs at hab hba <;> first
        | omega
        | simp at hab
        | simp at hba
        | (have hxy : x = y := by omega
           rw [hxy, ih ys hab hba])

theorem codePoints_injective (a b : String)
    (h : a.toList.map Char.toNat = b.toList.map Char.toNat) : a = b := by
  have hinj : Function.Injective Char.toNat :=
    Function.LeftInverse.injective Char.ofNat_toNat
  exact String.toList_inj.mp (List.map_injective_iff.mpr hinj h)

theorem char_lt_iff_toNat_lt (x y : Char) : x < y ↔ x.toNat < y.toNat := Iff.rfl

theorem codePointsLe_iff_not_lex (a b : List Char) :
    codePointsLe (a.map Char.toNat) (b.map Char.toNat) = true ↔
      ¬ List.Lex (· < ·) b a := by
  induction a generalizing b with
  | nil =>
    simp only [List.map_nil, codePointsLe, true_iff]
    intro h
    cases h
  | cons x xs ih =>
    cases b with
    | nil =>
      simp only [List.map_nil, List.map_cons, codePointsLe, Bool.false_eq_true, false_iff,
        not_not]
      exact List.Lex.nil
    | cons y ys =>
      simp only [List.map_cons, codePointsLe]
      by_cases hxy : x.toNat < y.toNat
      · simp only [hxy, if_true, true_iff]
        intro h
        cases h with
        | cons _ => omega
        | rel hlt => exact absurd ((char_lt_iff_toNat_lt _ _).mp hlt) (by omega)
      · by_cases hyx : y.toNat < x.toNat
        · simp only [hxy, hyx, if_true, if_false, Bool.false_eq_true, false_iff, not_not]
          exact List.Lex.rel ((char_lt_iff_toNat_lt _ _).mpr hyx)
        · simp only [hxy, hyx, if_false]
          rw [ih ys]
          have hx : x = y := by
            have h1 : x.toNat = y.toNat := by omega
            exact Function.LeftInverse.injective Char.ofNat_toNat h1
          subst hx
          constructor
          · intro hn h
            cases h with
            | cons ht => exact hn ht
            | rel hlt => exact hyx ((char_lt_iff_toNat_lt _ _).mp hlt)
          · intro hn h
            exact hn (List.Lex.cons h)

/-- The order used by `sortStrings` is the order `≤` of `String`. -/
theorem stringLE_iff_le (a b : String) : StringLE a b ↔ a ≤ b := by
  rw [String.le_iff_toList_le, ← not_lt]
  exact codePointsLe_iff_not_lex a.toList b.toList

theorem stringLE_isTotal : IsTotal String StringLE :=
  ⟨fun _ _ => codePointsLe_total _ _⟩

theorem stringLE_isTrans : IsTrans String StringLE :=
  ⟨fun _ _ _ hab hbc => codePointsLe_trans _ _ _ hab hbc⟩

theorem stringLE_isAntisymm : IsAntisymm String StringLE :=
  ⟨fun a b hab hba => codePoints_injective a b (codePointsLe_antisymm _ _ hab hba)⟩

theorem sortStrings_perm (xs : List String) : (sortStrings xs).Perm xs :=
  List.perm_insertionSort StringLE xs

theorem sortStrings_sorted (xs : List String) : (sortStrings xs).Sorted StringLE :=
  haveI := stringLE_isTotal
  haveI := stringLE_isTrans
  List.sorted_insertionSort StringLE xs

/-- The ascending arrangement of a list of strings is unique: any sorted
permutation of `xs` is `sortStrings xs`. -/
theorem sortStrings_eq_of_perm_sorted (xs lines : List String) (hperm : lines.Perm xs)
    (hsorted : lines.Sorted StringLE) : sortStrings xs = lines :=
  haveI := stringLE_isAntisymm
  List.eq_of_perm_of_sorted ((sortStrings_perm xs).trans hperm.symm) (sortStrings_sorted xs)
    hsorted

theorem sorted_le_iff_sorted_stringLE (lines : List String) :
    lines.Sorted (· ≤ ·) ↔ lines.Sorted StringLE :=
  ⟨List.Pairwise.imp fun h => (stringLE_iff_le _ _).mpr h,
    List.Pairwise.imp fun h => (stringLE_iff_le _ _).mp h⟩

/-- C10.  `formatLabels L` is the newline-join of the strings "key: value" of
the entries of `L` put in ascending lexicographic order (the order `≤` of
`String`): there is a sorted arrangement of these strings whose join is the
result, and the join of any sorted arrangement of them is the result.  The
result is the same for every enumeration order of the entries, and it is the
empty string for the empty (or nil) mapping. -/
theorem formatLabels_is_sorted_join (L : Labels) :
    (∃ lines : List String,
      lines.Perm (L.map fun kv => kv.1 ++ ": " ++ kv.2) ∧ lines.Sorted (· ≤ ·) ∧
      formatLabels L = String.intercalate "\n" lines) ∧
    (∀ lines : List String,
      lines.Perm (L.map fun kv => kv.1 ++ ": " ++ kv.2) → lines.Sorted (· ≤ ·) →
      formatLabels L = String.intercalate "\n" lines) ∧
    (∀ L1 : Labels, L1.Perm L → formatLabels L1 = formatLabels L) ∧
    formatLabels ([] : Labels) = "" := by
  have key : ∀ (M : Labels) (lines : List String),
      lines.Perm (M.map fun kv => kv.1 ++ ": " ++ kv.2) → lines.Sorted StringLE →
      formatLabels M = String.intercalate "\n" lines := by
    intro M lines hperm hsorted
    unfold formatLabels
    split_ifs with hlen
    · have hM : M = [] := List.length_eq_zero.mp hlen
      subst hM
      have : lines = [] := by simpa using hperm
      subst this
      rfl
    · rw [sortStrings_eq_of_perm_sorted _ lines hperm hsorted]
  have hsort : ∀ M : Labels,
      (sortStrings (M.map fun kv => kv.1 ++ ": " ++ kv.2)).Perm
        (M.map fun kv => kv.1 ++ ": " ++ kv.2) ∧
      (sortStrings (M.map fun kv => kv.1 ++ ": " ++ kv.2)).Sorted StringLE :=
    fun M => ⟨sortStrings_perm _, sortStrings_sorted _⟩
  refine ⟨⟨_, (hsort L).1, (sorted_le_iff_sorted_stringLE _).mpr (hsort L).2,
    key L _ (hsort L).1 (hsort L).2⟩,
    fun lines hperm hsorted => key L lines hperm ((sorted_le_iff_sorted_stringLE _).mp hsorted),
    ?_, rfl⟩
  intro L1 hperm
  rw [key L _ (hsort L).1 (hsort L).2]
  exact key L1 _ ((hsort L).1.trans (hperm.symm.map _)) (hsort L).2

/-- Witness for C10: the mapping tier=web, app=shop, enumerated in this order. -/
theorem formatLabels_is_sorted_join_witness :
    formatLabels [("tier", "web"), ("app", "shop")] = "app: shop\ntier: web" :=
  (formatLabels_is_sorted_join [("tier", "web"), ("app", "shop")]).2.1
    ["app: shop", "tier: web"] (List.Perm.swap _ _ _)
    ((sorted_le_iff_sorted_stringLE _).mpr (by decide))

/-! ## formatPorts and FormatRules -/

theorem foldl_append_singleton {α β : Type} (f : α → β) (xs : List α) (init : List β) :
    xs.foldl (fun out x => out ++ [f x]) init = init ++ xs.map f := by
  induction xs generalizing init with
  | nil => simp
  | cons x rest ih => simp [ih]

theorem appendEach_eq_map {α β : Type} (f : α → β) (xs : List α) :
    appendEach f xs = xs.map f := by
  simp [appendEach, foldl_append_singleton]

/-- C13.  `formatPorts` returns the newline-join of one string per port, in
order: the decimal port, then "→" and the decimal target port exactly when the
target port is not 0, then "/" and the protocol exactly when the protocol is
not empty.  The list with the one port 80, target 8080, protocol TCP formats
to "80→8080/TCP", the empty list to the empty string. -/
theorem formatPorts_is_newline_join_of_port_strings (ports : List ServicePort) :
    formatPorts ports =
      String.intercalate "\n"
        (ports.map fun port =>
          toString port.Port ++
            (if port.TargetPort ≠ 0 then "→" ++ toString port.TargetPort else "") ++
            (if port.Protocol ≠ "" then "/" ++ port.Protocol else "")) ∧
    formatPorts [{ Port := 80, TargetPort := 8080, Protocol := "TCP" }] = "80→8080/TCP" ∧
    formatPorts [] = "" := by
  refine ⟨?_, by decide, by decide⟩
  unfold formatPorts
  rw [appendEach_eq_map]
  congr 1
  apply List.map_congr_left
  intro port _
  unfold portString
  by_cases ht : port.TargetPort = 0 <;> by_cases hp : port.Protocol = "" <;>
    simp [ht, hp, String.append_assoc]

/-- C14.  `FormatRules` returns the per-rule strings joined by "\n---\n"; the
string of a rule is the newline-join of its lines "API Groups: [..]",
"Resources: [..]", "Verbs: [..]" (each list joined by ", ") and, exactly when
the rule has resource names, a fourth line "Resource Names: [..]".  The empty
rule list renders as the empty string. -/
theorem FormatRules_is_separator_join_of_rule_lines (rules : List PolicyRule) :
    FormatRules rules =
      String.intercalate "\n---\n"
        (rules.map fun rule =>
          String.intercalate "\n"
            ([ "API Groups: [" ++ String.intercalate ", " rule.APIGroups ++ "]",
               "Resources: [" ++ String.intercalate ", " rule.Resources ++ "]",
               "Verbs: [" ++ String.intercalate ", " rule.Verbs ++ "]" ] ++
             (if rule.ResourceNames ≠ [] then
               ["Resource Names: [" ++ String.intercalate ", " rule.ResourceNames ++ "]"]
              else []))) ∧
    FormatRules [] = "" := by
  refine ⟨?_, by decide⟩
  unfold FormatRules
  rw [appendEach_eq_map]
  congr 1
  apply List.map_congr_left
  intro rule _
  unfold ruleString
  generalize String.intercalate ", " rule.APIGroups = a
  generalize String.intercalate ", " rule.Resources = b
  generalize String.intercalate ", " rule.Verbs = c
  generalize String.intercalate ", " rule.ResourceNames = d
  by_cases hn : rule.ResourceNames = []
  · simp only [hn, List.length_nil, gt_iff_lt, lt_self_iff_false, if_false, ne_eq,
      not_true_eq_false, List.append_nil]
    apply String.ext
    simp [String.intercalate, String.intercalate.go, String.data_append]
  · have hlen : rule.ResourceNames.length > 0 := List.length_pos.mpr hn
    simp only [hlen, if_true, ne_eq, hn, not_false_eq_true]
    apply String.ext
    simp [String.intercalate, String.intercalate.go, String.data_append]

theorem intercalate_go_data (acc sep : String) (l : List String) :
    (String.intercalate.go acc sep l).data =
      acc.data ++ (l.map fun x => sep.data ++ x.data).flatten := by
  induction l generalizing acc with
  | nil => simp [String.intercalate.go]
  | cons x rest ih => simp [String.intercalate.go, ih, String.data_append]

theorem intercalate_toList (sep : String) (l : List String) :
    (String.intercalate sep l).toList = List.intercalate sep.toList (l.map String.toList) := by
  cases l with
  | nil => rfl
  | cons a rest =>
    show (String.intercalate.go a sep rest).data = _
    rw [intercalate_go_data]
    induction rest generalizing a with
    | nil => simp [List.intercalate, String.toList]
    | cons b rest ih =>
      have h := ih b
      simp only [List.intercalate, List.map_cons, List.intersperse_cons_cons, List.flatten_cons,
        String.toList] at h ⊢
      rw [← h]
      simp

/-- Splitting a newline-join of newline-free lines gives the lines back. -/
theorem splitLines_intercalate (lines : List String) (hne : lines ≠ [])
    (h : ∀ l ∈ lines, NoNewline l) :
    splitLines (String.intercalate "\n" lines) = lines := by
  unfold splitLines
  rw [intercalate_toList]
  have hsep : ("\n" : String).toList = ['\n'] := rfl
  rw [hsep, List.splitOn_intercalate _ '\n']
  · simp [List.map_map, Function.comp_def, String.toList]
  · intro l hl
    obtain ⟨s, hs, rfl⟩ := List.mem_map.mp hl
    exact h s hs
  · simpa using hne

theorem noNewline_append (a b : String) (ha : NoNewline a) (hb : NoNewline b) :
    NoNewline (a ++ b) := by
  unfold NoNewline at *
  simp only [String.toList, String.data_append, List.mem_append, not_or] at *
  exact ⟨ha, hb⟩

/-- The result of `formatLabels` does not depend on the order in which the
entries of the mapping are enumerated. -/
theorem formatLabels_eq_of_perm (L1 L2 : Labels) (h : L1.Perm L2) :
    formatLabels L1 = formatLabels L2 := by
  unfold formatLabels
  have hlen : L1.length = L2.length := h.length_eq
  have hsort : sortStrings (L1.map fun kv => kv.1 ++ ": " ++ kv.2) =
      sortStrings (L2.map fun kv => kv.1 ++ ": " ++ kv.2) :=
    sortStrings_eq_of_perm_sorted _ _ ((sortStrings_perm _).trans (h.symm.map _))
      (sortStrings_sorted _)
  rw [hlen, hsort]

theorem splitLines_formatLabels (L : Labels) (hL : L ≠ [])
    (h : ∀ kv ∈ L, NoNewline kv.1 ∧ NoNewline kv.2) :
    splitLines (formatLabels L) = sortStrings (L.map fun kv => kv.1 ++ ": " ++ kv.2) := by
  unfold formatLabels
  rw [if_neg (by simpa using hL)]
  apply splitLines_intercalate
  · intro hnil
    have hperm := sortStrings_perm (L.map fun kv => kv.1 ++ ": " ++ kv.2)
    rw [hnil] at hperm
    exact hL (List.map_eq_nil_iff.mp hperm.nil_eq.symm)
  · intro l hl
    have hl1 := (sortStrings_perm _).mem_iff.mp hl
    obtain ⟨kv, hkv, rfl⟩ := List.mem_map.mp hl1
    exact noNewline_append _ _
      (noNewline_append _ _ (h kv hkv).1 (by decide)) (h kv hkv).2

/-- C11 (amended).  For every label mapping whose keys and values contain no
newline character, the lines obtained by splitting `formatLabels L` at the
newline characters are in ascending lexicographic order and, for a non-empty
mapping, are the strings "key: value" of its entries.  For every label
mapping, with arbitrary keys and values, the result is the same whatever the
enumeration order of its entries, so two calls with the same mapping return
the same string. -/
theorem formatLabels_lines_sorted_without_newlines (L : Labels) :
    ((∀ kv ∈ L, NoNewline kv.1 ∧ NoNewline kv.2) →
      (splitLines (formatLabels L)).Sorted (· ≤ ·) ∧
      (L ≠ [] →
        (splitLines (formatLabels L)).Perm (L.map fun kv => kv.1 ++ ": " ++ kv.2))) ∧
    (∀ L1 : Labels, L1.Perm L → formatLabels L1 = formatLabels L) := by
  refine ⟨fun h => ⟨?_, ?_⟩, fun L1 hp => formatLabels_eq_of_perm L1 L hp⟩
  · by_cases hL : L = []
    · subst hL
      have hempty : splitLines (formatLabels []) = [""] := by decide
      rw [hempty]
      exact List.sorted_singleton _
    · rw [splitLines_formatLabels L hL h]
      exact (sorted_le_iff_sorted_stringLE _).mpr (sortStrings_sorted _)
  · intro hL
    rw [splitLines_formatLabels L hL h]
    exact sortStrings_perm _

/-- C11 (counterexample).  The mapping with the one entry b = "x\na" is
rendered as "b: x\na"; split at the newline this gives the lines "b: x" and
"a", which are not in ascending order. -/
theorem formatLabels_lines_unsorted_with_newline_in_value :
    formatLabels newlineLabels = "b: x\na" ∧
    splitLines (formatLabels newlineLabels) = ["b: x", "a"] ∧
    ¬ (splitLines (formatLabels newlineLabels)).Sorted (· ≤ ·) := by
  refine ⟨by decide, by decide, ?_⟩
  rw [sorted_le_iff_sorted_stringLE]
  decide

/-- Witness for C11 (amended): the lines of the mapping tier=web, app=shop are
sorted, and the mapping with the value "x\na" gives the same string in both
enumeration orders. -/
theorem formatLabels_lines_sorted_without_newlines_witness :
    (splitLines (formatLabels [("tier", "web"), ("app", "shop")])).Sorted (· ≤ ·) ∧
    formatLabels [("a", "y"), ("b", "x\na")] = formatLabels [("b", "x\na"), ("a", "y")] :=
  ⟨((formatLabels_lines_sorted_without_newlines [("tier", "web"), ("app", "shop")]).1
      (by decide)).1,
    (formatLabels_lines_sorted_without_newlines [("b", "x\na"), ("a", "y")]).2
      [("a", "y"), ("b", "x\na")] (List.Perm.swap _ _ _)⟩

/-! ## Capabilities -/

theorem foldl_podContainerStep_capabilities (toLower : String → String)
    (cs : List ContainerInfo) (s : PodRowState) :
    (cs.foldl (podContainerStep toLower) s).capabilities =
      s.capabilities ++ (cs.map fun c => c.SecurityContext.Capabilities).flatten := by
  induction cs generalizing s with
  | nil => simp
  | cons c rest ih =>
    rw [List.foldl_cons, ih]
    by_cases h : c.SecurityContext.Capabilities.length > 0
    · simp [podContainerStep, h]
    · have hnil : c.SecurityContext.Capabilities = [] := by
        cases hc : c.SecurityContext.Capabilities with
        | nil => rfl
        | cons x xs => simp [hc] at h
      simp [podContainerStep, hnil]

/-- C12.  For a capability set with additions `A` and removals `D`,
`getCapabilities` returns the strings "+a" for the additions, in order,
followed by the strings "-d" for the removals, in order: the result has
`|A| + |D|` entries, entry `i` is "+" and the `i`-th addition, entry `|A| + j`
is "-" and the `j`-th removal.  It returns the empty list when the capability
set is absent.  The Capabilities cell of a pod row (column N of the Pods
sheet) is the join with ", " of the capability strings of the pod's
containers; for the pod whose container adds NET_ADMIN and drops SETUID it is
"+NET_ADMIN, -SETUID". -/
theorem getCapabilities_lists_additions_before_removals (A D : List String) :
    getCapabilities (some { Add := A, Drop := D }) =
      (A.map fun a => "+" ++ a) ++ (D.map fun d => "-" ++ d) ∧
    (getCapabilities (some { Add := A, Drop := D })).length = A.length + D.length ∧
    (∀ i, i < A.length →
      (getCapabilities (some { Add := A, Drop := D }))[i]? = A[i]?.map fun a => "+" ++ a) ∧
    (∀ j, j < D.length →
      (getCapabilities (some { Add := A, Drop := D }))[A.length + j]? =
        D[j]?.map fun d => "-" ++ d) ∧
    getCapabilities none = [] ∧
    (∀ (toLower : String → String) (pod : PodInfo),
      (podValues toLower pod)[13]? =
        some (.str (String.intercalate ", "
          (pod.Containers.map fun c => c.SecurityContext.Capabilities).flatten))) ∧
    podHeaders[13]? = some "Capabilities" ∧
    (∀ (toLower : String → String) (r : Report),
      cellValue?
          (generatePods toLower r
            { Pods := [podInfo capabilitiesRawPod], Deployments := [], StatefulSets := [],
              DaemonSets := [] })
          "Pods" "N1" = some (.str "Capabilities") ∧
      cellValue?
          (generatePods toLower r
            { Pods := [podInfo capabilitiesRawPod], Deployments := [], StatefulSets := [],
              DaemonSets := [] })
          "Pods" "N2" = some (.str "+NET_ADMIN, -SETUID")) := by
  refine ⟨rfl, by simp [getCapabilities], ?_, ?_, rfl, ?_, by decide, ?_⟩
  · intro i hi
    simp [getCapabilities, List.getElem?_append_left, hi]
  · intro j _
    simp [getCapabilities, List.getElem?_append_right]
  · intro toLower pod
    simp [podValues, foldl_podContainerStep_capabilities]
  · intro toLower r
    exact ⟨by rfl, by rfl⟩

/-- Witness for C12: additions NET_ADMIN, removals SETUID, first entry. -/
theorem getCapabilities_lists_additions_before_removals_witness :
    (getCapabilities (some { Add := ["NET_ADMIN"], Drop := ["SETUID"] }))[0]? =
      some "+NET_ADMIN" :=
  (getCapabilities_lists_additions_before_removals ["NET_ADMIN"] ["SETUID"]).2.2.1 0
    (by decide)

theorem digitChar_ne_newline : ∀ k : Nat, Nat.digitChar k ≠ '\n'
  | 0 => by decide
  | 1 => by decide
  | 2 => by decide
  | 3 => by decide
  | 4 => by decide
  | 5 => by decide
  | 6 => by decide
  | 7 => by decide
  | 8 => by decide
  | 9 => by decide
  | 10 => by decide
  | 11 => by decide
  | 12 => by decide
  | 13 => by decide
  | 14 => by decide
  | 15 => by decide
  | k + 16 => by
    have h : Nat.digitChar (k + 16) = '*' := by
      unfold Nat.digitChar
      simp
    rw [h]
    decide

theorem newline_not_mem_toDigitsCore (fuel n : Nat) (ds : List Char) (h : '\n' ∉ ds) :
    '\n' ∉ Nat.toDigitsCore 10 fuel n ds := by
  induction fuel generalizing n ds with
  | zero => simpa [Nat.toDigitsCore] using h
  | succ fuel ih =>
    unfold Nat.toDigitsCore
    have hd : '\n' ∉ Nat.digitChar (n % 10) :: ds := by
      simp only [List.mem_cons, not_or]
      exact ⟨fun heq => digitChar_ne_newline _ heq.symm, h⟩
    dsimp only
    split
    · exact hd
    · exact ih _ _ hd

theorem noNewline_toString_nat (n : Nat) : NoNewline (toString n) := by
  show '\n' ∉ (Nat.repr n).toList
  unfold Nat.repr Nat.toDigits
  simpa [String.toList, List.asString] using newline_not_mem_toDigitsCore (n + 1) n [] (by simp)

theorem noNewline_toString_int (n : Int) : NoNewline (toString n) := by
  cases n with
  | ofNat m => exact noNewline_toString_nat m
  | negSucc m =>
    show NoNewline ("-" ++ toString (m + 1))
    exact noNewline_append _ _ (by decide) (noNewline_toString_nat _)

/-! ## formatIngressRules -/

theorem noNewline_intercalate (sep : String) (xs : List String) (hsep : NoNewline sep)
    (h : ∀ x ∈ xs, NoNewline x) : NoNewline (String.intercalate sep xs) := by
  cases xs with
  | nil => exact (by decide : NoNewline "")
  | cons a rest =>
    unfold NoNewline at *
    show '\n' ∉ (String.intercalate.go a sep rest).data
    rw [intercalate_go_data]
    simp only [List.mem_append, List.mem_flatten, List.mem_map, not_or, not_exists, not_and]
    refine ⟨h a (List.mem_cons_self _ _), ?_⟩
    rintro l ⟨x, hx, rfl⟩ hmem
    rcases List.mem_append.mp hmem with hm | hm
    · exact hsep hm
    · exact h x (List.mem_cons_of_mem _ hx) hm

theorem noNewline_ingressRuleString (rule : IngressRule) (hhost : NoNewline rule.Host)
    (hpaths : ∀ path ∈ rule.Paths, NoNewline path.ServiceName ∧ NoNewline path.Path) :
    NoNewline (ingressRuleString rule) := by
  unfold ingressRuleString
  dsimp only
  refine noNewline_append _ _ (noNewline_append _ _ hhost (by decide))
    (noNewline_intercalate _ _ (by decide) ?_)
  intro x hx
  rw [appendEach_eq_map] at hx
  obtain ⟨path, hpath, rfl⟩ := List.mem_map.mp hx
  unfold ingressPathString
  exact noNewline_append _ _
    (noNewline_append _ _ (noNewline_append _ _ (hpaths path hpath).1 (by decide))
      (noNewline_toString_int _))
    (hpaths path hpath).2

theorem ingressRuleString_ne_empty (rule : IngressRule) : ingressRuleString rule ≠ "" := by
  intro h
  have hdata := congrArg String.data h
  simp [ingressRuleString, String.data_append] at hdata

theorem intercalate_newline_ne_empty (lines : List String) (hne : lines ≠ [])
    (h : ∀ l ∈ lines, l ≠ "") : String.intercalate "\n" lines ≠ "" := by
  cases lines with
  | nil => exact absurd rfl hne
  | cons a rest =>
    intro heq
    have hdata := congrArg String.data heq
    have ha : a.data ≠ [] := fun hnil => h a (List.mem_cons_self _ _) (String.ext hnil)
    change (String.intercalate.go a "\n" rest).data = [] at hdata
    rw [intercalate_go_data] at hdata
    exact ha (List.append_eq_nil.mp hdata).1

/-- C15 (amended).  `formatIngressRules` returns the newline-join of one string
per rule, each the host, " → " and the ", "-join of its paths, where a path
renders as the service name, a colon, the decimal service port and then the
path itself, with nothing between port and path.  The number of output lines
equals the number of rules when no host, service name or path contains a
newline; the empty rule list renders as the empty string. -/
theorem formatIngressRules_is_newline_join_of_rule_strings (rules : List IngressRule) :
    formatIngressRules rules =
      String.intercalate "\n"
        (rules.map fun rule =>
          rule.Host ++ " → " ++
            String.intercalate ", "
              (rule.Paths.map fun path =>
                path.ServiceName ++ ":" ++ toString path.ServicePort ++ path.Path)) ∧
    ((∀ rule ∈ rules, NoNewline rule.Host ∧
        ∀ path ∈ rule.Paths, NoNewline path.ServiceName ∧ NoNewline path.Path) →
      lineCount (formatIngressRules rules) = rules.length) ∧
    formatIngressRules [] = "" := by
  refine ⟨?_, ?_, by decide⟩
  · unfold formatIngressRules
    rw [appendEach_eq_map]
    congr 1
    apply List.map_congr_left
    intro rule _
    simp only [ingressRuleString, appendEach_eq_map]
    rfl
  · intro h
    by_cases hr : rules = []
    · subst hr
      decide
    · unfold lineCount formatIngressRules
      rw [appendEach_eq_map]
      have hne : rules.map ingressRuleString ≠ [] := by simpa using hr
      rw [if_neg (intercalate_newline_ne_empty _ hne fun l hl => by
        obtain ⟨rule, _, rfl⟩ := List.mem_map.mp hl
        exact ingressRuleString_ne_empty rule)]
      rw [splitLines_intercalate _ hne]
      · simp
      · intro l hl
        obtain ⟨rule, hrule, rfl⟩ := List.mem_map.mp hl
        exact noNewline_ingressRuleString rule (h rule hrule).1 (h rule hrule).2

/-- C15 (counterexample).  For the rule with host "a.example" and the paths
"/api" to svc:80 and "" to web:8080 the result is
"a.example → svc:80/api, web:8080": no slash is put between port and path,
whereas the rendering with a slash would be
"a.example → svc:80//api, web:8080/".  A rule whose service name contains a
newline gives two lines for one rule although neither host nor path string
contains a newline. -/
theorem formatIngressRules_puts_no_slash_before_path :
    formatIngressRules [sampleIngressRule] = "a.example → svc:80/api, web:8080" ∧
    String.intercalate "\n"
        ([sampleIngressRule].map fun rule =>
          rule.Host ++ " → " ++
            String.intercalate ", " (rule.Paths.map slashedIngressPathString)) =
      "a.example → svc:80//api, web:8080/" ∧
    formatIngressRules [sampleIngressRule] ≠
      String.intercalate "\n"
        ([sampleIngressRule].map fun rule =>
          rule.Host ++ " → " ++
            String.intercalate ", " (rule.Paths.map slashedIngressPathString)) ∧
    (NoNewline newlineServiceRule.Host ∧
      (∀ path ∈ newlineServiceRule.Paths, NoNewline path.Path) ∧
      lineCount (formatIngressRules [newlineServiceRule]) = 2) := by
  refine ⟨by decide, by decide, by decide, by decide, by decide, by decide⟩

/-- Witness for C15 (amended): the one rule of `sampleIngressRule` gives one
line. -/
theorem formatIngressRules_is_newline_join_of_rule_strings_witness :
    lineCount (formatIngressRules [sampleIngressRule]) = 1 :=
  (formatIngressRules_is_newline_join_of_rule_strings [sampleIngressRule]).2.1 (by decide)

/-! ## Rows of the resource sheets -/

theorem mem_forEachIndexed {α : Type} (body : Nat → α → List WorkbookOp) (xs : List α)
    (start i : Nat) (x : α) (op : WorkbookOp) (hx : xs[i]? = some x)
    (hop : op ∈ body (start + i) x) : op ∈ forEachIndexed body start xs := by
  induction xs generalizing start i with
  | nil => simp at hx
  | cons y rest ih =>
    unfold forEachIndexed
    cases i with
    | zero =>
      simp only [List.getElem?_cons_zero, Option.some.injEq] at hx
      subst hx
      exact List.mem_append_left _ (by simpa using hop)
    | succ k =>
      simp only [List.getElem?_cons_succ] at hx
      refine List.mem_append_right _ (ih (start + 1) k hx ?_)
      have heq : start + 1 + k = start + (k + 1) := by omega
      rw [heq]
      exact hop

/-- The call that writes the `j`-th value of the `i`-th entity of a sheet. -/
theorem mem_entityRows {α : Type} (r : Report) (sheet : String) (values : α → List CellValue)
    (entities : List α) (i j : Nat) (entity : α) (v : CellValue)
    (hi : entities[i]? = some entity) (hj : (values entity)[j]? = some v) :
    .setCellValue sheet (coordinatesToCellName (j + 1) (i + 2)) v ∈
      entityRows r sheet values entities := by
  unfold entityRows
  refine mem_forEachIndexed _ entities 0 i entity _ hi ?_
  unfold valueRow
  refine mem_forEachIndexed _ (values entity) 0 j v _ hj ?_
  simp

theorem coordinatesToCellName_C (row : Nat) :
    coordinatesToCellName 3 (row + 2) = cellName "C" (row + 2) := by
  simp [coordinatesToCellName, columnNumberToName, MaxColumns, cellName, columnLetters]
  rfl

theorem coordinatesToCellName_D (row : Nat) :
    coordinatesToCellName 4 (row + 2) = cellName "D" (row + 2) := by
  simp [coordinatesToCellName, columnNumberToName, MaxColumns, cellName, columnLetters]
  rfl

/-! ## The value a cell holds after the calls of a sheet generator -/

theorem exists_of_mem_forEachIndexed {α : Type} (body : Nat → α → List WorkbookOp)
    (xs : List α) (start : Nat) (op : WorkbookOp) (h : op ∈ forEachIndexed body start xs) :
    ∃ i x, xs[i]? = some x ∧ op ∈ body (start + i) x := by
  induction xs generalizing start with
  | nil => simp [forEachIndexed] at h
  | cons y rest ih =>
    unfold forEachIndexed at h
    rcases List.mem_append.mp h with hm | hm
    · exact ⟨0, y, by simp, by simpa using hm⟩
    · obtain ⟨i, x, hx, hop⟩ := ih (start + 1) hm
      refine ⟨i + 1, x, by simpa using hx, ?_⟩
      have heq : start + (i + 1) = start + 1 + i := by omega
      rw [heq]
      exact hop

theorem cellWrites_append (a b : List WorkbookOp) :
    cellWrites (a ++ b) = cellWrites a ++ cellWrites b := by
  simp [cellWrites, List.filterMap_append]

theorem mem_cellWrites (ops : List WorkbookOp) (sheet cell : String) (v : CellValue) :
    (sheet, cell, v) ∈ cellWrites ops ↔ WorkbookOp.setCellValue sheet cell v ∈ ops := by
  unfold cellWrites
  rw [List.mem_filterMap]
  constructor
  · rintro ⟨op, hop, heq⟩
    cases op <;> simp at heq
    obtain ⟨rfl, rfl, rfl⟩ := heq
    exact hop
  · intro h
    exact ⟨_, h, rfl⟩

/-- A cell that is written with one value only holds that value. -/
theorem cellValue?_of_unique_write (ops : List WorkbookOp) (sheet cell : String)
    (v : CellValue) (hmem : (sheet, cell, v) ∈ cellWrites ops)
    (huniq : ∀ w, (sheet, cell, w) ∈ cellWrites ops → w = v) :
    cellValue? ops sheet cell = some v := by
  induction ops using List.reverseRecOn with
  | nil => simp [cellWrites] at hmem
  | append_singleton l op ih =>
    have hstep : cellValue? (l ++ [op]) sheet cell =
        (match op with
          | .setCellValue s c w => if s = sheet ∧ c = cell then some w else cellValue? l sheet cell
          | _ => cellValue? l sheet cell) := by
      cases op <;> simp [cellValue?, List.foldl_append]
    rw [hstep]
    rw [cellWrites_append] at hmem huniq
    cases op with
    | setCellValue s c w =>
      by_cases hsc : s = sheet ∧ c = cell
      · obtain ⟨rfl, rfl⟩ := hsc
        have hw : w = v := huniq w (List.mem_append_right _ (by simp [cellWrites]))
        simp [hw]
      · simp only [hsc, if_false]
        refine ih ?_ fun w1 hw1 => huniq w1 (List.mem_append_left _ hw1)
        rcases List.mem_append.mp hmem with hm | hm
        · exact hm
        · simp only [cellWrites, List.filterMap_cons, List.filterMap_nil, List.mem_singleton,
            Prod.mk.injEq] at hm
          exact absurd ⟨hm.1.symm, hm.2.1.symm⟩ hsc
    | _ =>
      refine ih ?_ fun w1 hw1 => huniq w1 (List.mem_append_left _ hw1)
      rcases List.mem_append.mp hmem with hm | hm
      · exact hm
      · simp [cellWrites] at hm

/-! ### Cell names are distinct -/

theorem digitChar_value (k : Nat) (hk : k < 10) : (Nat.digitChar k).toNat - 48 = k := by
  interval_cases k <;> rfl

theorem decimalValue_toDigitsCore (fuel n : Nat) (ds : List Char) (h : n < fuel) :
    ∃ pre, Nat.toDigitsCore 10 fuel n ds = pre ++ ds ∧ decimalValue pre = n := by
  induction fuel generalizing n ds with
  | zero => omega
  | succ fuel ih =>
    unfold Nat.toDigitsCore
    dsimp only
    by_cases hz : n / 10 = 0
    · rw [if_pos hz]
      refine ⟨[Nat.digitChar (n % 10)], rfl, ?_⟩
      have hlt : n % 10 < 10 := Nat.mod_lt _ (by omega)
      simp only [decimalValue, List.foldl_cons, List.foldl_nil, digitChar_value _ hlt]
      omega
    · rw [if_neg hz]
      obtain ⟨pre, hpre, hval⟩ := ih (n / 10) (Nat.digitChar (n % 10) :: ds) (by omega)
      refine ⟨pre ++ [Nat.digitChar (n % 10)], by rw [hpre]; simp, ?_⟩
      have hlt : n % 10 < 10 := Nat.mod_lt _ (by omega)
      unfold decimalValue at hval ⊢
      rw [List.foldl_append, hval]
      simp only [List.foldl_cons, List.foldl_nil, digitChar_value _ hlt]
      omega

theorem decimalValue_toString (n : Nat) : decimalValue (toString n).data = n := by
  show decimalValue (Nat.repr n).data = n
  unfold Nat.repr Nat.toDigits
  obtain ⟨pre, hpre, hval⟩ := decimalValue_toDigitsCore (n + 1) n [] (by omega)
  rw [hpre]
  simpa [List.asString] using hval

/-- The decimal numerals of different numbers are different. -/
theorem toString_nat_injective (a b : Nat) (h : toString a = toString b) : a = b := by
  have ha := decimalValue_toString a
  rw [h, decimalValue_toString] at ha
  exact ha.symm

theorem columnNumberToName_letter (col : Nat) (h1 : 1 ≤ col) (h26 : col ≤ 26) :
    columnNumberToName col = some (String.singleton (Char.ofNat (col + 64))) := by
  interval_cases col <;> rfl

theorem letter_toNat (col : Nat) (h1 : 1 ≤ col) (h26 : col ≤ 26) :
    (Char.ofNat (col + 64)).toNat = col + 64 := by
  interval_cases col <;> rfl

theorem coordinatesToCellName_letter (col row : Nat) (h1 : 1 ≤ col) (h26 : col ≤ 26)
    (hrow : 1 ≤ row) :
    coordinatesToCellName col row = String.singleton (Char.ofNat (col + 64)) ++ toString row := by
  unfold coordinatesToCellName
  rw [if_neg (by omega), columnNumberToName_letter col h1 h26]

/-- Among the first 26 columns, different coordinates have different cell
names. -/
theorem coordinatesToCellName_injective (c1 r1 c2 r2 : Nat) (h1 : 1 ≤ c1) (h2 : c1 ≤ 26)
    (h3 : 1 ≤ c2) (h4 : c2 ≤ 26) (h5 : 1 ≤ r1) (h6 : 1 ≤ r2)
    (h : coordinatesToCellName c1 r1 = coordinatesToCellName c2 r2) : c1 = c2 ∧ r1 = r2 := by
  rw [coordinatesToCellName_letter c1 r1 h1 h2 h5, coordinatesToCellName_letter c2 r2 h3 h4 h6]
    at h
  have hdata := congrArg String.data h
  simp only [String.data_append, String.singleton, String.push, String.data, List.nil_append,
    List.cons_append, List.cons.injEq] at hdata
  obtain ⟨hc, hr⟩ := hdata
  have hn := congrArg Char.toNat hc
  rw [letter_toNat c1 h1 h2, letter_toNat c2 h3 h4] at hn
  exact ⟨by omega, toString_nat_injective r1 r2 (String.ext hr)⟩

/-! ### The cells of a header row and of the entity rows -/

theorem mem_cellWrites_headerRow (r : Report) (sheet : String) (headers : List String)
    (s c : String) (v : CellValue) (h : (s, c, v) ∈ cellWrites (headerRow r sheet headers)) :
    s = sheet ∧ ∃ k header, headers[k]? = some header ∧
      c = coordinatesToCellName (k + 1) 1 ∧ v = .str header := by
  rw [mem_cellWrites] at h
  unfold headerRow at h
  obtain ⟨k, header, hk, hop⟩ := exists_of_mem_forEachIndexed _ _ _ _ h
  simp only [Nat.zero_add, List.mem_cons, WorkbookOp.setCellValue.injEq, List.mem_singleton,
    reduceCtorEq, or_false, List.not_mem_nil] at hop
  obtain ⟨rfl, rfl, rfl⟩ := hop
  exact ⟨rfl, k, header, hk, rfl, rfl⟩

theorem mem_cellWrites_entityRows {α : Type} (r : Report) (sheet : String)
    (values : α → List CellValue) (entities : List α) (s c : String) (v : CellValue)
    (h : (s, c, v) ∈ cellWrites (entityRows r sheet values entities)) :
    s = sheet ∧ ∃ i j entity, entities[i]? = some entity ∧ (values entity)[j]? = some v ∧
      c = coordinatesToCellName (j + 1) (i + 2) := by
  rw [mem_cellWrites] at h
  unfold entityRows at h
  obtain ⟨i, entity, hi, hrow⟩ := exists_of_mem_forEachIndexed _ _ _ _ h
  unfold valueRow at hrow
  obtain ⟨j, w, hj, hop⟩ := exists_of_mem_forEachIndexed _ _ _ _ hrow
  simp only [Nat.zero_add, List.mem_cons, WorkbookOp.setCellValue.injEq, List.mem_singleton,
    reduceCtorEq, or_false, List.not_mem_nil] at hop
  obtain ⟨rfl, rfl, rfl⟩ := hop
  exact ⟨rfl, i, j, entity, hi, hj, rfl⟩

/-- After the calls of a sheet generator whose cell writes are those of its
header row and of its entity rows, the cell in column `j + 1` of row `i + 2`
holds the `j`-th value of the `i`-th entity. -/
theorem cellValue?_entity_cell {α : Type} (r : Report) (sheet : String)
    (headers : List String) (values : α → List CellValue) (entities : List α)
    (ops : List WorkbookOp)
    (hwrites : cellWrites ops =
      cellWrites (headerRow r sheet headers) ++
        cellWrites (entityRows r sheet values entities))
    (hheaders : headers.length ≤ 26) (hvalues : ∀ entity, (values entity).length ≤ 26)
    (i j : Nat) (entity : α) (v : CellValue) (hi : entities[i]? = some entity)
    (hj : (values entity)[j]? = some v) :
    cellValue? ops sheet (coordinatesToCellName (j + 1) (i + 2)) = some v := by
  have hjlt : j < 26 := by
    have := (List.getElem?_eq_some.mp hj).1
    have := hvalues entity
    omega
  apply cellValue?_of_unique_write
  · rw [hwrites]
    exact List.mem_append_right _
      ((mem_cellWrites _ _ _ _).mpr (mem_entityRows r sheet values entities i j entity v hi hj))
  · intro w hw
    rw [hwrites] at hw
    rcases List.mem_append.mp hw with hm | hm
    · obtain ⟨_, k, header, hk, hc, _⟩ := mem_cellWrites_headerRow r sheet headers _ _ _ hm
      have hklt : k < headers.length := (List.getElem?_eq_some.mp hk).1
      have := (coordinatesToCellName_injective (j + 1) (i + 2) (k + 1) 1 (by omega) (by omega)
        (by omega) (by omega) (by omega) (by omega) hc).2
      omega
    · obtain ⟨_, i1, j1, entity1, hi1, hj1, hc⟩ :=
        mem_cellWrites_entityRows r sheet values entities _ _ _ hm
      have hj1lt : j1 < 26 := by
        have := (List.getElem?_eq_some.mp hj1).1
        have := hvalues entity1
        omega
      obtain ⟨hcol, hrow⟩ := coordinatesToCellName_injective (j + 1) (i + 2) (j1 + 1) (i1 + 2)
        (by omega) (by omega) (by omega) (by omega) (by omega) (by omega) hc
      have hii : i1 = i := by omega
      have hjj : j1 = j := by omega
      subst hii hjj
      rw [hi] at hi1
      obtain rfl := Option.some.inj hi1
      rw [hj] at hj1
      exact (Option.some.inj hj1).symm

/-- After the calls of such a sheet generator the cell in column `k + 1` of
row 1 holds the `k`-th header. -/
theorem cellValue?_header_cell {α : Type} (r : Report) (sheet : String)
    (headers : List String) (values : α → List CellValue) (entities : List α)
    (ops : List WorkbookOp)
    (hwrites : cellWrites ops =
      cellWrites (headerRow r sheet headers) ++
        cellWrites (entityRows r sheet values entities))
    (hheaders : headers.length ≤ 26) (hvalues : ∀ entity, (values entity).length ≤ 26)
    (k : Nat) (header : String) (hk : headers[k]? = some header) :
    cellValue? ops sheet (coordinatesToCellName (k + 1) 1) = some (.str header) := by
  have hklt : k < headers.length := (List.getElem?_eq_some.mp hk).1
  apply cellValue?_of_unique_write
  · rw [hwrites]
    refine List.mem_append_left _ ((mem_cellWrites _ _ _ _).mpr ?_)
    unfold headerRow
    exact mem_forEachIndexed _ _ 0 k header _ hk (by simp)
  · intro w hw
    rw [hwrites] at hw
    rcases List.mem_append.mp hw with hm | hm
    · obtain ⟨_, k1, header1, hk1, hc, hv⟩ := mem_cellWrites_headerRow r sheet headers _ _ _ hm
      have hk1lt : k1 < headers.length := (List.getElem?_eq_some.mp hk1).1
      have hcol := (coordinatesToCellName_injective (k + 1) 1 (k1 + 1) 1 (by omega) (by omega)
        (by omega) (by omega) (by omega) (by omega) hc).1
      have hkk : k1 = k := by omega
      subst hkk
      rw [hk] at hk1
      obtain rfl := Option.some.inj hk1
      exact hv
    · obtain ⟨_, i1, j1, entity1, _, hj1, hc⟩ :=
        mem_cellWrites_entityRows r sheet values entities _ _ _ hm
      have hj1lt : j1 < 26 := by
        have := (List.getElem?_eq_some.mp hj1).1
        have := hvalues entity1
        omega
      have := (coordinatesToCellName_injective (k + 1) 1 (j1 + 1) (i1 + 2) (by omega) (by omega)
        (by omega) (by omega) (by omega) (by omega) hc).2
      omega

/-! ## The subjects cell of the binding sheets -/

theorem cellWrites_generateRoleBindings (r : Report) (rbac : RBACAssessment) :
    cellWrites (generateRoleBindings r rbac) =
      cellWrites
          (headerRow r "Role Bindings"
            ["Name", "Namespace", "Role Ref", "Subjects", "Created At"]) ++
        cellWrites (entityRows r "Role Bindings" roleBindingValues rbac.RoleBindings) := by
  unfold generateRoleBindings
  dsimp only
  rw [cellWrites_append, cellWrites_append, cellWrites_append]
  simp [cellWrites, headerAutoFilter]

theorem cellWrites_generateClusterRoleBindings (r : Report) (rbac : RBACAssessment) :
    cellWrites (generateClusterRoleBindings r rbac) =
      cellWrites
          (headerRow r "Cluster Role Bindings" ["Name", "Role Ref", "Subjects", "Created At"]) ++
        cellWrites
          (entityRows r "Cluster Role Bindings" clusterRoleBindingValues
            rbac.ClusterRoleBindings) := by
  unfold generateClusterRoleBindings
  dsimp only
  rw [cellWrites_append, cellWrites_append, cellWrites_append]
  simp [cellWrites, headerAutoFilter]

/-- C16.  The Subjects value of a binding row is the join with ", " of one
string per subject, in order, each the namespace, "/", the name, " (", the
kind and ")"; it is the empty string for a binding without subjects; the role
bindings sheet and the cluster role bindings sheet compute the same value for
the same binding.  After the calls of `generateRoleBindings` the cell in column
D of the row of the binding (row `i + 2` for the binding at index `i`) holds
this value, after those of `generateClusterRoleBindings` the cell in column C
of its row does; the header of the column (D1, C1) is "Subjects". -/
theorem subjects_cell_is_comma_join_of_subject_strings (r : Report) (rbac : RBACAssessment)
    (binding : BindingInfo) :
    (roleBindingValues binding)[3]? =
      some (.str (String.intercalate ", "
        (binding.Subjects.map fun s => s.Namespace ++ "/" ++ s.Name ++ " (" ++ s.Kind ++ ")"))) ∧
    (clusterRoleBindingValues binding)[2]? = (roleBindingValues binding)[3]? ∧
    (binding.Subjects = [] → (roleBindingValues binding)[3]? = some (.str "")) ∧
    (∀ i, rbac.RoleBindings[i]? = some binding →
      cellValue? (generateRoleBindings r rbac) "Role Bindings" (cellName "D" (i + 2)) =
        some (.str (String.intercalate ", "
          (binding.Subjects.map fun s =>
            s.Namespace ++ "/" ++ s.Name ++ " (" ++ s.Kind ++ ")")))) ∧
    (∀ i, rbac.ClusterRoleBindings[i]? = some binding →
      cellValue? (generateClusterRoleBindings r rbac) "Cluster Role Bindings"
          (cellName "C" (i + 2)) =
        some (.str (String.intercalate ", "
          (binding.Subjects.map fun s =>
            s.Namespace ++ "/" ++ s.Name ++ " (" ++ s.Kind ++ ")")))) ∧
    cellValue? (generateRoleBindings r rbac) "Role Bindings" "D1" = some (.str "Subjects") ∧
    cellValue? (generateClusterRoleBindings r rbac) "Cluster Role Bindings" "C1" =
      some (.str "Subjects") ∧
    (∀ i, rbac.RoleBindings[i]? = some binding →
      WorkbookOp.setCellValue "Role Bindings" (cellName "D" (i + 2))
          (.str (String.intercalate ", "
            (binding.Subjects.map fun s =>
              s.Namespace ++ "/" ++ s.Name ++ " (" ++ s.Kind ++ ")"))) ∈
        generateRoleBindings r rbac) ∧
    (∀ i, rbac.ClusterRoleBindings[i]? = some binding →
      WorkbookOp.setCellValue "Cluster Role Bindings" (cellName "C" (i + 2))
          (.str (String.intercalate ", "
            (binding.Subjects.map fun s =>
              s.Namespace ++ "/" ++ s.Name ++ " (" ++ s.Kind ++ ")"))) ∈
        generateClusterRoleBindings r rbac) := by
  have hrb : (roleBindingValues binding)[3]? =
      some (.str (String.intercalate ", "
        (binding.Subjects.map fun s =>
          s.Namespace ++ "/" ++ s.Name ++ " (" ++ s.Kind ++ ")"))) := by
    simp [roleBindingValues, foldl_append_singleton]
  have hcrb : (clusterRoleBindingValues binding)[2]? =
      some (.str (String.intercalate ", "
        (binding.Subjects.map fun s =>
          s.Namespace ++ "/" ++ s.Name ++ " (" ++ s.Kind ++ ")"))) := by
    simp [clusterRoleBindingValues, foldl_append_singleton]
  have hlen : ∀ b : BindingInfo, (roleBindingValues b).length ≤ 26 := by
    intro b
    simp [roleBindingValues]
  have hclen : ∀ b : BindingInfo, (clusterRoleBindingValues b).length ≤ 26 := by
    intro b
    simp [clusterRoleBindingValues]
  refine ⟨hrb, hcrb.trans hrb.symm, ?_, ?_, ?_, ?_, ?_, ?_, ?_⟩
  · intro hs
    rw [hrb, hs]
    rfl
  · intro i hi
    rw [← coordinatesToCellName_D]
    exact cellValue?_entity_cell r _ _ roleBindingValues _ _
      (cellWrites_generateRoleBindings r rbac) (by decide) hlen i 3 binding _ hi hrb
  · intro i hi
    rw [← coordinatesToCellName_C]
    exact cellValue?_entity_cell r _ _ clusterRoleBindingValues _ _
      (cellWrites_generateClusterRoleBindings r rbac) (by decide) hclen i 2 binding _ hi hcrb
  · exact cellValue?_header_cell r _ _ roleBindingValues _ _
      (cellWrites_generateRoleBindings r rbac) (by decide) hlen 3 "Subjects" rfl
  · exact cellValue?_header_cell r _ _ clusterRoleBindingValues _ _
      (cellWrites_generateClusterRoleBindings r rbac) (by decide) hclen 2 "Subjects" rfl
  · intro i hi
    unfold generateRoleBindings
    rw [← coordinatesToCellName_D]
    exact List.mem_append_left _
      (List.mem_append_right _ (mem_entityRows r _ roleBindingValues _ i 3 binding _ hi hrb))
  · intro i hi
    unfold generateClusterRoleBindings
    rw [← coordinatesToCellName_C]
    exact List.mem_append_left _
      (List.mem_append_right _
        (mem_entityRows r _ clusterRoleBindingValues _ i 2 binding _ hi hcrb))

/-- Witness for C16: the role bindings sheet of `sampleBindingsRBAC`. -/
theorem subjects_cell_is_comma_join_of_subject_strings_witness :
    cellValue? (generateRoleBindings sampleReport sampleBindingsRBAC) "Role Bindings" "D2" =
      some (.str "ci/builder (ServiceAccount), /alice (User)") :=
  (subjects_cell_is_comma_join_of_subject_strings sampleReport sampleBindingsRBAC
    sampleBinding).2.2.2.1 0 rfl

/-! ## The host-namespace counters of the dashboard -/

theorem countPod_hostFlags (t : PodSecurityTotals) (pod : PodInfo) :
    (countPod t pod).podHostNetwork =
        t.podHostNetwork + (if pod.SecurityContext.HostNetwork then 1 else 0) ∧
    (countPod t pod).podHostPID =
        t.podHostPID + (if pod.SecurityContext.HostPID then 1 else 0) ∧
    (countPod t pod).podHostIPC =
        t.podHostIPC + (if pod.SecurityContext.HostIPC then 1 else 0) := by
  unfold countPod
  simp only [scanContainers_eq]
  refine ⟨?_, ?_, ?_⟩ <;> split_ifs <;> rfl

theorem foldl_countPod_hostFlags (pods : List PodInfo) (t : PodSecurityTotals) :
    (pods.foldl countPod t).podHostNetwork =
        t.podHostNetwork + pods.countP (fun pod => pod.SecurityContext.HostNetwork) ∧
    (pods.foldl countPod t).podHostPID =
        t.podHostPID + pods.countP (fun pod => pod.SecurityContext.HostPID) ∧
    (pods.foldl countPod t).podHostIPC =
        t.podHostIPC + pods.countP (fun pod => pod.SecurityContext.HostIPC) := by
  induction pods generalizing t with
  | nil => simp
  | cons pod rest ih =>
    obtain ⟨h1, h2, h3⟩ := ih (countPod t pod)
    obtain ⟨c1, c2, c3⟩ := countPod_hostFlags t pod
    simp only [List.foldl_cons, h1, h2, h3, c1, c2, c3, List.countP_cons]
    refine ⟨?_, ?_, ?_⟩ <;> split_ifs <;> omega

theorem podSecurityTotals_hostFlags (pods : List PodInfo) :
    (podSecurityTotals pods).podHostNetwork =
        pods.countP (fun pod => pod.SecurityContext.HostNetwork) ∧
    (podSecurityTotals pods).podHostPID =
        pods.countP (fun pod => pod.SecurityContext.HostPID) ∧
    (podSecurityTotals pods).podHostIPC =
        pods.countP (fun pod => pod.SecurityContext.HostIPC) := by
  unfold podSecurityTotals
  obtain ⟨h1, h2, h3⟩ := foldl_countPod_hostFlags pods
    { podTotal := pods.length, podPrivileged := 0, podHostNetwork := 0, podHostPID := 0,
      podHostIPC := 0, podRunAsRoot := 0 }
  simp [h1, h2, h3]

theorem countP_eq_of_forall₂ (p : PodSecurityInfo → Bool) (pods others : List PodInfo)
    (h : List.Forall₂ (fun a b => b.SecurityContext = a.SecurityContext) pods others) :
    others.countP (fun pod => p pod.SecurityContext) =
      pods.countP (fun pod => p pod.SecurityContext) := by
  induction h with
  | nil => rfl
  | cons hab _ ih => simp [List.countP_cons, ih, hab]

/-- C17.  The dashboard totals "Host Network", "Host PID" and "Host IPC"
(written to F16, F17, F18) are the numbers of pods whose `PodSecurityInfo` has
the flag set; they are the same for any other pod sequence that has, position
by position, the same `PodSecurityInfo`, whatever its container lists are. -/
theorem host_totals_count_pod_flags (r : Report) (data : AssessmentData) :
    (cellValue? (generateDashboard r data) "Dashboard" "E16" = some (.str "Host Network") ∧
     cellValue? (generateDashboard r data) "Dashboard" "F16" =
       some (.int (podSecurityTotals data.Workloads.Pods).podHostNetwork) ∧
     cellValue? (generateDashboard r data) "Dashboard" "E17" = some (.str "Host PID") ∧
     cellValue? (generateDashboard r data) "Dashboard" "F17" =
       some (.int (podSecurityTotals data.Workloads.Pods).podHostPID) ∧
     cellValue? (generateDashboard r data) "Dashboard" "E18" = some (.str "Host IPC") ∧
     cellValue? (generateDashboard r data) "Dashboard" "F18" =
       some (.int (podSecurityTotals data.Workloads.Pods).podHostIPC)) ∧
    ((podSecurityTotals data.Workloads.Pods).podHostNetwork =
       data.Workloads.Pods.countP (fun pod => pod.SecurityContext.HostNetwork) ∧
     (podSecurityTotals data.Workloads.Pods).podHostPID =
       data.Workloads.Pods.countP (fun pod => pod.SecurityContext.HostPID) ∧
     (podSecurityTotals data.Workloads.Pods).podHostIPC =
       data.Workloads.Pods.countP (fun pod => pod.SecurityContext.HostIPC)) ∧
    (∀ others : List PodInfo,
      List.Forall₂ (fun a b => b.SecurityContext = a.SecurityContext)
        data.Workloads.Pods others →
      (podSecurityTotals others).podHostNetwork =
        (podSecurityTotals data.Workloads.Pods).podHostNetwork ∧
      (podSecurityTotals others).podHostPID =
        (podSecurityTotals data.Workloads.Pods).podHostPID ∧
      (podSecurityTotals others).podHostIPC =
        (podSecurityTotals data.Workloads.Pods).podHostIPC) := by
  refine ⟨⟨by rfl, by rfl, by rfl, by rfl, by rfl, by rfl⟩,
    podSecurityTotals_hostFlags data.Workloads.Pods, ?_⟩
  intro others h
  obtain ⟨a1, a2, a3⟩ := podSecurityTotals_hostFlags data.Workloads.Pods
  obtain ⟨b1, b2, b3⟩ := podSecurityTotals_hostFlags others
  rw [a1, a2, a3, b1, b2, b3]
  exact ⟨countP_eq_of_forall₂ (fun s => s.HostNetwork) _ _ h,
    countP_eq_of_forall₂ (fun s => s.HostPID) _ _ h,
    countP_eq_of_forall₂ (fun s => s.HostIPC) _ _ h⟩

/-- Witness for C17: the pods of `hostFlagPods` with all container lists
emptied. -/
theorem host_totals_count_pod_flags_witness :
    (podSecurityTotals
        (hostFlagPods.map fun pod => { pod with Containers := [] })).podHostNetwork =
      (podSecurityTotals hostFlagPods).podHostNetwork :=
  ((host_totals_count_pod_flags sampleReport (assessmentOfPods hostFlagPods)).2.2
    (hostFlagPods.map fun pod => { pod with Containers := [] })
    (by
      show List.Forall₂ _ hostFlagPods _
      exact List.forall₂_map_right_iff.mpr (List.forall₂_same.mpr fun _ _ => rfl))).1

/-! ## Ingress rules -/

theorem convertAll_ingressPath (paths : List RawHTTPIngressPath)
    (h : ∀ p ∈ paths, p.BackendService ≠ none) :
    ∃ out, convertAll ingressPath paths = some out ∧
      List.Forall₂
        (fun raw path =>
          path.Path = raw.Path ∧
            raw.BackendService =
              some { Name := path.ServiceName, PortNumber := path.ServicePort })
        paths out := by
  induction paths with
  | nil => exact ⟨[], rfl, List.Forall₂.nil⟩
  | cons p rest ih =>
    obtain ⟨out, hout, hall⟩ := ih fun q hq => h q (List.mem_cons_of_mem _ hq)
    cases hs : p.BackendService with
    | none => exact absurd hs (h p (List.mem_cons_self _ _))
    | some service =>
      refine ⟨{ Path := p.Path, ServiceName := service.Name, ServicePort := service.PortNumber }
        :: out, ?_, List.Forall₂.cons ⟨rfl, hs⟩ hall⟩
      simp [convertAll, ingressPath, hs, hout]

/-- For an ingress whose rules with a non-empty host have only service
backends, the collected rules are those with a non-empty host, in order, each
with one path entry per HTTP path, in order, and none without HTTP section. -/
theorem ingressRules_of_service_backends (rules : List RawIngressRule)
    (h : ∀ rule ∈ rules, rule.Host ≠ "" →
      ∀ paths, rule.HTTP = some paths → ∀ p ∈ paths, p.BackendService ≠ none) :
    ∃ out, ingressRules rules = some out ∧
      List.Forall₂
        (fun raw rule =>
          rule.Host = raw.Host ∧
            List.Forall₂
              (fun rawPath path =>
                path.Path = rawPath.Path ∧
                  rawPath.BackendService =
                    some { Name := path.ServiceName, PortNumber := path.ServicePort })
              (raw.HTTP.getD []) rule.Paths)
        (rules.filter fun rule => decide (rule.Host ≠ "")) out := by
  induction rules with
  | nil => exact ⟨[], rfl, List.Forall₂.nil⟩
  | cons rule rest ih =>
    obtain ⟨out, hout, hall⟩ := ih fun q hq => h q (List.mem_cons_of_mem _ hq)
    by_cases hhost : rule.Host = ""
    · refine ⟨out, ?_, ?_⟩
      · simp [ingressRules, hhost, hout]
      · simpa [List.filter_cons, hhost] using hall
    · cases hhttp : rule.HTTP with
      | none =>
        refine ⟨{ Host := rule.Host, Paths := [] } :: out, ?_, ?_⟩
        · simp [ingressRules, hhost, hhttp, hout]
        · rw [List.filter_cons, if_pos (by simpa using hhost)]
          exact List.Forall₂.cons ⟨rfl, by simp [hhttp]⟩ hall
      | some paths =>
        obtain ⟨converted, hconv, hpaths⟩ := convertAll_ingressPath paths
          (h rule (List.mem_cons_self _ _) hhost paths hhttp)
        refine ⟨{ Host := rule.Host, Paths := converted } :: out, ?_, ?_⟩
        · simp [ingressRules, hhost, hhttp, hout, hconv]
        · rw [List.filter_cons, if_pos (by simpa using hhost)]
          exact List.Forall₂.cons ⟨rfl, by simpa [hhttp] using hpaths⟩ hall

/-- C18 (code defect, evaluated at the failing input).  The ingress
`resourceBackendIngress` has one rule with a non-empty host whose HTTP path
has a resource backend: the conversion dereferences the nil service pointer,
so no `IngressInfo` is collected and `collectNetworkInfo` stops.  For
`threeRulesIngress`, whose paths all have service backends, the collected
rules are those with a non-empty host, in order, each with one entry per HTTP
path, and no entry for the rule without HTTP section. -/
theorem ingress_conversion_stops_on_resource_backend :
    resourceBackendIngress.Rules =
      [{ Host := "files.example", HTTP := some [{ Path := "/", BackendService := none }] }] ∧
    ingressInfo resourceBackendIngress = none ∧
    collectNetworkInfo resourceBackendClient = .nilDereference ∧
    (ingressInfo threeRulesIngress).map (fun info => info.Rules) =
      some
        [ { Host := "a.example"
            Paths :=
              [ { Path := "/api", ServiceName := "svc", ServicePort := 80 },
                { Path := "/", ServiceName := "web", ServicePort := 8080 } ] },
          { Host := "b.example", Paths := [] } ] := by
  refine ⟨rfl, by decide, by decide, by decide⟩

/-! ## The sheets of the workbook -/

theorem workbookSheets_append_of_keepsSheets (pre rest : List WorkbookOp)
    (h : ∀ op ∈ rest, keepsSheets op = true) :
    workbookSheets (pre ++ rest) = workbookSheets pre := by
  unfold workbookSheets
  rw [List.foldl_append]
  generalize List.foldl _ ["Sheet1"] pre = sheets
  induction rest generalizing sheets with
  | nil => rfl
  | cons op rest ih =>
    rw [List.foldl_cons]
    have hop := h op (List.mem_cons_self _ _)
    have hrest := ih (fun o ho => h o (List.mem_cons_of_mem _ ho))
    cases op <;> first
      | exact hrest sheets
      | exact absurd hop (by simp [keepsSheets])

theorem keepsSheets_forEachIndexed {α : Type} (body : Nat → α → List WorkbookOp)
    (h : ∀ i x, ∀ op ∈ body i x, keepsSheets op = true) (start : Nat) (xs : List α) :
    ∀ op ∈ forEachIndexed body start xs, keepsSheets op = true := by
  induction xs generalizing start with
  | nil => intro op hop; simp [forEachIndexed] at hop
  | cons x rest ih =>
    intro op hop
    unfold forEachIndexed at hop
    rcases List.mem_append.mp hop with hm | hm
    · exact h start x op hm
    · exact ih (start + 1) op hm

theorem keepsSheets_headerRow (r : Report) (sheet : String) (headers : List String) :
    ∀ op ∈ headerRow r sheet headers, keepsSheets op = true := by
  unfold headerRow
  apply keepsSheets_forEachIndexed
  intro i x op hop
  simp only [List.mem_cons, List.mem_singleton, List.not_mem_nil, or_false] at hop
  rcases hop with rfl | rfl <;> rfl

theorem keepsSheets_valueRow (r : Report) (sheet : String) (row : Nat)
    (values : List CellValue) : ∀ op ∈ valueRow r sheet row values, keepsSheets op = true := by
  unfold valueRow
  apply keepsSheets_forEachIndexed
  intro i x op hop
  simp only [List.mem_cons, List.mem_singleton, List.not_mem_nil, or_false] at hop
  rcases hop with rfl | rfl <;> rfl

theorem keepsSheets_entityRows {α : Type} (r : Report) (sheet : String)
    (values : α → List CellValue) (entities : List α) :
    ∀ op ∈ entityRows r sheet values entities, keepsSheets op = true := by
  unfold entityRows
  apply keepsSheets_forEachIndexed
  intro i x op hop
  exact keepsSheets_valueRow r sheet _ _ op hop

/-- A sheet generator made of a header row, possibly an auto-filter, the
entity rows and the auto-fit call creates no sheet. -/
theorem keepsSheets_sheet {α : Type} (r : Report) (sheet : String) (headers : List String)
    (filter : List WorkbookOp) (values : α → List CellValue) (entities : List α)
    (hfilter : ∀ op ∈ filter, keepsSheets op = true) :
    ∀ op ∈ headerRow r sheet headers ++ filter ++ entityRows r sheet values entities ++
        [.autoFitColumns sheet], keepsSheets op = true := by
  intro op hop
  simp only [List.mem_append, List.mem_singleton] at hop
  rcases hop with ((hm | hm) | hm) | rfl
  · exact keepsSheets_headerRow r sheet headers op hm
  · exact hfilter op hm
  · exact keepsSheets_entityRows r sheet values entities op hm
  · rfl

theorem keepsSheets_plain_sheet {α : Type} (r : Report) (sheet : String)
    (headers : List String) (values : α → List CellValue) (entities : List α) :
    ∀ op ∈ headerRow r sheet headers ++ entityRows r sheet values entities ++
        [.autoFitColumns sheet], keepsSheets op = true := by
  intro op hop
  simp only [List.mem_append, List.mem_singleton] at hop
  rcases hop with (hm | hm) | rfl
  · exact keepsSheets_headerRow r sheet headers op hm
  · exact keepsSheets_entityRows r sheet values entities op hm
  · rfl

theorem keepsSheets_headerAutoFilter (sheet : String) (headers : List String) :
    ∀ op ∈ [headerAutoFilter sheet headers], keepsSheets op = true := by
  intro op hop
  rw [List.mem_singleton.mp hop]
  rfl

theorem keepsSheets_generateTableOfContents (r : Report) (sheets : List String) :
    ∀ op ∈ generateTableOfContents r sheets, keepsSheets op = true := by
  intro op hop
  unfold generateTableOfContents at hop
  simp only [List.mem_append, List.mem_singleton] at hop
  rcases hop with (hm | hm) | rfl
  · simp only [List.mem_cons, List.not_mem_nil, or_false] at hm
    rcases hm with rfl | rfl | rfl | rfl | rfl | rfl <;> rfl
  · revert op
    apply keepsSheets_forEachIndexed
    intro i x op hop
    simp only [List.mem_cons, List.not_mem_nil, or_false] at hop
    rcases hop with rfl | rfl | rfl <;> rfl
  · rfl

theorem keepsSheets_summaryTableRows (r : Report) (sheet : String) (firstRow : Nat)
    (labels : List String) (counts : List Int) :
    ∀ op ∈ summaryTableRows r sheet firstRow labels counts, keepsSheets op = true := by
  unfold summaryTableRows
  apply keepsSheets_forEachIndexed
  intro i x op hop
  simp only [List.mem_cons, List.not_mem_nil, or_false] at hop
  rcases hop with rfl | rfl | rfl <;> rfl

theorem keepsSheets_generateDashboard (r : Report) (data : AssessmentData) :
    ∀ op ∈ generateDashboard r data, keepsSheets op = true := by
  intro op hop
  unfold generateDashboard at hop
  simp only [List.mem_append] at hop
  rcases hop with (((((((hm | hm) | hm) | hm) | hm) | hm) | hm) | hm)
  · simp only [List.mem_cons, List.not_mem_nil, or_false] at hm
    rcases hm with rfl | rfl | rfl | rfl | rfl | rfl <;> rfl
  · revert op
    unfold metricRows
    apply keepsSheets_forEachIndexed
    intro i x op hop
    simp only [List.mem_cons, List.not_mem_nil, or_false] at hop
    rcases hop with rfl | rfl | rfl <;> rfl
  · simp only [List.mem_cons, List.not_mem_nil, or_false] at hm
    rcases hm with rfl | rfl | rfl | rfl | rfl | rfl | rfl <;> rfl
  · exact keepsSheets_summaryTableRows r _ _ _ _ op hm
  · simp only [List.mem_cons, List.not_mem_nil, or_false] at hm
    rw [hm]
    rfl
  · simp only [List.mem_cons, List.not_mem_nil, or_false] at hm
    rcases hm with rfl | rfl | rfl | rfl | rfl | rfl | rfl <;> rfl
  · exact keepsSheets_summaryTableRows r _ _ _ _ op hm
  · simp only [List.mem_cons, List.not_mem_nil, or_false] at hm
    rcases hm with rfl | rfl <;> rfl

theorem workbookSheets_initializeSheets :
    workbookSheets (initializeSheets generateSheets) = generateSheets := by
  decide

theorem keepsSheets_generateServiceAccounts (r : Report)
    (serviceAccounts : List ServiceAccountInfo) :
    ∀ op ∈ generateServiceAccounts r (workbookSheets (initializeSheets generateSheets))
        serviceAccounts, keepsSheets op = true := by
  intro op hop
  unfold generateServiceAccounts at hop
  rw [workbookSheets_initializeSheets] at hop
  have hmem : "Service Accounts" ∈ generateSheets := by decide
  simp only [hmem, if_true, List.nil_append] at hop
  exact keepsSheets_sheet r _ _ _ _ _ (keepsSheets_headerAutoFilter _ _) op hop

theorem keepsSheets_autoFitAll (autoFitError : String → Option String) (sheets : List String) :
    ∀ op ∈ (autoFitAll autoFitError sheets).1, keepsSheets op = true := by
  induction sheets with
  | nil => intro op hop; simp [autoFitAll] at hop
  | cons sheet rest ih =>
    intro op hop
    unfold autoFitAll at hop
    cases hfit : autoFitError sheet with
    | some err =>
      simp only [hfit, List.mem_singleton] at hop
      rw [hop]
      rfl
    | none =>
      simp only [hfit, List.mem_cons] at hop
      rcases hop with rfl | hm
      · rfl
      · exact ih op hm

/-- The sheet generators of `Generate` after the creation of the sheets create
no further sheet. -/
theorem workbookSheets_generateAllSheets (toLower : String → String) (r : Report)
    (data : AssessmentData) :
    workbookSheets (generateAllSheets toLower r data) = generateSheets := by
  unfold generateAllSheets
  dsimp only
  simp only [List.append_assoc]
  rw [workbookSheets_append_of_keepsSheets, workbookSheets_initializeSheets]
  intro op hop
  simp only [List.mem_append] at hop
  rcases hop with hm | hm | hm | hm | hm | hm | hm | hm | hm | hm | hm | hm | hm | hm | hm | hm | hm
  · exact keepsSheets_generateTableOfContents r _ op hm
  · exact keepsSheets_generateDashboard r data op hm
  · exact keepsSheets_plain_sheet r _ _ _ _ op (by simpa [generateNodes] using hm)
  · exact keepsSheets_plain_sheet r _ _ _ _ op (by simpa [generateNamespaces] using hm)
  · exact keepsSheets_plain_sheet r _ _ _ _ op (by simpa [generatePods] using hm)
  · exact keepsSheets_plain_sheet r _ _ _ _ op (by simpa [generateDeployments] using hm)
  · exact keepsSheets_plain_sheet r _ _ _ _ op (by simpa [generateStatefulSets] using hm)
  · exact keepsSheets_plain_sheet r _ _ _ _ op (by simpa [generateDaemonSets] using hm)
  · exact keepsSheets_plain_sheet r _ _ _ _ op (by simpa [generateServices] using hm)
  · exact keepsSheets_sheet r _ _ _ _ _ (keepsSheets_headerAutoFilter _ _) op
      (by simpa [generateNetworkPolicies] using hm)
  · exact keepsSheets_plain_sheet r _ _ _ _ op (by simpa [generateIngresses] using hm)
  · exact keepsSheets_plain_sheet r _ _ _ _ op (by simpa [generateSecrets] using hm)
  · exact keepsSheets_generateServiceAccounts r _ op hm
  · exact keepsSheets_sheet r _ _ _ _ _ (keepsSheets_headerAutoFilter _ _) op
      (by simpa [generateRoles] using hm)
  · exact keepsSheets_sheet r _ _ _ _ _ (keepsSheets_headerAutoFilter _ _) op
      (by simpa [generateRoleBindings] using hm)
  · exact keepsSheets_sheet r _ _ _ _ _ (keepsSheets_headerAutoFilter _ _) op
      (by simpa [generateClusterRoles] using hm)
  · exact keepsSheets_sheet r _ _ _ _ _ (keepsSheets_headerAutoFilter _ _) op
      (by simpa [generateClusterRoleBindings] using hm)

theorem isInfix_append_right (l a b : List WorkbookOp) (h : l <:+: a) : l <:+: a ++ b :=
  h.trans (List.prefix_append a b).isInfix

/-- The calls of a run of `Generate` whose style setup succeeded: those of
`generateAllSheets`, then calls that create no sheet. -/
theorem Generate_calls (toLower : String → String) (r : Report)
    (autoFitError : String → Option String)
    (saveAsError : Option String) (data : AssessmentData) :
    ∃ rest, (Generate toLower (.ok r) autoFitError saveAsError data).calls =
        generateAllSheets toLower r data ++ rest ∧ ∀ op ∈ rest, keepsSheets op = true := by
  unfold Generate
  have hfit := keepsSheets_autoFitAll autoFitError generateSheets
  rcases hres : autoFitAll autoFitError generateSheets with ⟨fitted, err⟩
  rw [hres] at hfit
  cases err with
  | some e => exact ⟨fitted, rfl, hfit⟩
  | none =>
    cases saveAsError with
    | some e =>
      refine ⟨fitted ++ [.saveAs r.filePath], by simp, ?_⟩
      intro op hop
      rcases List.mem_append.mp hop with hm | hm
      · exact hfit op hm
      · rw [List.mem_singleton.mp hm]
        rfl
    | none =>
      refine ⟨fitted ++ [.saveAs r.filePath], by simp, ?_⟩
      intro op hop
      rcases List.mem_append.mp hop with hm | hm
      · exact hfit op hm
      · rw [List.mem_singleton.mp hm]
        rfl

/-- The sheets of the workbook after a run of `Generate` whose style setup
succeeded are those of the slice `sheets`. -/
theorem workbookSheets_Generate (toLower : String → String) (r : Report)
    (autoFitError : String → Option String)
    (saveAsError : Option String) (data : AssessmentData) :
    workbookSheets (Generate toLower (.ok r) autoFitError saveAsError data).calls =
      generateSheets := by
  obtain ⟨rest, hcalls, hrest⟩ := Generate_calls toLower r autoFitError saveAsError data
  rw [hcalls, workbookSheets_append_of_keepsSheets _ _ hrest, workbookSheets_generateAllSheets]

theorem initializeSheets_isPrefix_Generate (toLower : String → String) (r : Report)
    (autoFitError : String → Option String)
    (saveAsError : Option String) (data : AssessmentData) :
    initializeSheets generateSheets <+:
      (Generate toLower (.ok r) autoFitError saveAsError data).calls := by
  obtain ⟨rest, hcalls, _⟩ := Generate_calls toLower r autoFitError saveAsError data
  rw [hcalls]
  unfold generateAllSheets
  dsimp only
  simp only [List.append_assoc]
  exact List.prefix_append _ _

theorem generateTableOfContents_isInfix_Generate (toLower : String → String) (r : Report)
    (autoFitError : String → Option String) (saveAsError : Option String)
    (data : AssessmentData) :
    generateTableOfContents r generateSheets <:+:
      (Generate toLower (.ok r) autoFitError saveAsError data).calls := by
  obtain ⟨rest, hcalls, _⟩ := Generate_calls toLower r autoFitError saveAsError data
  rw [hcalls]
  unfold generateAllSheets
  dsimp only
  iterate 17 apply isInfix_append_right
  exact (List.suffix_append _ _).isInfix

/-- C19 (amended).  After a run of `Generate` the workbook has exactly
seventeen sheets, in this order: Contents, Dashboard, Nodes, Namespaces, Pods,
Deployments, StatefulSets, DaemonSets, Services, Network Policies, Ingresses,
Secrets, Service Accounts, Roles, Role Bindings, Cluster Roles, Cluster Role
Bindings (five names are written with a space).  The names are pairwise
distinct.  The run starts by renaming the default sheet to the first name and
adding the others in order. -/
theorem Generate_creates_seventeen_sheets (toLower : String → String) (r : Report)
    (autoFitError : String → Option String) (saveAsError : Option String)
    (data : AssessmentData) :
    workbookSheets (Generate toLower (.ok r) autoFitError saveAsError data).calls =
      [ "Contents", "Dashboard", "Nodes", "Namespaces", "Pods", "Deployments", "StatefulSets",
        "DaemonSets", "Services", "Network Policies", "Ingresses", "Secrets", "Service Accounts",
        "Roles", "Role Bindings", "Cluster Roles", "Cluster Role Bindings" ] ∧
    (workbookSheets (Generate toLower (.ok r) autoFitError saveAsError data).calls).length = 17 ∧
    (workbookSheets (Generate toLower (.ok r) autoFitError saveAsError data).calls).Nodup ∧
    initializeSheets generateSheets <+:
      (Generate toLower (.ok r) autoFitError saveAsError data).calls ∧
    initializeSheets generateSheets =
      WorkbookOp.setSheetName "Sheet1" "Contents" ::
        List.map WorkbookOp.newSheet
        [ "Dashboard", "Nodes", "Namespaces", "Pods", "Deployments", "StatefulSets",
          "DaemonSets", "Services", "Network Policies", "Ingresses", "Secrets",
          "Service Accounts", "Roles", "Role Bindings", "Cluster Roles", "Cluster Role Bindings" ] := by
  rw [workbookSheets_Generate]
  exact ⟨by decide, by decide, by decide,
    initializeSheets_isPrefix_Generate toLower r autoFitError saveAsError data, by decide⟩

/-- C19 (counterexample).  The sheet list of a run of `Generate` differs from
the list of names without spaces: its tenth sheet is "Network Policies", not
"NetworkPolicies". -/
theorem Generate_sheet_names_have_spaces :
    workbookSheets
        (Generate toLowerASCII (.ok sampleReport) (fun _ => none) none emptyAssessment).calls ≠
      specifiedSheetNames ∧
    (workbookSheets
      (Generate toLowerASCII (.ok sampleReport) (fun _ => none) none emptyAssessment).calls)[9]? =
      some "Network Policies" ∧
    specifiedSheetNames[9]? = some "NetworkPolicies" := by
  rw [workbookSheets_Generate]
  exact ⟨by decide, by decide, by decide⟩

/-! ## The contents sheet -/

theorem hyperlinkRows_generateTableOfContents (r : Report) (sheets : List String) :
    hyperlinkRows (generateTableOfContents r sheets) "Contents" =
      generateSheets.tail.enum.map fun entry =>
        (cellName "A" (12 + entry.1), some (.str entry.2), sheetLocation entry.2) := by
  rfl

/-- C20 (amended).  `generateTableOfContents` does not read the sheet list it
is passed: for every argument it makes the same calls, and its hyperlinks are
those of the sixteen entries of its own fixed list `toc` (the sheets of
`Generate` other than Contents, in order), row 12 + i of column A holding the
name of the i-th entry and linking to cell A1 of the sheet of that name.  So
in a run of `Generate`, for every sheet of the workbook other than Contents
exactly one row holds its name and links to its cell A1, there is no
hyperlinked row for Contents, and every link written leads to a sheet of the
workbook. -/
theorem contents_sheet_links_every_other_sheet_once (toLower : String → String) (r : Report)
    (autoFitError : String → Option String) (saveAsError : Option String)
    (data : AssessmentData) :
    generateTableOfContents r generateSheets <:+:
      (Generate toLower (.ok r) autoFitError saveAsError data).calls ∧
    hyperlinkRows (generateTableOfContents r generateSheets) "Contents" =
      (generateSheets.tail.enum.map fun entry =>
        (cellName "A" (12 + entry.1), some (.str entry.2), sheetLocation entry.2)) ∧
    (hyperlinkRows (generateTableOfContents r generateSheets) "Contents").length = 16 ∧
    (∀ name ∈ workbookSheets (Generate toLower (.ok r) autoFitError saveAsError data).calls,
      name ≠ "Contents" →
      ((hyperlinkRows (generateTableOfContents r generateSheets) "Contents").filter
        fun row => decide (row.2.1 = some (.str name) ∧ row.2.2 = sheetLocation name)).length =
        1) ∧
    (∀ row ∈ hyperlinkRows (generateTableOfContents r generateSheets) "Contents",
      ∃ name ∈ workbookSheets (Generate toLower (.ok r) autoFitError saveAsError data).calls,
        row.2.2 = sheetLocation name) ∧
    (∀ sheets : List String,
      generateTableOfContents r sheets = generateTableOfContents r generateSheets) ∧
    (∀ sheets : List String,
      hyperlinkRows (generateTableOfContents r sheets) "Contents" =
        tocEntries.enum.map fun entry =>
          (cellName "A" (12 + entry.1), some (.str entry.2.1),
            "#'" ++ entry.2.2 ++ "'!A1")) ∧
    tocEntries = generateSheets.tail.map (fun name => (name, name)) ∧
    ((hyperlinkRows (generateTableOfContents r generateSheets) "Contents").filter
      fun row => decide (row.2.1 = some (.str "Contents") ∨
        row.2.2 = sheetLocation "Contents")) = [] := by
  rw [workbookSheets_Generate, hyperlinkRows_generateTableOfContents]
  exact ⟨generateTableOfContents_isInfix_Generate toLower r autoFitError saveAsError data, rfl,
    by decide, by decide, by decide, fun _ => rfl, fun _ => by rfl, by decide, by decide⟩

/-- C20 (counterexample).  Contents is one of the seventeen sheets, and none of
the sixteen hyperlinks of the Contents sheet leads to it; the cell A10 that
holds the text "Contents" carries no hyperlink. -/
theorem contents_sheet_has_no_link_to_itself :
    "Contents" ∈
      workbookSheets
        (Generate toLowerASCII (.ok sampleReport) (fun _ => none) none emptyAssessment).calls ∧
    ((hyperlinkRows (generateTableOfContents sampleReport generateSheets) "Contents").filter
      fun row => decide (row.2.2 = sheetLocation "Contents")) = [] ∧
    cellValue? (generateTableOfContents sampleReport generateSheets) "Contents" "A10" =
      some (.str "Contents") ∧
    ((hyperlinkRows (generateTableOfContents sampleReport generateSheets) "Contents").filter
      fun row => decide (row.1 = "A10")) = [] := by
  rw [workbookSheets_Generate]
  exact ⟨by decide, by decide, by decide, by decide⟩

/-- Witness for C20 (amended): the sheet Pods. -/
theorem contents_sheet_links_every_other_sheet_once_witness :
    ((hyperlinkRows (generateTableOfContents sampleReport generateSheets) "Contents").filter
      fun row => decide (row.2.1 = some (.str "Pods") ∧ row.2.2 = sheetLocation "Pods")).length =
      1 :=
  (contents_sheet_links_every_other_sheet_once toLowerASCII sampleReport (fun _ => none) none
    emptyAssessment).2.2.2.1 "Pods"
    (by rw [workbookSheets_Generate]; decide) (by decide)

/-! ## The key-metric list of the dashboard -/

theorem metricRows_isInfix (r : Report) (data : AssessmentData) :
    metricRows r "Dashboard" (dashboardMetrics data) <:+: generateDashboard r data := by
  unfold generateDashboard
  dsimp only
  iterate 6 apply isInfix_append_right
  exact (List.suffix_append _ _).isInfix

theorem collectClusterInfo_nodeCount (c : Client) (ci : ClusterInfo)
    (h : collectClusterInfo c = .ok ci) : ci.NodeCount = ci.Nodes.length := by
  unfold collectClusterInfo at h
  cases h1 : c.ServerVersion <;> cases h2 : c.Nodes <;>
    cases h3 : c.NamespacesForClusterInfo <;> simp [h1, h2, h3] at h
  rw [← h]
  simp

theorem cellWrites_metricRows (r : Report) (data : AssessmentData) :
    cellWrites (metricRows r "Dashboard" (dashboardMetrics data)) =
      [ ("Dashboard", "A4", .str "Kubernetes Version"),
        ("Dashboard", "B4", .str data.ClusterInfo.Version),
        ("Dashboard", "A5", .str "Total Nodes"),
        ("Dashboard", "B5", .int data.ClusterInfo.NodeCount),
        ("Dashboard", "A6", .str "Total Namespaces"),
        ("Dashboard", "B6", .int data.ClusterInfo.Namespaces.length),
        ("Dashboard", "A7", .str "Total Pods"),
        ("Dashboard", "B7", .int data.Workloads.Pods.length),
        ("Dashboard", "A8", .str "Total Deployments"),
        ("Dashboard", "B8", .int data.Workloads.Deployments.length),
        ("Dashboard", "A9", .str "Total StatefulSets"),
        ("Dashboard", "B9", .int data.Workloads.StatefulSets.length),
        ("Dashboard", "A10", .str "Total DaemonSets"),
        ("Dashboard", "B10", .int data.Workloads.DaemonSets.length),
        ("Dashboard", "A11", .str "Total Services"),
        ("Dashboard", "B11", .int data.Network.Services.length),
        ("Dashboard", "A12", .str "Total Network Policies"),
        ("Dashboard", "B12", .int data.Network.NetworkPolicies.length),
        ("Dashboard", "A13", .str "Total Ingresses"),
        ("Dashboard", "B13", .int data.Network.Ingresses.length),
        ("Dashboard", "A14", .str "Total Secrets"),
        ("Dashboard", "B14", .int data.Secrets.Secrets.length),
        ("Dashboard", "A15", .str "Total Roles"),
        ("Dashboard", "B15", .int data.RBAC.Roles.length),
        ("Dashboard", "A16", .str "Total ClusterRoles"),
        ("Dashboard", "B16", .int data.RBAC.ClusterRoles.length),
        ("Dashboard", "A17", .str "Total RoleBindings"),
        ("Dashboard", "B17", .int data.RBAC.RoleBindings.length),
        ("Dashboard", "A18", .str "Total ClusterRoleBindings"),
        ("Dashboard", "B18", .int data.RBAC.ClusterRoleBindings.length),
        ("Dashboard", "A19", .str "Total ServiceAccounts"),
        ("Dashboard", "B19", .int data.RBAC.ServiceAccounts.length) ] := by
  rfl

theorem writtenCells_generateDashboard (r : Report) (data : AssessmentData) :
    writtenCells (generateDashboard r data) =
      ["A1", "A3"] ++
        ((List.range 16).map fun i => [cellName "A" (i + 4), cellName "B" (i + 4)]).flatten ++
        ["E3", "E4", "F4"] ++
        ((List.range 5).map fun i => [cellName "E" (i + 5), cellName "F" (i + 5)]).flatten ++
        ["E12", "E13", "F13"] ++
        ((List.range 6).map fun i => [cellName "E" (i + 14), cellName "F" (i + 14)]).flatten := by
  rfl

/-- C21 (amended).  The key-metric loop of `generateDashboard` writes exactly
sixteen rows, rows 4 to 19 of columns A and B, and no other call of
`generateDashboard` writes a cell of these two columns except the headings A1
and A3.  The value of the first row is the Kubernetes version string, that of
the second row the `NodeCount` field, which in a collected model is the length
of the node sequence; the values of the other fourteen rows are lengths of
sequences of the model.  Two models with the same version, node count and
sequence lengths give the same rows. -/
theorem dashboard_key_metrics_are_version_node_count_and_lengths (r : Report)
    (data : AssessmentData) :
    (dashboardMetrics data).length = 16 ∧
    metricRows r "Dashboard" (dashboardMetrics data) <:+: generateDashboard r data ∧
    cellWrites (metricRows r "Dashboard" (dashboardMetrics data)) =
      [ ("Dashboard", "A4", .str "Kubernetes Version"),
        ("Dashboard", "B4", .str data.ClusterInfo.Version),
        ("Dashboard", "A5", .str "Total Nodes"),
        ("Dashboard", "B5", .int data.ClusterInfo.NodeCount),
        ("Dashboard", "A6", .str "Total Namespaces"),
        ("Dashboard", "B6", .int data.ClusterInfo.Namespaces.length),
        ("Dashboard", "A7", .str "Total Pods"),
        ("Dashboard", "B7", .int data.Workloads.Pods.length),
        ("Dashboard", "A8", .str "Total Deployments"),
        ("Dashboard", "B8", .int data.Workloads.Deployments.length),
        ("Dashboard", "A9", .str "Total StatefulSets"),
        ("Dashboard", "B9", .int data.Workloads.StatefulSets.length),
        ("Dashboard", "A10", .str "Total DaemonSets"),
        ("Dashboard", "B10", .int data.Workloads.DaemonSets.length),
        ("Dashboard", "A11", .str "Total Services"),
        ("Dashboard", "B11", .int data.Network.Services.length),
        ("Dashboard", "A12", .str "Total Network Policies"),
        ("Dashboard", "B12", .int data.Network.NetworkPolicies.length),
        ("Dashboard", "A13", .str "Total Ingresses"),
        ("Dashboard", "B13", .int data.Network.Ingresses.length),
        ("Dashboard", "A14", .str "Total Secrets"),
        ("Dashboard", "B14", .int data.Secrets.Secrets.length),
        ("Dashboard", "A15", .str "Total Roles"),
        ("Dashboard", "B15", .int data.RBAC.Roles.length),
        ("Dashboard", "A16", .str "Total ClusterRoles"),
        ("Dashboard", "B16", .int data.RBAC.ClusterRoles.length),
        ("Dashboard", "A17", .str "Total RoleBindings"),
        ("Dashboard", "B17", .int data.RBAC.RoleBindings.length),
        ("Dashboard", "A18", .str "Total ClusterRoleBindings"),
        ("Dashboard", "B18", .int data.RBAC.ClusterRoleBindings.length),
        ("Dashboard", "A19", .str "Total ServiceAccounts"),
        ("Dashboard", "B19", .int data.RBAC.ServiceAccounts.length) ] ∧
    writtenCells (generateDashboard r data) =
      ["A1", "A3"] ++
        ((List.range 16).map fun i => [cellName "A" (i + 4), cellName "B" (i + 4)]).flatten ++
        ["E3", "E4", "F4"] ++
        ((List.range 5).map fun i => [cellName "E" (i + 5), cellName "F" (i + 5)]).flatten ++
        ["E12", "E13", "F13"] ++
        ((List.range 6).map fun i => [cellName "E" (i + 14), cellName "F" (i + 14)]).flatten ∧
    cellValue? (generateDashboard r data) "Dashboard" "B4" =
      some (.str data.ClusterInfo.Version) ∧
    cellValue? (generateDashboard r data) "Dashboard" "B5" =
      some (.int data.ClusterInfo.NodeCount) ∧
    cellValue? (generateDashboard r data) "Dashboard" "B6" =
      some (.int data.ClusterInfo.Namespaces.length) ∧
    cellValue? (generateDashboard r data) "Dashboard" "B19" =
      some (.int data.RBAC.ServiceAccounts.length) ∧
    (∀ c, CollectAll c = .ok data →
      data.ClusterInfo.NodeCount = data.ClusterInfo.Nodes.length) ∧
    (∀ other : AssessmentData,
      other.ClusterInfo.Version = data.ClusterInfo.Version →
      other.ClusterInfo.NodeCount = data.ClusterInfo.NodeCount →
      other.ClusterInfo.Namespaces.length = data.ClusterInfo.Namespaces.length →
      other.Workloads.Pods.length = data.Workloads.Pods.length →
      other.Workloads.Deployments.length = data.Workloads.Deployments.length →
      other.Workloads.StatefulSets.length = data.Workloads.StatefulSets.length →
      other.Workloads.DaemonSets.length = data.Workloads.DaemonSets.length →
      other.Network.Services.length = data.Network.Services.length →
      other.Network.NetworkPolicies.length = data.Network.NetworkPolicies.length →
      other.Network.Ingresses.length = data.Network.Ingresses.length →
      other.Secrets.Secrets.length = data.Secrets.Secrets.length →
      other.RBAC.Roles.length = data.RBAC.Roles.length →
      other.RBAC.ClusterRoles.length = data.RBAC.ClusterRoles.length →
      other.RBAC.RoleBindings.length = data.RBAC.RoleBindings.length →
      other.RBAC.ClusterRoleBindings.length = data.RBAC.ClusterRoleBindings.length →
      other.RBAC.ServiceAccounts.length = data.RBAC.ServiceAccounts.length →
      metricRows r "Dashboard" (dashboardMetrics other) =
        metricRows r "Dashboard" (dashboardMetrics data)) := by
  refine ⟨rfl, metricRows_isInfix r data, cellWrites_metricRows r data,
    writtenCells_generateDashboard r data, by rfl, by rfl, by rfl, by rfl, ?_, ?_⟩
  · intro c hc
    exact collectClusterInfo_nodeCount c _ ((CollectAll_eq_ok_iff c data).mp hc).1
  · intro other h1 h2 h3 h4 h5 h6 h7 h8 h9 h10 h11 h12 h13 h14 h15 h16
    unfold dashboardMetrics
    rw [h1, h2, h3, h4, h5, h6, h7, h8, h9, h10, h11, h12, h13, h14, h15, h16]

/-- C21 (counterexample).  The models collected from `emptyClient` and from
`otherVersionClient` differ only in the version string, so every sequence of
the one has the length of the same sequence of the other; the value of the
first key-metric row (B4, labelled "Kubernetes Version") is the string
"v1.29.0" for the one and "v1.30.1" for the other. -/
theorem version_row_is_not_a_sequence_length :
    ∃ d1 d2, CollectAll emptyClient = .ok d1 ∧ CollectAll otherVersionClient = .ok d2 ∧
      d2 = { d1 with ClusterInfo := { d1.ClusterInfo with Version := "v1.30.1" } } ∧
      cellValue? (generateDashboard sampleReport d1) "Dashboard" "A4" =
        some (.str "Kubernetes Version") ∧
      cellValue? (generateDashboard sampleReport d1) "Dashboard" "B4" =
        some (.str "v1.29.0") ∧
      cellValue? (generateDashboard sampleReport d2) "Dashboard" "B4" =
        some (.str "v1.30.1") :=
  ⟨_, _, rfl, rfl, by rfl, by rfl, by rfl, by rfl⟩

/-- Witness for C21 (amended): the model collected from `emptyClient`. -/
theorem dashboard_key_metrics_are_version_node_count_and_lengths_witness :
    ∃ data, CollectAll emptyClient = .ok data ∧
      data.ClusterInfo.NodeCount = data.ClusterInfo.Nodes.length :=
  ⟨_, rfl,
    (dashboard_key_metrics_are_version_node_count_and_lengths sampleReport _).2.2.2.2.2.2.2.2.1
      emptyClient rfl⟩

/-! ## autoFitColumns -/

theorem foldl_maxLen (col : List String) (init : Nat) :
    init ≤
        col.foldl
          (fun maxLen cell => if cell.utf8ByteSize > maxLen then cell.utf8ByteSize else maxLen)
          init ∧
    (∀ cell ∈ col,
      cell.utf8ByteSize ≤
        col.foldl
          (fun maxLen cell => if cell.utf8ByteSize > maxLen then cell.utf8ByteSize else maxLen)
          init) ∧
    (col.foldl
          (fun maxLen cell => if cell.utf8ByteSize > maxLen then cell.utf8ByteSize else maxLen)
          init = init ∨
      ∃ cell ∈ col,
        cell.utf8ByteSize =
          col.foldl
            (fun maxLen cell => if cell.utf8ByteSize > maxLen then cell.utf8ByteSize else maxLen)
            init) := by
  induction col generalizing init with
  | nil => simp
  | cons c rest ih =>
    simp only [List.foldl_cons, List.mem_cons, forall_eq_or_imp, exists_eq_or_imp]
    obtain ⟨h1, h2, h3⟩ := ih (if c.utf8ByteSize > init then c.utf8ByteSize else init)
    by_cases hc : c.utf8ByteSize > init
    · simp only [hc, if_true] at h1 h2 h3 ⊢
      refine ⟨by omega, ⟨h1, h2⟩, ?_⟩
      rcases h3 with h3 | ⟨cell, hcell, hsize⟩
      · exact Or.inr (Or.inl h3.symm)
      · exact Or.inr (Or.inr ⟨cell, hcell, hsize⟩)
    · simp only [hc, if_false] at h1 h2 h3 ⊢
      refine ⟨h1, ⟨by omega, h2⟩, ?_⟩
      rcases h3 with h3 | ⟨cell, hcell, hsize⟩
      · exact Or.inl h3
      · exact Or.inr (Or.inr ⟨cell, hcell, hsize⟩)

/-- The value of `maxLen` after the inner loop is the largest cell length of
the column. -/
theorem maxCellLen_is_maximum (col : List String) :
    (∀ cell ∈ col, cell.utf8ByteSize ≤ maxCellLen col) ∧
    (col ≠ [] → ∃ cell ∈ col, cell.utf8ByteSize = maxCellLen col) ∧
    ((∀ cell ∈ col, cell = "") → maxCellLen col = 0) := by
  obtain ⟨_, h2, h3⟩ := foldl_maxLen col 0
  refine ⟨h2, ?_, ?_⟩
  · intro hne
    rcases h3 with h3 | h3
    · cases col with
      | nil => exact absurd rfl hne
      | cons c rest =>
        refine ⟨c, List.mem_cons_self _ _, ?_⟩
        have hle := h2 c (List.mem_cons_self _ _)
        unfold maxCellLen
        omega
    · exact h3
  · intro hall
    rcases h3 with h3 | ⟨cell, hcell, hsize⟩
    · exact h3
    · unfold maxCellLen
      rw [← hsize, hall cell hcell]
      rfl

theorem columnWidth_eq (m : Nat) : columnWidth m = min 100 (max 10 (m + 2)) := by
  unfold columnWidth
  dsimp only
  split_ifs <;> omega

/-- C22.  For every column of the sheet that has a name, `autoFitColumns` sets
its width to `min(100, max(10, m + 2))`, where `m` is the largest byte length
of the cell texts of the column (0 when the column has no cell or only empty
cells), and it makes no other call.  The width lies between 10 and 100, equals
`m + 2` exactly when `8 ≤ m ≤ 98`, and does not decrease when `m` grows. -/
theorem autoFitColumns_sets_clamped_padded_maximum (sheet : String)
    (cols : List (List String)) :
    (∀ idx col name, cols[idx]? = some col → columnNumberToName (idx + 1) = some name →
      WorkbookOp.setColWidth sheet name name (min 100 (max 10 (maxCellLen col + 2)) : Nat) ∈
        (autoFitColumns (.ok cols) sheet).1) ∧
    (∀ op ∈ (autoFitColumns (.ok cols) sheet).1,
      ∃ idx col name, cols[idx]? = some col ∧ columnNumberToName (idx + 1) = some name ∧
        op =
          WorkbookOp.setColWidth sheet name name
            (min 100 (max 10 (maxCellLen col + 2)) : Nat)) ∧
    (autoFitColumns (.ok cols) sheet).2 = none ∧
    (∀ err, autoFitColumns (.error err) sheet = ([], some err)) ∧
    (∀ col : List String,
      (∀ cell ∈ col, cell.utf8ByteSize ≤ maxCellLen col) ∧
      (col ≠ [] → ∃ cell ∈ col, cell.utf8ByteSize = maxCellLen col) ∧
      ((∀ cell ∈ col, cell = "") → maxCellLen col = 0)) ∧
    (∀ m, columnWidth m = min 100 (max 10 (m + 2)) ∧ 10 ≤ columnWidth m ∧
      columnWidth m ≤ 100 ∧ (columnWidth m = m + 2 ↔ 8 ≤ m ∧ m ≤ 98)) ∧
    (∀ m n, m ≤ n → columnWidth m ≤ columnWidth n) := by
  refine ⟨?_, ?_, rfl, fun _ => rfl, maxCellLen_is_maximum, ?_, ?_⟩
  · intro idx col name hcol hname
    unfold autoFitColumns
    refine mem_forEachIndexed _ cols 0 idx col _ hcol ?_
    simp [hname, columnWidth_eq]
  · intro op hop
    unfold autoFitColumns at hop
    obtain ⟨idx, col, hcol, hmem⟩ := exists_of_mem_forEachIndexed _ cols 0 op hop
    simp only [Nat.zero_add] at hmem
    cases hname : columnNumberToName (idx + 1) with
    | none => simp [hname] at hmem
    | some name =>
      simp only [hname, List.mem_singleton] at hmem
      exact ⟨idx, col, name, hcol, hname, by rw [hmem, columnWidth_eq]⟩
  · intro m
    rw [columnWidth_eq]
    omega
  · intro m n hmn
    rw [columnWidth_eq, columnWidth_eq]
    omega

/-- Witness for C22: a sheet with the columns ("Name", "a"), ("0123456789") and
an empty column; the second column gets the width 12. -/
theorem autoFitColumns_sets_clamped_padded_maximum_witness :
    WorkbookOp.setColWidth "Pods" "B" "B" 12 ∈
      (autoFitColumns (.ok [["Name", "a"], ["0123456789"], []]) "Pods").1 :=
  (autoFitColumns_sets_clamped_padded_maximum "Pods" [["Name", "a"], ["0123456789"], []]).1
    1 ["0123456789"] "B" rfl (by decide)

/-! ## What the collectors keep of environment variables and secrets -/

theorem envVar_names_eq_of_forall₂ (xs ys : List RawEnvVar)
    (h : List.Forall₂ (fun a b => a.Name = b.Name) xs ys) :
    xs.map (fun e => e.Name) = ys.map (fun e => e.Name) := by
  induction h with
  | nil => rfl
  | cons hab _ ih => simp [hab, ih]

/-- C23.  The collected `EnvVars` of a container are the names of its declared
environment variables, in order.  A container that differs from it only in
the values or value sources of its environment variables gives the same
`ContainerInfo`: this holds when only the environment is replaced by one with
the same names, and for any two containers that agree on name, image,
security context, resources and variable names.  The containers of a
collected pod are the `ContainerInfo` records of its containers, in order. -/
theorem containerInfo_keeps_only_env_var_names (container : RawContainer) :
    (containerInfo container).EnvVars = container.Env.map (fun env => env.Name) ∧
    (∀ env : List RawEnvVar,
      env.map (fun e => e.Name) = container.Env.map (fun e => e.Name) →
      containerInfo { container with Env := env } = containerInfo container) ∧
    (∀ other : RawContainer,
      other.Name = container.Name → other.Image = container.Image →
      other.SecurityContext = container.SecurityContext →
      other.LimitsCPU = container.LimitsCPU → other.LimitsMemory = container.LimitsMemory →
      other.RequestsCPU = container.RequestsCPU →
      other.RequestsMemory = container.RequestsMemory →
      List.Forall₂ (fun a b => a.Name = b.Name) other.Env container.Env →
      containerInfo other = containerInfo container) ∧
    (∀ pod : RawPod,
      (podInfo pod).Containers = pod.Containers.map containerInfo ∧
      (podInfo pod).Containers.map (fun c => c.EnvVars) =
        pod.Containers.map fun c => c.Env.map fun env => env.Name) := by
  refine ⟨rfl, ?_, ?_, ?_⟩
  · intro env henv
    simp [containerInfo, henv]
  · intro other h1 h2 h3 h4 h5 h6 h7 henv
    have hnames := envVar_names_eq_of_forall₂ _ _ henv
    simp [containerInfo, h1, h2, h3, h4, h5, h6, h7, hnames]
  · intro pod
    refine ⟨rfl, ?_⟩
    simp [podInfo, containerInfo, Function.comp_def]

/-- Witness for C23: the variable API_KEY with a literal value and with a
value taken from a secret. -/
theorem containerInfo_keeps_only_env_var_names_witness :
    containerInfo
        (envContainer "main"
          [{ Name := "API_KEY", Value := "", ValueFrom := some "secret/api" }]) =
      containerInfo (envContainer "main" [literalEnv "API_KEY" "k-123"]) :=
  (containerInfo_keeps_only_env_var_names
    (envContainer "main" [literalEnv "API_KEY" "k-123"])).2.1
    [{ Name := "API_KEY", Value := "", ValueFrom := some "secret/api" }] rfl

theorem secretNamespaceBody_rewrite (c : Client) (rewrite : RawSecret → RawSecret)
    (h : ∀ s, secretInfo (rewrite s) = secretInfo s) :
    secretNamespaceBody
        { c with Secrets := fun ns => (c.Secrets ns).map (List.map rewrite) } =
      secretNamespaceBody c := by
  funext sa ns
  unfold secretNamespaceBody
  dsimp only
  cases hs : c.Secrets ns.Name with
  | error e => rfl
  | ok secrets =>
    simp only [Except.map, List.map_map]
    have hcomp : secretInfo ∘ rewrite = secretInfo := funext h
    rw [hcomp]

/-- C24.  Two secrets that agree on name, namespace, labels, creation
timestamp and type give the same `SecretInfo`, whatever their payloads are,
and so the same calls of `generateSecrets` wherever they stand in the secret
list.  Changing nothing but the payload of a secret leaves its `SecretInfo`
as it is.  A cluster whose secrets are rewritten by any function that keeps
these five attributes gives the same result of `collectSecretInfo`. -/
theorem secretInfo_is_independent_of_payload (a b : RawSecret) (hname : a.Name = b.Name)
    (hnamespace : a.Namespace = b.Namespace) (hlabels : a.Labels = b.Labels)
    (htime : a.CreationTimestamp = b.CreationTimestamp) (htype : a.Type_ = b.Type_) :
    secretInfo a = secretInfo b ∧
    (∀ (r : Report) (before after : List RawSecret),
      generateSecrets r ((before ++ a :: after).map secretInfo) =
        generateSecrets r ((before ++ b :: after).map secretInfo)) ∧
    (∀ data stringData : List (String × String),
      secretInfo { a with Data := data, StringData := stringData } = secretInfo a) ∧
    (∀ before after : List RawSecret,
      collectSecretInfo (secretsClient (before ++ a :: after)) =
        collectSecretInfo (secretsClient (before ++ b :: after))) ∧
    (∀ (c : Client) (rewrite : RawSecret → RawSecret),
      (∀ s, (rewrite s).Name = s.Name ∧ (rewrite s).Namespace = s.Namespace ∧
        (rewrite s).Labels = s.Labels ∧
        (rewrite s).CreationTimestamp = s.CreationTimestamp ∧
        (rewrite s).Type_ = s.Type_) →
      collectSecretInfo
          { c with Secrets := fun ns => (c.Secrets ns).map (List.map rewrite) } =
        collectSecretInfo c) := by
  have hab : secretInfo a = secretInfo b := by
    simp [secretInfo, hname, hnamespace, hlabels, htime, htype]
  refine ⟨hab, ?_, fun _ _ => rfl, ?_, ?_⟩
  · intro r before after
    simp [hab]
  · intro before after
    simp [collectSecretInfo, secretsClient, forEachNamespace, secretNamespaceBody, hab]
  · intro c rewrite hrewrite
    have hinfo : ∀ s, secretInfo (rewrite s) = secretInfo s := by
      intro s
      obtain ⟨h1, h2, h3, h4, h5⟩ := hrewrite s
      simp [secretInfo, h1, h2, h3, h4, h5]
    unfold collectSecretInfo
    rw [secretNamespaceBody_rewrite c rewrite hinfo]

/-- Witness for C24: the secret "db-credentials" with two different
payloads. -/
theorem secretInfo_is_independent_of_payload_witness :
    secretInfo (sampleSecret [("password", "aHVudGVyMg==")] []) =
      secretInfo (sampleSecret [] [("password", "other")]) :=
  (secretInfo_is_independent_of_payload (sampleSecret [("password", "aHVudGVyMg==")] [])
    (sampleSecret [] [("password", "other")]) rfl rfl rfl rfl rfl).1

/-! ## Auto-filters of the resource sheets -/

theorem autoFilters_append (a b : List WorkbookOp) :
    autoFilters (a ++ b) = autoFilters a ++ autoFilters b := by
  simp [autoFilters, List.filterMap_append]

theorem autoFilters_forEachIndexed {α : Type} (body : Nat → α → List WorkbookOp)
    (xs : List α) (start : Nat) (h : ∀ i x, autoFilters (body i x) = []) :
    autoFilters (forEachIndexed body start xs) = [] := by
  induction xs generalizing start with
  | nil => rfl
  | cons x rest ih =>
    unfold forEachIndexed
    rw [autoFilters_append, h, ih]
    rfl

theorem autoFilters_headerRow (r : Report) (sheet : String) (headers : List String) :
    autoFilters (headerRow r sheet headers) = [] :=
  autoFilters_forEachIndexed _ _ _ fun _ _ => rfl

theorem autoFilters_entityRows {α : Type} (r : Report) (sheet : String)
    (values : α → List CellValue) (entities : List α) :
    autoFilters (entityRows r sheet values entities) = [] :=
  autoFilters_forEachIndexed _ _ _ fun _ _ => autoFilters_forEachIndexed _ _ _ fun _ _ => rfl

theorem autoFilters_autoFitAll (autoFitError : String → Option String)
    (sheets : List String) : autoFilters (autoFitAll autoFitError sheets).1 = [] := by
  induction sheets with
  | nil => rfl
  | cons sheet rest ih =>
    unfold autoFitAll
    cases autoFitError sheet with
    | some err => rfl
    | none => simpa [autoFilters] using ih

/-- The sheet generators without an `AutoFilter` call. -/
theorem autoFilters_unfiltered_sheets (toLower : String → String) (r : Report)
    (data : AssessmentData) :
    autoFilters (generateNodes r data.ClusterInfo.Nodes) = [] ∧
    autoFilters (generateNamespaces r data.ClusterInfo.Namespaces) = [] ∧
    autoFilters (generatePods toLower r data.Workloads) = [] ∧
    autoFilters (generateDeployments r data.Workloads.Deployments) = [] ∧
    autoFilters (generateStatefulSets r data.Workloads.StatefulSets) = [] ∧
    autoFilters (generateDaemonSets r data.Workloads.DaemonSets) = [] ∧
    autoFilters (generateServices r data.Network.Services) = [] ∧
    autoFilters (generateIngresses r data.Network.Ingresses) = [] ∧
    autoFilters (generateSecrets r data.Secrets.Secrets) = [] := by
  refine ⟨?_, ?_, ?_, ?_, ?_, ?_, ?_, ?_, ?_⟩ <;>
    simp only [generateNodes, generateNamespaces, generatePods, generateDeployments,
      generateStatefulSets, generateDaemonSets, generateServices, generateIngresses,
      generateSecrets, autoFilters_append, autoFilters_headerRow, autoFilters_entityRows,
      List.nil_append] <;>
    rfl

/-- The sheet generators with an `AutoFilter` call. -/
theorem autoFilters_filtered_sheets (r : Report) (sheets : List String)
    (data : AssessmentData) :
    autoFilters (generateNetworkPolicies r data.Network.NetworkPolicies) =
      [("Network Policies", "A1:F1")] ∧
    autoFilters (generateServiceAccounts r sheets data.RBAC.ServiceAccounts) =
      [("Service Accounts", "A1:F1")] ∧
    autoFilters (generateRoles r data.RBAC) = [("Roles", "A1:D1")] ∧
    autoFilters (generateRoleBindings r data.RBAC) = [("Role Bindings", "A1:E1")] ∧
    autoFilters (generateClusterRoles r data.RBAC) = [("Cluster Roles", "A1:C1")] ∧
    autoFilters (generateClusterRoleBindings r data.RBAC) =
      [("Cluster Role Bindings", "A1:D1")] := by
  refine ⟨?_, ?_, ?_, ?_, ?_, ?_⟩
  · simp only [generateNetworkPolicies, autoFilters_append, autoFilters_headerRow,
      autoFilters_entityRows, List.nil_append]
    decide
  · simp only [generateServiceAccounts, autoFilters_append, autoFilters_headerRow,
      autoFilters_entityRows, List.nil_append]
    split <;> decide
  · simp only [generateRoles, autoFilters_append, autoFilters_headerRow,
      autoFilters_entityRows, List.nil_append]
    decide
  · simp only [generateRoleBindings, autoFilters_append, autoFilters_headerRow,
      autoFilters_entityRows, List.nil_append]
    decide
  · simp only [generateClusterRoles, autoFilters_append, autoFilters_headerRow,
      autoFilters_entityRows, List.nil_append]
    decide
  · simp only [generateClusterRoleBindings, autoFilters_append, autoFilters_headerRow,
      autoFilters_entityRows, List.nil_append]
    decide

theorem autoFilters_generateAllSheets (toLower : String → String) (r : Report)
    (data : AssessmentData) :
    autoFilters (generateAllSheets toLower r data) =
      [ ("Network Policies", "A1:F1"), ("Service Accounts", "A1:F1"), ("Roles", "A1:D1"),
        ("Role Bindings", "A1:E1"), ("Cluster Roles", "A1:C1"),
        ("Cluster Role Bindings", "A1:D1") ] := by
  obtain ⟨u1, u2, u3, u4, u5, u6, u7, u8, u9⟩ := autoFilters_unfiltered_sheets toLower r data
  obtain ⟨f1, f2, f3, f4, f5, f6⟩ :=
    autoFilters_filtered_sheets r (workbookSheets (initializeSheets generateSheets)) data
  have hcreated : autoFilters (initializeSheets generateSheets) = [] := by decide
  have htoc : autoFilters (generateTableOfContents r generateSheets) = [] := by rfl
  have hdash : autoFilters (generateDashboard r data) = [] := by rfl
  unfold generateAllSheets
  simp only [autoFilters_append, u1, u2, u3, u4, u5, u6, u7, u8, u9, f1, f2, f3, f4, f5, f6,
    hcreated, htoc, hdash]
  rfl

/-- C25 (code defect).  Nine of the fifteen resource sheet generators make no
`AutoFilter` call: Nodes, Namespaces, Pods, Deployments, StatefulSets,
DaemonSets, Services, Ingresses, Secrets.  The other six apply one auto-filter
each over "A1:<last header column>1": Network Policies (A1:F1), Service
Accounts (A1:F1), Roles (A1:D1), Role Bindings (A1:E1), Cluster Roles (A1:C1),
Cluster Role Bindings (A1:D1); these six are all the auto-filters of a run of
`Generate`. -/
theorem nine_resource_sheets_apply_no_auto_filter (toLower : String → String) (r : Report)
    (autoFitError : String → Option String) (saveAsError : Option String)
    (data : AssessmentData) :
    (autoFilters (generateNodes r data.ClusterInfo.Nodes) = [] ∧
     autoFilters (generateNamespaces r data.ClusterInfo.Namespaces) = [] ∧
     autoFilters (generatePods toLower r data.Workloads) = [] ∧
     autoFilters (generateDeployments r data.Workloads.Deployments) = [] ∧
     autoFilters (generateStatefulSets r data.Workloads.StatefulSets) = [] ∧
     autoFilters (generateDaemonSets r data.Workloads.DaemonSets) = [] ∧
     autoFilters (generateServices r data.Network.Services) = [] ∧
     autoFilters (generateIngresses r data.Network.Ingresses) = [] ∧
     autoFilters (generateSecrets r data.Secrets.Secrets) = []) ∧
    (autoFilters (generateNetworkPolicies r data.Network.NetworkPolicies) =
       [("Network Policies", "A1:F1")] ∧
     autoFilters
         (generateServiceAccounts r (workbookSheets (initializeSheets generateSheets))
           data.RBAC.ServiceAccounts) =
       [("Service Accounts", "A1:F1")] ∧
     autoFilters (generateRoles r data.RBAC) = [("Roles", "A1:D1")] ∧
     autoFilters (generateRoleBindings r data.RBAC) = [("Role Bindings", "A1:E1")] ∧
     autoFilters (generateClusterRoles r data.RBAC) = [("Cluster Roles", "A1:C1")] ∧
     autoFilters (generateClusterRoleBindings r data.RBAC) =
       [("Cluster Role Bindings", "A1:D1")]) ∧
    autoFilters (Generate toLower (.ok r) autoFitError saveAsError data).calls =
      [ ("Network Policies", "A1:F1"), ("Service Accounts", "A1:F1"), ("Roles", "A1:D1"),
        ("Role Bindings", "A1:E1"), ("Cluster Roles", "A1:C1"),
        ("Cluster Role Bindings", "A1:D1") ] ∧
    podHeaders.length = 19 ∧
    headerAutoFilter "Pods" podHeaders = .autoFilter "Pods" "A1:S1" ∧
    headerAutoFilter "Pods" podHeaders ∉ generatePods toLower r data.Workloads := by
  refine ⟨autoFilters_unfiltered_sheets toLower r data, autoFilters_filtered_sheets r _ data, ?_,
    rfl, by decide, ?_⟩
  · have hall := autoFilters_generateAllSheets toLower r data
    have hfit := autoFilters_autoFitAll autoFitError generateSheets
    unfold Generate
    dsimp only
    rcases hres : autoFitAll autoFitError generateSheets with ⟨fitted, err⟩
    rw [hres] at hfit
    cases err with
    | some e => simp only [autoFilters_append, hall, hfit, List.append_nil]
    | none =>
      cases saveAsError with
      | some e =>
        simp only [autoFilters_append, hall, hfit, List.append_nil]
        rfl
      | none =>
        simp only [autoFilters_append, hall, hfit, List.append_nil]
        rfl
  · intro hmem
    have hnone := (autoFilters_unfiltered_sheets toLower r data).2.2.1
    have hin : ("Pods", "A1:S1") ∈ autoFilters (generatePods toLower r data.Workloads) := by
      unfold autoFilters
      rw [List.mem_filterMap]
      exact ⟨_, hmem, by decide⟩
    rw [hnone] at hin
    exact absurd hin (List.not_mem_nil _)

/-! ## Node readiness: the first "Ready" condition -/

theorem nodeReady_append_cons (before after : List RawNodeCondition) (cond : RawNodeCondition)
    (hbefore : ∀ x ∈ before, x.Type_ ≠ "Ready") (hcond : cond.Type_ = "Ready") :
    nodeReady (before ++ cond :: after) = decide (cond.Status = "True") := by
  induction before with
  | nil => simp [nodeReady, hcond]
  | cons b rest ih =>
    rw [List.cons_append]
    unfold nodeReady
    rw [if_neg (hbefore b (List.mem_cons_self _ _))]
    exact ih fun x hx => hbefore x (List.mem_cons_of_mem _ hx)

/-- C26.  Let the conditions of a node be `before`, then a condition of type
"Ready", then `after`, with no condition of type "Ready" in `before`.  Then the
collected `Ready` is true exactly when that condition has status "True", and
it stays the same when `after` is replaced by any other conditions.  When no
condition of the node has type "Ready", the collected `Ready` is false.  The
nodes of a successful `collectClusterInfo` are the `NodeInfo` records of the
listed nodes, in order. -/
theorem node_ready_is_status_of_first_ready_condition (node : RawNode) :
    (∀ (before after : List RawNodeCondition) (cond : RawNodeCondition),
      node.Conditions = before ++ cond :: after →
      (∀ x ∈ before, x.Type_ ≠ "Ready") → cond.Type_ = "Ready" →
      ((nodeInfo node).Ready = true ↔ cond.Status = "True") ∧
      ∀ others : List RawNodeCondition,
        (nodeInfo { node with Conditions := before ++ cond :: others }).Ready =
          (nodeInfo node).Ready) ∧
    ((∀ x ∈ node.Conditions, x.Type_ ≠ "Ready") → (nodeInfo node).Ready = false) ∧
    (∀ (c : Client) (nodes : List RawNode) (ci : ClusterInfo),
      c.Nodes = .ok nodes → collectClusterInfo c = .ok ci → node ∈ nodes →
      ci.Nodes = nodes.map nodeInfo ∧ nodeInfo node ∈ ci.Nodes) := by
  refine ⟨?_, nodeReady_eq_false_of_no_ready node.Conditions, ?_⟩
  · intro before after cond hconds hbefore hcond
    have hready : (nodeInfo node).Ready = decide (cond.Status = "True") := by
      show nodeReady node.Conditions = _
      rw [hconds]
      exact nodeReady_append_cons before after cond hbefore hcond
    refine ⟨by rw [hready]; simp, ?_⟩
    intro others
    rw [hready]
    exact nodeReady_append_cons before others cond hbefore hcond
  · intro c nodes ci hnodes hci hmem
    have hmap := collectClusterInfo_nodes c nodes ci hnodes hci
    exact ⟨hmap, by rw [hmap]; exact List.mem_map_of_mem _ hmem⟩

/-- Witness for C26: the first "Ready" condition of `twoReadyConditionsNode`
has status "False", so the node is collected as not ready although a later
"Ready" condition has status "True". -/
theorem node_ready_is_status_of_first_ready_condition_witness :
    ((nodeInfo twoReadyConditionsNode).Ready = true ↔ "False" = "True") ∧
    ∀ others : List RawNodeCondition,
      (nodeInfo
          { twoReadyConditionsNode with
            Conditions := [] ++ { Type_ := "Ready", Status := "False" } :: others }).Ready =
        (nodeInfo twoReadyConditionsNode).Ready :=
  (node_ready_is_status_of_first_ready_condition twoReadyConditionsNode).1 []
    [{ Type_ := "Ready", Status := "True" }] { Type_ := "Ready", Status := "False" } rfl
    (by simp) rfl

/-! ## The environment variables cell of the Pods sheet -/

theorem foldl_envVarKept (toLower : String → String) (names init : List String) :
    names.foldl
        (fun envVars env => if envVarKept toLower env then envVars ++ [env] else envVars)
        init =
      init ++ names.filter (envVarKept toLower) := by
  induction names generalizing init with
  | nil => simp
  | cons name rest ih =>
    rw [List.foldl_cons, ih]
    by_cases hk : envVarKept toLower name = true
    · simp [hk, List.filter_cons]
    · simp [hk, List.filter_cons]

theorem foldl_podContainerStep_envVars (toLower : String → String) (cs : List ContainerInfo)
    (s : PodRowState) :
    (cs.foldl (podContainerStep toLower) s).envVars =
      s.envVars ++ ((cs.map fun c => c.EnvVars).flatten.filter (envVarKept toLower)) := by
  induction cs generalizing s with
  | nil => simp
  | cons c rest ih =>
    rw [List.foldl_cons, ih]
    simp [podContainerStep, foldl_envVarKept, List.filter_append, List.append_assoc]

theorem coordinatesToCellName_Q (row : Nat) :
    coordinatesToCellName 17 (row + 2) = cellName "Q" (row + 2) := by
  simp [coordinatesToCellName, columnNumberToName, MaxColumns, cellName, columnLetters]
  rfl

theorem cellWrites_generatePods (toLower : String → String) (r : Report)
    (workloads : WorkloadAssessment) :
    cellWrites (generatePods toLower r workloads) =
      cellWrites (headerRow r "Pods" podHeaders) ++
        cellWrites (entityRows r "Pods" (podValues toLower) workloads.Pods) := by
  unfold generatePods
  dsimp only
  rw [cellWrites_append, cellWrites_append]
  simp [cellWrites]

theorem envVarKept_iff (toLower : String → String) (name : String) :
    envVarKept toLower name = true ↔
      stringContains (toLower name) "secret" = false ∧
      stringContains (toLower name) "password" = false ∧
      stringContains (toLower name) "key" = false := by
  simp [envVarKept, and_assoc]

/-- C27.  Let `toLower` be the lower-casing function `strings.ToLower`.  After
the calls of `generatePods` the "Environment Variables" cell of a pod (column
Q of the Pods sheet, row `i + 2` for the pod at index `i`, under the header
in Q1) holds the newline-join of the collected variable names of the pod, in
container order and then declaration order, whose lower-cased form contains
none of "secret", "password", "key": a name is in the joined list exactly when
it is a collected name of the pod and its lower-cased form contains none of
the three, and the joined list keeps the order of the collected names.  When
`toLower` lowers ASCII strings as `toLowerASCII` does, an ASCII name is kept
exactly when no spelling of the three words in any letter case occurs in it;
of the names PATH, API_KEY, Db_Password, MY_SECRET_TOKEN, HOME, KeyStore, LANG
the cell then holds PATH, HOME and LANG. -/
theorem environment_variables_cell_joins_names_without_secret_words
    (toLower : String → String) (r : Report) (workloads : WorkloadAssessment) (i : Nat)
    (pod : PodInfo) (hpod : workloads.Pods[i]? = some pod) :
    podHeaders[16]? = some "Environment Variables" ∧
    (podValues toLower pod)[16]? =
      some (.str
        (String.intercalate "\n" ((podEnvVarNames pod).filter (envVarKept toLower)))) ∧
    cellValue? (generatePods toLower r workloads) "Pods" "Q1" =
      some (.str "Environment Variables") ∧
    cellValue? (generatePods toLower r workloads) "Pods" (cellName "Q" (i + 2)) =
      some (.str
        (String.intercalate "\n" ((podEnvVarNames pod).filter (envVarKept toLower)))) ∧
    (∀ name, envVarKept toLower name = true ↔
      stringContains (toLower name) "secret" = false ∧
      stringContains (toLower name) "password" = false ∧
      stringContains (toLower name) "key" = false) ∧
    (∀ name, name ∈ (podEnvVarNames pod).filter (envVarKept toLower) ↔
      name ∈ podEnvVarNames pod ∧
      stringContains (toLower name) "secret" = false ∧
      stringContains (toLower name) "password" = false ∧
      stringContains (toLower name) "key" = false) ∧
    ((podEnvVarNames pod).filter (envVarKept toLower)).Sublist (podEnvVarNames pod) ∧
    ((∀ s, IsASCII s → toLower s = toLowerASCII s) →
      (∀ name, IsASCII name →
        (envVarKept toLower name = true ↔
          stringContains (toLowerASCII name) "secret" = false ∧
          stringContains (toLowerASCII name) "password" = false ∧
          stringContains (toLowerASCII name) "key" = false)) ∧
      podEnvVarNames (podInfo envVarsRawPod) =
        ["PATH", "API_KEY", "Db_Password", "MY_SECRET_TOKEN", "HOME", "KeyStore", "LANG"] ∧
      (podEnvVarNames (podInfo envVarsRawPod)).filter (envVarKept toLower) =
        ["PATH", "HOME", "LANG"] ∧
      cellValue?
          (generatePods toLower r
            { Pods := [podInfo envVarsRawPod], Deployments := [], StatefulSets := [],
              DaemonSets := [] })
          "Pods" "Q2" = some (.str "PATH\nHOME\nLANG")) := by
  have hvalue : ∀ p : PodInfo, (podValues toLower p)[16]? =
      some (.str
        (String.intercalate "\n" ((podEnvVarNames p).filter (envVarKept toLower)))) := by
    intro p
    simp [podValues, foldl_podContainerStep_envVars, podEnvVarNames]
  have hlen : ∀ p : PodInfo, (podValues toLower p).length ≤ 26 := by
    intro p
    simp [podValues]
  have hcell : ∀ (w : WorkloadAssessment) (k : Nat) (p : PodInfo), w.Pods[k]? = some p →
      cellValue? (generatePods toLower r w) "Pods" (cellName "Q" (k + 2)) =
        some (.str
          (String.intercalate "\n" ((podEnvVarNames p).filter (envVarKept toLower)))) := by
    intro w k p hp
    rw [← coordinatesToCellName_Q]
    exact cellValue?_entity_cell r _ _ (podValues toLower) _ _
      (cellWrites_generatePods toLower r w) (by decide) hlen k 16 p _ hp (hvalue p)
  refine ⟨by decide, hvalue pod, ?_, hcell workloads i pod hpod, envVarKept_iff toLower, ?_,
    List.filter_sublist _, ?_⟩
  · exact cellValue?_header_cell r _ _ (podValues toLower) _ _
      (cellWrites_generatePods toLower r workloads) (by decide) hlen 16
      "Environment Variables" rfl
  · intro name
    rw [List.mem_filter, envVarKept_iff]
  · intro hascii
    have hkept : ∀ name, IsASCII name →
        envVarKept toLower name = envVarKept toLowerASCII name := by
      intro name hname
      simp [envVarKept, hascii name hname]
    have hnames : podEnvVarNames (podInfo envVarsRawPod) =
        ["PATH", "API_KEY", "Db_Password", "MY_SECRET_TOKEN", "HOME", "KeyStore", "LANG"] := by
      decide
    have hfilter : (podEnvVarNames (podInfo envVarsRawPod)).filter (envVarKept toLower) =
        ["PATH", "HOME", "LANG"] := by
      have hcongr : (podEnvVarNames (podInfo envVarsRawPod)).filter (envVarKept toLower) =
          (podEnvVarNames (podInfo envVarsRawPod)).filter (envVarKept toLowerASCII) := by
        apply List.filter_congr
        intro name hmem
        rw [hnames] at hmem
        apply hkept
        revert name
        decide
      rw [hcongr]
      decide
    refine ⟨?_, hnames, hfilter, ?_⟩
    · intro name hname
      rw [hkept name hname, envVarKept_iff]
    · have h := hcell
        { Pods := [podInfo envVarsRawPod], Deployments := [], StatefulSets := [],
          DaemonSets := [] } 0 (podInfo envVarsRawPod) rfl
      rw [hfilter] at h
      exact h

/-- Witness for C27: the pod collected from `envVarsRawPod` as the only pod,
with the lower-casing of ASCII letters. -/
theorem environment_variables_cell_joins_names_without_secret_words_witness :
    cellValue?
        (generatePods toLowerASCII sampleReport
          { Pods := [podInfo envVarsRawPod], Deployments := [], StatefulSets := [],
            DaemonSets := [] })
        "Pods" "Q2" = some (.str "PATH\nHOME\nLANG") :=
  ((environment_variables_cell_joins_names_without_secret_words toLowerASCII sampleReport
    { Pods := [podInfo envVarsRawPod], Deployments := [], StatefulSets := [],
      DaemonSets := [] }
    0 (podInfo envVarsRawPod) rfl).2.2.2.2.2.2.2 fun _ _ => rfl).2.2.2

/-! ## The privileged and run-as-root totals together -/

theorem privilegedHit_add_rootHit (cs : List ContainerInfo) :
    privilegedHit cs + rootHit cs =
      if cs.any (fun c =>
        c.SecurityContext.Privileged || decide (c.SecurityContext.RunAsUser = some 0))
      then 1 else 0 := by
  induction cs with
  | nil => rfl
  | cons c rest ih =>
    by_cases hp : c.SecurityContext.Privileged = true
    · simp [privilegedHit, rootHit, hp]
    · by_cases hr : c.SecurityContext.RunAsUser = some 0
      · simp [privilegedHit, rootHit, hp, hr]
      · simp only [privilegedHit, rootHit, hp, hr, if_false, List.any_cons, Bool.false_or,
          decide_False, Bool.false_eq_true]
        simpa using ih

theorem hits_of_first_risky_container (before after : List ContainerInfo) (c : ContainerInfo)
    (hbefore : ∀ x ∈ before,
      x.SecurityContext.Privileged = false ∧ x.SecurityContext.RunAsUser ≠ some 0)
    (hc : c.SecurityContext.Privileged = true ∨ c.SecurityContext.RunAsUser = some 0) :
    privilegedHit (before ++ c :: after) = (if c.SecurityContext.Privileged then 1 else 0) ∧
    rootHit (before ++ c :: after) = (if c.SecurityContext.Privileged then 0 else 1) := by
  induction before with
  | nil =>
    by_cases hp : c.SecurityContext.Privileged = true
    · simp [privilegedHit, rootHit, hp]
    · have hr : c.SecurityContext.RunAsUser = some 0 := hc.resolve_left hp
      simp [privilegedHit, rootHit, hp, hr]
  | cons b rest ih =>
    obtain ⟨hb1, hb2⟩ := hbefore b (List.mem_cons_self _ _)
    have hrest := ih fun x hx => hbefore x (List.mem_cons_of_mem _ hx)
    simp only [List.cons_append, privilegedHit, rootHit, hb1, hb2, if_false,
      Bool.false_eq_true]
    exact hrest

theorem foldl_countPod_podTotal (pods : List PodInfo) (t : PodSecurityTotals) :
    (pods.foldl countPod t).podTotal = t.podTotal := by
  induction pods generalizing t with
  | nil => rfl
  | cons pod rest ih =>
    rw [List.foldl_cons, ih]
    unfold countPod
    simp only [scanContainers_eq]
    split_ifs <;> rfl

theorem sum_hits_eq_countP (pods : List PodInfo) :
    (pods.map fun pod => privilegedHit pod.Containers).sum +
        (pods.map fun pod => rootHit pod.Containers).sum =
      pods.countP hasPrivilegedOrRootContainer := by
  induction pods with
  | nil => rfl
  | cons pod rest ih =>
    have h := privilegedHit_add_rootHit pod.Containers
    simp only [List.map_cons, List.sum_cons, List.countP_cons, hasPrivilegedOrRootContainer]
      at ih ⊢
    split_ifs at h ⊢ <;> omega

/-- C28.  The totals "Privileged" and "RunAsRoot" of the dashboard (F15 and
F19) add up to the number of pods that have a container that is privileged or
has run-as-user 0, and this sum is at most the total "Total Pods" (F14), the
number of pods.  One pod raises the sum by 1 when it has such a container and
by 0 otherwise, so it never counts for both totals.  When the first such
container of a pod is privileged the pod counts as privileged only, otherwise
as run-as-root only, whatever the containers after it are. -/
theorem privileged_and_root_totals_count_each_pod_once (r : Report) (data : AssessmentData) :
    cellValue? (generateDashboard r data) "Dashboard" "E14" = some (.str "Total Pods") ∧
    cellValue? (generateDashboard r data) "Dashboard" "F14" =
      some (.int (podSecurityTotals data.Workloads.Pods).podTotal) ∧
    cellValue? (generateDashboard r data) "Dashboard" "F15" =
      some (.int (podSecurityTotals data.Workloads.Pods).podPrivileged) ∧
    cellValue? (generateDashboard r data) "Dashboard" "F19" =
      some (.int (podSecurityTotals data.Workloads.Pods).podRunAsRoot) ∧
    (podSecurityTotals data.Workloads.Pods).podTotal = data.Workloads.Pods.length ∧
    (podSecurityTotals data.Workloads.Pods).podPrivileged +
        (podSecurityTotals data.Workloads.Pods).podRunAsRoot =
      data.Workloads.Pods.countP hasPrivilegedOrRootContainer ∧
    (podSecurityTotals data.Workloads.Pods).podPrivileged +
        (podSecurityTotals data.Workloads.Pods).podRunAsRoot ≤
      (podSecurityTotals data.Workloads.Pods).podTotal ∧
    (∀ (t : PodSecurityTotals) (pod : PodInfo),
      (countPod t pod).podPrivileged + (countPod t pod).podRunAsRoot =
        t.podPrivileged + t.podRunAsRoot +
          (if hasPrivilegedOrRootContainer pod then 1 else 0)) ∧
    (∀ (t : PodSecurityTotals) (pod : PodInfo),
      ((countPod t pod).podPrivileged = t.podPrivileged ∧
        (countPod t pod).podRunAsRoot ≤ t.podRunAsRoot + 1) ∨
      ((countPod t pod).podRunAsRoot = t.podRunAsRoot ∧
        (countPod t pod).podPrivileged ≤ t.podPrivileged + 1)) ∧
    (∀ (before after : List ContainerInfo) (c : ContainerInfo),
      (∀ x ∈ before,
        x.SecurityContext.Privileged = false ∧ x.SecurityContext.RunAsUser ≠ some 0) →
      (c.SecurityContext.Privileged = true ∨ c.SecurityContext.RunAsUser = some 0) →
      ∀ (t : PodSecurityTotals) (pod : PodInfo), pod.Containers = before ++ c :: after →
        (countPod t pod).podPrivileged =
          t.podPrivileged + (if c.SecurityContext.Privileged then 1 else 0) ∧
        (countPod t pod).podRunAsRoot =
          t.podRunAsRoot + (if c.SecurityContext.Privileged then 0 else 1)) := by
  have hsum : (podSecurityTotals data.Workloads.Pods).podPrivileged +
      (podSecurityTotals data.Workloads.Pods).podRunAsRoot =
      data.Workloads.Pods.countP hasPrivilegedOrRootContainer := by
    rw [podSecurityTotals_podPrivileged, podSecurityTotals_podRunAsRoot, sum_hits_eq_countP]
  have htotal : (podSecurityTotals data.Workloads.Pods).podTotal =
      data.Workloads.Pods.length := by
    unfold podSecurityTotals
    rw [foldl_countPod_podTotal]
  refine ⟨by rfl, by rfl, by rfl, by rfl, htotal, hsum, ?_, ?_, ?_, ?_⟩
  · rw [hsum, htotal]
    exact List.countP_le_length _
  · intro t pod
    have h := privilegedHit_add_rootHit pod.Containers
    rw [countPod_podPrivileged, countPod_podRunAsRoot]
    unfold hasPrivilegedOrRootContainer
    split_ifs at h ⊢ <;> omega
  · intro t pod
    have h := privilegedHit_add_rootHit pod.Containers
    rw [countPod_podPrivileged, countPod_podRunAsRoot]
    split_ifs at h <;> omega
  · intro before after c hbefore hc t pod hpod
    obtain ⟨h1, h2⟩ := hits_of_first_risky_container before after c hbefore hc
    rw [countPod_podPrivileged, countPod_podRunAsRoot, hpod, h1, h2]
    exact ⟨rfl, rfl⟩

/-- Witness for C28: the first container of `rootThenPrivilegedPod` runs as
user 0 and is not privileged, so the pod counts as run-as-root and not as
privileged although its second container is privileged. -/
theorem privileged_and_root_totals_count_each_pod_once_witness :
    (countPod (podSecurityTotals []) rootThenPrivilegedPod).podPrivileged = 0 + 0 ∧
    (countPod (podSecurityTotals []) rootThenPrivilegedPod).podRunAsRoot = 0 + 1 :=
  (privileged_and_root_totals_count_each_pod_once sampleReport emptyAssessment).2.2.2.2.2.2.2.2.2
    [] [sampleContainer "main" true none] (sampleContainer "init" false (some 0))
    (by simp) (Or.inr rfl) (podSecurityTotals []) rootThenPrivilegedPod rfl

/-! ## Host-namespace flags of a pod without pod-level security context -/

/-- C29.  When the pod spec has a pod-level security context, the collected
flags `HostNetwork`, `HostPID`, `HostIPC` are the spec's `hostNetwork`,
`hostPID`, `hostIPC`.  When it has none, the three flags are false whatever
the spec's fields are, and the pod adds nothing to the dashboard totals
"Host Network", "Host PID", "Host IPC": the counters are the same with the pod
as without it, wherever it stands in the pod sequence.  For the pod
`hostNamespacesRawPod`, whose spec sets all three fields and has no security
context, the dashboard shows 0 in F16, F17, F18; with an empty security
context it shows 1. -/
theorem host_flags_are_collected_only_with_pod_security_context (pod : RawPod) :
    (podInfo pod).SecurityContext = podSecurityInfo pod ∧
    (∀ podSecurity, pod.SecurityContext = some podSecurity →
      (podSecurityInfo pod).HostNetwork = pod.HostNetwork ∧
      (podSecurityInfo pod).HostPID = pod.HostPID ∧
      (podSecurityInfo pod).HostIPC = pod.HostIPC) ∧
    (pod.SecurityContext = none →
      (podSecurityInfo pod).HostNetwork = false ∧
      (podSecurityInfo pod).HostPID = false ∧
      (podSecurityInfo pod).HostIPC = false) ∧
    (pod.SecurityContext = none →
      ∀ t : PodSecurityTotals,
        (countPod t (podInfo pod)).podHostNetwork = t.podHostNetwork ∧
        (countPod t (podInfo pod)).podHostPID = t.podHostPID ∧
        (countPod t (podInfo pod)).podHostIPC = t.podHostIPC) ∧
    (pod.SecurityContext = none →
      ∀ before after : List PodInfo,
        (podSecurityTotals (before ++ podInfo pod :: after)).podHostNetwork =
          (podSecurityTotals (before ++ after)).podHostNetwork ∧
        (podSecurityTotals (before ++ podInfo pod :: after)).podHostPID =
          (podSecurityTotals (before ++ after)).podHostPID ∧
        (podSecurityTotals (before ++ podInfo pod :: after)).podHostIPC =
          (podSecurityTotals (before ++ after)).podHostIPC) ∧
    (∀ r : Report,
      cellValue? (generateDashboard r (assessmentOfPods [podInfo hostNamespacesRawPod]))
        "Dashboard" "F16" = some (.int 0) ∧
      cellValue? (generateDashboard r (assessmentOfPods [podInfo hostNamespacesRawPod]))
        "Dashboard" "F17" = some (.int 0) ∧
      cellValue? (generateDashboard r (assessmentOfPods [podInfo hostNamespacesRawPod]))
        "Dashboard" "F18" = some (.int 0) ∧
      cellValue?
        (generateDashboard r (assessmentOfPods [podInfo hostNamespacesContextRawPod]))
        "Dashboard" "F16" = some (.int 1)) := by
  have hflags : pod.SecurityContext = none →
      (podSecurityInfo pod).HostNetwork = false ∧ (podSecurityInfo pod).HostPID = false ∧
      (podSecurityInfo pod).HostIPC = false := by
    intro hnone
    simp [podSecurityInfo, hnone]
  refine ⟨rfl, ?_, hflags, ?_, ?_, ?_⟩
  · intro podSecurity hsome
    simp [podSecurityInfo, hsome]
  · intro hnone t
    obtain ⟨f1, f2, f3⟩ := hflags hnone
    obtain ⟨c1, c2, c3⟩ := countPod_hostFlags t (podInfo pod)
    have hsc : (podInfo pod).SecurityContext = podSecurityInfo pod := rfl
    rw [c1, c2, c3, hsc, f1, f2, f3]
    simp
  · intro hnone before after
    obtain ⟨f1, f2, f3⟩ := hflags hnone
    have hsc : (podInfo pod).SecurityContext = podSecurityInfo pod := rfl
    obtain ⟨a1, a2, a3⟩ := podSecurityTotals_hostFlags (before ++ podInfo pod :: after)
    obtain ⟨b1, b2, b3⟩ := podSecurityTotals_hostFlags (before ++ after)
    rw [a1, a2, a3, b1, b2, b3]
    simp [List.countP_append, List.countP_cons, hsc, f1, f2, f3]
  · intro r
    exact ⟨by rfl, by rfl, by rfl, by rfl⟩

/-- Witness for C29: the pod `hostNamespacesRawPod`. -/
theorem host_flags_are_collected_only_with_pod_security_context_witness :
    hostNamespacesRawPod.HostNetwork = true ∧
    (podSecurityInfo hostNamespacesRawPod).HostNetwork = false ∧
    (podSecurityInfo hostNamespacesRawPod).HostPID = false ∧
    (podSecurityInfo hostNamespacesRawPod).HostIPC = false :=
  ⟨rfl,
    (host_flags_are_collected_only_with_pod_security_context hostNamespacesRawPod).2.2.1 rfl⟩

/-! ## Nil pointers in the per-entity conversions -/

/-- C30 (code defect, evaluated at the failing inputs).  The conversion of an
HTTP path whose backend names no service gives no `IngressPath`, that of a
deployment or stateful set with no replica count no model entry: each
dereferences a nil pointer.  The collector that meets such a record stops:
`collectNetworkInfo` on the ingress `resourceBackendIngress`,
`collectWorkloadInfo` on a deployment and on a stateful set without replica
count, and with it `CollectAll`.  With the pointers set the same records are
converted. -/
theorem conversions_stop_on_nil_pointers :
    ingressPath { Path := "/", BackendService := none } = none ∧
    ingressInfo resourceBackendIngress = none ∧
    collectNetworkInfo resourceBackendClient = .nilDereference ∧
    (sampleDeployment none).Replicas = none ∧
    deploymentInfo (sampleDeployment none) = none ∧
    collectWorkloadInfo unsetReplicasClient = .nilDereference ∧
    unsetReplicasStatefulSet.Replicas = none ∧
    statefulSetInfo unsetReplicasStatefulSet = none ∧
    collectWorkloadInfo unsetStatefulSetReplicasClient = .nilDereference ∧
    CollectAll unsetReplicasCluster = .nilDereference ∧
    ingressPath { Path := "/", BackendService := some { Name := "web", PortNumber := 80 } } =
      some { Path := "/", ServiceName := "web", ServicePort := 80 } ∧
    (deploymentInfo (sampleDeployment (some 2))).map (fun d => d.Replicas) = some 2 ∧
    (statefulSetInfo sampleStatefulSet).map (fun s => s.Replicas) = some 1 := by
  refine ⟨rfl, by decide, by decide, rfl, rfl, by decide, rfl, rfl, by decide, by decide,
    rfl, rfl, rfl⟩

end KubeRadar
